import Mathlib

/-!
# Zoho mail checker: token lifecycle and request relay

A shallow embedding of `src/js/auth.js` and `src/js/api.js` (the token manager and the
API client of the browser extension), of `src/server/proxy.js` (the local relay) and of the
message handling of `src/js/background.js`, and theorems about them.

Modelling conventions.

* JavaScript values are the type `JVal`.  Numbers are modelled as integers plus `NaN`
  (exact for the millisecond timestamps and second lifetimes the program computes with);
  fractional numbers are not represented.
* `chrome.storage.local` is a total map from keys to values in which `undefined` means
  that the key is absent.  Values are kept as they are written.
* An asynchronous function is a function from an environment (what the network answers,
  what the clock shows) and a world (storage, the requests issued so far, the badge) to an
  outcome and a new world.  `console.log` and `console.error` have no effect on the world and
  are left out.
* Library functions whose exact result the statements do not depend on (URL encoding,
  `JSON.stringify`, `JSON.parse`, `toLowerCase`) are fields of a `Platform` that the
  definitions take as an argument.
-/

namespace ZohoMail

/-! ## JavaScript values -/

mutual
/-- A JavaScript value as it can come out of `JSON.parse` or of the storage. -/
inductive JVal where
  | undefined
  | null
  | bool (b : Bool)
  | num (n : Int)
  | nan
  | str (s : String)
  | arr (items : JList)
  | obj (fields : JFields)
  deriving DecidableEq
/-- The elements of an array. -/
inductive JList where
  | nil
  | cons (head : JVal) (tail : JList)
  deriving DecidableEq
/-- The own properties of an object, in insertion order, each key once. -/
inductive JFields where
  | nil
  | cons (key : String) (value : JVal) (rest : JFields)
  deriving DecidableEq
end

/-- A JavaScript number of the model: an integer, or `none` for `NaN`.  The arithmetic below
is that of the integers; it is the arithmetic of the language, which computes in IEEE doubles,
as long as the operands and the result are integers of absolute value at most
`Number.MAX_SAFE_INTEGER` = 9007199254740991. -/
abbrev JNum := Option Int

/-- The value a number is stored as. -/
def JVal.ofNum : JNum → JVal
  | some n => .num n
  | none => .nan

/-- Addition of numbers; `NaN` is absorbing.  Exact integer addition: it is the addition of the
language while the operands and the sum stay within `Number.MAX_SAFE_INTEGER`. -/
def JNum.add : JNum → JNum → JNum
  | some a, some b => some (a + b)
  | _, _ => none

/-- Subtraction of numbers; `NaN` is absorbing. -/
def JNum.sub : JNum → JNum → JNum
  | some a, some b => some (a - b)
  | _, _ => none

/-- Multiplication of numbers; `NaN` is absorbing.  Exact integer multiplication: it is the
multiplication of the language while the operands and the product stay within
`Number.MAX_SAFE_INTEGER`. -/
def JNum.mul : JNum → JNum → JNum
  | some a, some b => some (a * b)
  | _, _ => none

/-- The comparison `a > b`; it is false as soon as one side is `NaN`. -/
def JNum.gt : JNum → JNum → Bool
  | some a, some b => decide (a > b)
  | _, _ => false

/-- Truthiness (the test of `if (v)`, `!v`, `a || b` and `a && b`). -/
def truthy : JVal → Bool
  | .undefined => false
  | .null => false
  | .bool b => b
  | .num n => decide (n ≠ 0)
  | .nan => false
  | .str s => decide (s ≠ "")
  | .arr _ => true
  | .obj _ => true

/-- The operator `a || b`. -/
def jsOr (a b : JVal) : JVal := if truthy a then a else b

mutual
/-- The conversion `String(v)`, used by template literals, `URLSearchParams`, `new Error(v)`
and property keys.  It is the conversion of the language on strings, booleans, `undefined`,
`null`, `NaN`, integers of absolute value below `1e21`, objects without an own `toString`
member and arrays of such values; the language prints a larger number in exponent form and throws a `TypeError` on an
object whose own `toString` is not callable, which this function does not do (see
`JVal.isTextOrAbsent`). -/
def toJsString : JVal → String
  | .undefined => "undefined"
  | .null => "null"
  | .bool true => "true"
  | .bool false => "false"
  | .num n => toString n
  | .nan => "NaN"
  | .str s => s
  | .arr items => joinItems items
  | .obj _ => "[object Object]"
/-- The method `Array.prototype.join` with the separator `,`. -/
def joinItems : JList → String
  | .nil => ""
  | .cons x .nil => itemString x
  | .cons x (.cons y rest) => itemString x ++ "," ++ joinItems (.cons y rest)
/-- The string of one array element in a join: empty for `null` and `undefined`. -/
def itemString : JVal → String
  | .undefined => ""
  | .null => ""
  | .bool true => "true"
  | .bool false => "false"
  | .num n => toString n
  | .nan => "NaN"
  | .str s => s
  | .arr items => joinItems items
  | .obj _ => "[object Object]"
end

/-- A value that is a string or is absent (`undefined` or `null`): on these `toJsString` is
the conversion of the language without exception. -/
def JVal.isTextOrAbsent : JVal → Bool
  | .str _ => true
  | .undefined => true
  | .null => true
  | _ => false

/-- The own property `key` of a parsed object, `undefined` when there is none. -/
def JFields.get : JFields → String → JVal
  | .nil, _ => .undefined
  | .cons k v rest, key => if k = key then v else rest.get key

/-! ## Errors, outcomes, requests and responses -/

/-- A thrown `Error`; the program only ever inspects its message. -/
structure JsError where
  message : String
  deriving DecidableEq

/-- How the evaluation of an asynchronous function ends. -/
inductive Outcome (α : Type) where
  /-- The promise is fulfilled with a value. -/
  | returned (value : α)
  /-- The promise is rejected with an error. -/
  | thrown (error : JsError)
  /-- An awaited promise never settles, so the function never resumes. -/
  | pending
  /-- The recursion budget of the model is used up (no behaviour of the program). -/
  | outOfFuel
  deriving DecidableEq

/-- The body of a request. -/
inductive ReqBody where
  | none
  /-- A `URLSearchParams` body: the form parameters in order. -/
  | form (params : List (String × String))
  /-- A string body. -/
  | text (s : String)
  deriving DecidableEq

/-- A request handed to `fetch`. -/
structure Request where
  method : String
  url : String
  headers : List (String × String)
  body : ReqBody
  deriving DecidableEq

/-- The body of a response: either it parses as JSON to a value, or it is text that does not
parse, in which case `JSON.parse` throws a `SyntaxError` with the given message. -/
inductive Body where
  | json (value : JVal)
  | notJson (text : String) (syntaxError : String)
  deriving DecidableEq

/-- A response that `fetch` resolved with. -/
structure Response where
  status : Nat
  body : Body
  deriving DecidableEq

/-- What happens to one `fetch`. -/
inductive FetchOutcome where
  /-- The server answered. -/
  | responds (response : Response)
  /-- The promise is rejected (connection-level failure) with this message. -/
  | rejects (message : String)
  /-- The promise never settles. -/
  | never
  deriving DecidableEq

/-- The property `response.ok`. -/
def Response.ok (r : Response) : Bool := decide (200 ≤ r.status) && decide (r.status ≤ 299)

/-! ## Environment, world and the monad of asynchronous functions -/

/-- Everything outside the program.  `net k req` is the fate of the request `req` issued when
`k` requests have been issued before it; `clock k` is the value of `Date.now()` read when `k`
requests have been issued; `stringToNumber` is the engine's conversion of a string to a
number. -/
structure Env where
  net : Nat → Request → FetchOutcome
  clock : Nat → Int
  stringToNumber : String → JNum

/-- The mutable state the program acts on: `chrome.storage.local`, the requests issued so far
(oldest first) and the badge text. -/
structure World where
  storage : String → JVal
  trace : List Request
  badge : String

/-- An asynchronous function returning an `α`. -/
def Js (α : Type) : Type := Env → World → Outcome α × World

/-- Fulfil with a value. -/
def Js.pure {α : Type} (a : α) : Js α := fun _ w => (.returned a, w)

/-- Sequencing: the continuation runs only after a fulfilled step. -/
def Js.bind {α β : Type} (m : Js α) (f : α → Js β) : Js β := fun env w =>
  match m env w with
  | (.returned a, w1) => f a env w1
  | (.thrown e, w1) => (.thrown e, w1)
  | (.pending, w1) => (.pending, w1)
  | (.outOfFuel, w1) => (.outOfFuel, w1)

instance : Monad Js where
  pure := Js.pure
  bind := Js.bind

/-- The statement `throw new Error(message)`. -/
def Js.throw {α : Type} (message : String) : Js α := fun _ w => (.thrown ⟨message⟩, w)

/-- The statement `throw error`. -/
def Js.rethrow {α : Type} (error : JsError) : Js α := fun _ w => (.thrown error, w)

/-- The statement `try { body } catch (error) { handler }`. -/
def Js.tryCatch {α : Type} (body : Js α) (handler : JsError → Js α) : Js α := fun env w =>
  match body env w with
  | (.thrown e, w1) => handler e env w1
  | r => r

/-- Lift a synchronous step that may throw. -/
def Js.ofOutcome {α : Type} (o : Outcome α) : Js α := fun _ w => (o, w)

/-- The expression `await fetch(req)`. -/
def awaitFetch (req : Request) : Js Response := fun env w =>
  let w1 := { w with trace := w.trace ++ [req] }
  match env.net w.trace.length req with
  | .responds r => (.returned r, w1)
  | .rejects msg => (.thrown ⟨msg⟩, w1)
  | .never => (.pending, w1)

/-- The expression `fetch(req).catch(() => { })` that is not awaited: the request is issued
and whatever happens to it is ignored. -/
def fireAndForget (req : Request) : Js Unit := fun _ w =>
  (.returned (), { w with trace := w.trace ++ [req] })

/-- The call `Date.now()`. -/
def dateNow : Js Int := fun env w => (.returned (env.clock w.trace.length), w)

/-- One key of `await chrome.storage.local.get([...])`. -/
def storageGet (key : String) : Js JVal := fun _ w => (.returned (w.storage key), w)

/-- The storage after writing the given pairs, the later pair winning. -/
def Storage.set (s : String → JVal) : List (String × JVal) → String → JVal
  | [] => s
  | (k, v) :: rest => Storage.set (fun key => if key = k then v else s key) rest

/-- The storage after removing the given keys. -/
def Storage.remove (s : String → JVal) (keys : List String) : String → JVal :=
  fun key => if key ∈ keys then .undefined else s key

/-- The call `await chrome.storage.local.set({...})`. -/
def storageSet (items : List (String × JVal)) : Js Unit := fun _ w =>
  (.returned (), { w with storage := Storage.set w.storage items })

/-- The call `await chrome.storage.local.remove([...])`. -/
def storageRemove (keys : List String) : Js Unit := fun _ w =>
  (.returned (), { w with storage := Storage.remove w.storage keys })

/-- The call `chrome.action.setBadgeText({ text })`. -/
def setBadgeText (text : String) : Js Unit := fun _ w =>
  (.returned (), { w with badge := text })

/-- The conversion `Number(v)` applied by `*` and `-`. -/
def toNumber (env : Env) : JVal → JNum
  | .undefined => none
  | .null => some 0
  | .bool true => some 1
  | .bool false => some 0
  | .num n => some n
  | .nan => none
  | .str s => env.stringToNumber s
  | .arr items => env.stringToNumber (joinItems items)
  | .obj _ => env.stringToNumber "[object Object]"

/-- The conversion `Number(v)` inside an asynchronous function. -/
def toNumberJs (v : JVal) : Js JNum := fun env w => (.returned (toNumber env v), w)

/-- The property read `v.key` for a key that no prototype defines (`error`, `access_token`,
`expires_in`, `data`, ...): a `TypeError` on `null` and `undefined`, the own property of an
object, `undefined` on every other value. -/
def getField (v : JVal) (key : String) : Outcome JVal :=
  match v with
  | .undefined =>
    .thrown ⟨"Cannot read properties of undefined (reading \x27" ++ key ++ "\x27)"⟩
  | .null => .thrown ⟨"Cannot read properties of null (reading \x27" ++ key ++ "\x27)"⟩
  | .obj fields => .returned (fields.get key)
  | _ => .returned .undefined

/-- The call `await response.json()`. -/
def Response.json (r : Response) : Outcome JVal :=
  match r.body with
  | .json v => .returned v
  | .notJson _ msg => .thrown ⟨msg⟩

/-! ## Lookup in an object literal -/

/-- The property names every object inherits from `Object.prototype`. -/
def objectPrototypeKeys : List String :=
  ["constructor", "__defineGetter__", "__defineSetter__", "hasOwnProperty",
   "__lookupGetter__", "__lookupSetter__", "isPrototypeOf", "propertyIsEnumerable",
   "toString", "valueOf", "__proto__", "toLocaleString"]

/-- The result of `table[key]` on an object literal whose own values have type `α`. -/
inductive Member (α : Type) where
  /-- An own property of the literal. -/
  | own (value : α)
  /-- A member inherited from `Object.prototype`: a function (the prototype object itself for
  `__proto__`), hence truthy, and without any of the properties of an own value. -/
  | inherited (key : String)
  /-- No such property: `undefined`. -/
  | absent
  deriving DecidableEq

/-- The own value bound to a key in a literal. -/
def ownGet {α : Type} : List (String × α) → String → Option α
  | [], _ => none
  | (k, v) :: rest, key => if k = key then some v else ownGet rest key

/-- The expression `table[key]`: own properties first, then the prototype. -/
def objectGet {α : Type} (table : List (String × α)) (key : String) : Member α :=
  match ownGet table key with
  | some v => .own v
  | none => if key ∈ objectPrototypeKeys then .inherited key else .absent

/-! ## auth.js -/

/-- The three endpoints of a region. -/
structure AuthEndpoints where
  authorize : String
  token : String
  revoke : String
  deriving DecidableEq

/-- The constant `ZOHO_AUTH_ENDPOINTS`. -/
def ZOHO_AUTH_ENDPOINTS : List (String × AuthEndpoints) :=
  [("com", { authorize := "https://accounts.zoho.com/oauth/v2/auth",
             token := "https://accounts.zoho.com/oauth/v2/token",
             revoke := "https://accounts.zoho.com/oauth/v2/token/revoke" }),
   ("in", { authorize := "https://accounts.zoho.in/oauth/v2/auth",
            token := "https://accounts.zoho.in/oauth/v2/token",
            revoke := "https://accounts.zoho.in/oauth/v2/token/revoke" }),
   ("eu", { authorize := "https://accounts.zoho.eu/oauth/v2/auth",
            token := "https://accounts.zoho.eu/oauth/v2/token",
            revoke := "https://accounts.zoho.eu/oauth/v2/token/revoke" }),
   ("au", { authorize := "https://accounts.zoho.com.au/oauth/v2/auth",
            token := "https://accounts.zoho.com.au/oauth/v2/token",
            revoke := "https://accounts.zoho.com.au/oauth/v2/token/revoke" })]

/-- The function `getAuthEndpoints(region = 'com')`:
`ZOHO_AUTH_ENDPOINTS[region] || ZOHO_AUTH_ENDPOINTS['com']`.  A missing argument is
`undefined`. -/
def getAuthEndpoints (region : JVal) : Member AuthEndpoints :=
  let region := if region = .undefined then JVal.str "com" else region
  match objectGet ZOHO_AUTH_ENDPOINTS (toJsString region) with
  | .absent => objectGet ZOHO_AUTH_ENDPOINTS "com"
  | m => m

/-- The property read `endpoints.token`. -/
def Member.token : Member AuthEndpoints → Outcome JVal
  | .own e => .returned (.str e.token)
  | .inherited _ => .returned .undefined
  | .absent => .thrown ⟨"Cannot read properties of undefined (reading \x27token\x27)"⟩

/-- The property read `endpoints.revoke`. -/
def Member.revoke : Member AuthEndpoints → Outcome JVal
  | .own e => .returned (.str e.revoke)
  | .inherited _ => .returned .undefined
  | .absent => .thrown ⟨"Cannot read properties of undefined (reading \x27revoke\x27)"⟩

/-- The object `getCredentials` returns. -/
structure Credentials where
  client_id : JVal
  client_secret : JVal
  refresh_token : JVal
  region : JVal

/-- The message of the error thrown when a credential is missing. -/
def credentialsMissing : String :=
  "Credentials not configured. Please go to Settings and enter your Zoho API credentials."

/-- The function `getCredentials`. -/
def getCredentials : Js Credentials := do
  let zohoClientId ← storageGet "zohoClientId"
  let zohoClientSecret ← storageGet "zohoClientSecret"
  let zohoRefreshToken ← storageGet "zohoRefreshToken"
  let region ← storageGet "region"
  if !truthy zohoClientId || !truthy zohoClientSecret || !truthy zohoRefreshToken then
    Js.throw credentialsMissing
  else
    pure { client_id := zohoClientId, client_secret := zohoClientSecret,
           refresh_token := zohoRefreshToken, region := jsOr region (.str "in") }

/-- The header every token request carries. -/
def formHeaders : List (String × String) :=
  [("Content-Type", "application/x-www-form-urlencoded")]

/-- The token request of `login`. -/
def loginRequest (tokenUrl : String) (credentials : Credentials) : Request :=
  { method := "POST", url := tokenUrl, headers := formHeaders,
    body := .form [("refresh_token", toJsString credentials.refresh_token),
                   ("client_id", toJsString credentials.client_id),
                   ("client_secret", toJsString credentials.client_secret),
                   ("grant_type", "refresh_token")] }

/-- The conditional expression of `login` that picks the top-level domain of the token URL. -/
def loginTld (actualRegion : JVal) : String :=
  if actualRegion = .str "in" then "in"
  else if actualRegion = .str "eu" then "eu"
  else if actualRegion = .str "au" then "com.au"
  else "com"

/-- The function `login(region = 'in')`.  A missing argument is `undefined`. -/
def login (region : JVal) : Js Bool :=
  let region := if region = .undefined then JVal.str "in" else region
  Js.tryCatch
    (do
      let credentials ← getCredentials
      let actualRegion := jsOr credentials.region region
      let tld := loginTld actualRegion
      let tokenUrl := "https://accounts.zoho." ++ tld ++ "/oauth/v2/token"
      let response ← awaitFetch (loginRequest tokenUrl credentials)
      let data ← Js.ofOutcome response.json
      let error ← Js.ofOutcome (getField data "error")
      if truthy error then
        Js.throw (toJsString error)
      else
        let accessToken ← Js.ofOutcome (getField data "access_token")
        if !truthy accessToken then
          Js.throw "No access token received from Zoho."
        else
          let now ← dateNow
          let expiresIn ← Js.ofOutcome (getField data "expires_in")
          let lifetime ← toNumberJs (jsOr expiresIn (.num 3600))
          storageSet [("accessToken", accessToken),
                      ("region", actualRegion),
                      ("tokenExpiry", JVal.ofNum (JNum.add (some now) (JNum.mul lifetime (some 1000)))),
                      ("isLoggedIn", .bool true)]
          pure true)
    (fun error => Js.rethrow error)

/-- The function `logout`. -/
def logout : Js Unit := do
  let accessToken ← storageGet "accessToken"
  let region ← storageGet "region"
  if truthy accessToken then
    let endpoints := getAuthEndpoints (jsOr region (.str "com"))
    let revoke ← Js.ofOutcome endpoints.revoke
    fireAndForget { method := "POST",
                    url := toJsString revoke ++ "?token=" ++ toJsString accessToken,
                    headers := [], body := .none }
  storageRemove ["accessToken", "refreshToken", "region", "tokenExpiry", "isLoggedIn",
                 "accountId", "inboxFolderId", "userEmail"]
  setBadgeText ""

/-- The message of the error `refreshToken` throws when the provider answers with an error. -/
def sessionExpired : String := "Session expired, please login again"

/-- The token request of `refreshToken`. -/
def refreshTokenRequest (tokenUrl : JVal) (credentials : Credentials) : Request :=
  { method := "POST", url := toJsString tokenUrl, headers := formHeaders,
    body := .form [("grant_type", "refresh_token"),
                   ("client_id", toJsString credentials.client_id),
                   ("client_secret", toJsString credentials.client_secret),
                   ("refresh_token", toJsString credentials.refresh_token)] }

/-- The function `refreshToken` of auth.js. -/
def refreshToken : Js JVal := do
  let credentials ← getCredentials
  let region := credentials.region
  let endpoints := getAuthEndpoints (jsOr region (.str "com"))
  let tokenUrl ← Js.ofOutcome endpoints.token
  let response ← awaitFetch (refreshTokenRequest tokenUrl credentials)
  let data ← Js.ofOutcome response.json
  let error ← Js.ofOutcome (getField data "error")
  if truthy error then
    logout
    Js.throw sessionExpired
  else
    let accessToken ← Js.ofOutcome (getField data "access_token")
    let now ← dateNow
    let expiresIn ← Js.ofOutcome (getField data "expires_in")
    let lifetime ← toNumberJs expiresIn
    storageSet [("accessToken", accessToken),
                ("tokenExpiry", JVal.ofNum (JNum.add (some now) (JNum.mul lifetime (some 1000))))]
    pure accessToken

/-- The function `isLoggedIn`: `isLoggedIn && !!accessToken`. -/
def isLoggedIn : Js JVal := do
  let isLoggedIn ← storageGet "isLoggedIn"
  let accessToken ← storageGet "accessToken"
  pure (if truthy isLoggedIn then .bool (truthy accessToken) else isLoggedIn)

/-- The function `getAccessToken`. -/
def getAccessToken : Js JVal := do
  let accessToken ← storageGet "accessToken"
  let tokenExpiry ← storageGet "tokenExpiry"
  if !truthy accessToken then
    Js.throw "Not logged in"
  else
    let now ← dateNow
    let expiry ← toNumberJs tokenExpiry
    if truthy tokenExpiry && JNum.gt (some now) (JNum.sub expiry (some 300000)) then
      refreshToken
    else
      pure accessToken

/-! ## api.js -/

/-- Whether the first list of characters starts with the second. -/
def startsWithChars : List Char → List Char → Bool
  | _, [] => true
  | [], _ :: _ => false
  | c :: cs, d :: ds => decide (c = d) && startsWithChars cs ds

/-- Whether the second list of characters occurs in the first. -/
def includesChars : List Char → List Char → Bool
  | [], needle => startsWithChars [] needle
  | c :: cs, needle => startsWithChars (c :: cs) needle || includesChars cs needle

/-- The method `s.includes(needle)`. -/
def jsIncludes (s needle : String) : Bool := includesChars s.data needle.data

/-- The constant `PROXY_BASE`. -/
def PROXY_BASE : String := "http://127.0.0.1:3847/api"

/-- The `options` argument of `apiRequest`: the fields of a `fetch` init object the callers
use. -/
structure Options where
  method : Option String
  body : Option String
  headers : List (String × String)
  deriving DecidableEq

/-- The default `options = {}`. -/
def Options.empty : Options := { method := none, body := none, headers := [] }

/-- Writing one property of an object literal: an existing key keeps its place and takes the
new value, a new key goes last. -/
def setHeader : List (String × String) → String → String → List (String × String)
  | [], k, v => [(k, v)]
  | (k0, v0) :: rest, k, v => if k0 = k then (k0, v) :: rest else (k0, v0) :: setHeader rest k v

/-- The spread `{ ...base, ...extra }`. -/
def spreadHeaders (base extra : List (String × String)) : List (String × String) :=
  extra.foldl (fun acc kv => setHeader acc kv.1 kv.2) base

/-- The request `apiRequest` hands to `fetch` for a bearer token and a region tag. -/
def apiFetchRequest (endpoint : String) (options : Options) (accessToken : String)
    (region : JVal) : Request :=
  { method := options.method.getD "GET",
    url := PROXY_BASE ++ endpoint,
    headers := spreadHeaders
      [("Authorization", "Zoho-oauthtoken " ++ accessToken),
       ("Content-Type", "application/json"),
       ("Accept", "application/json"),
       ("X-Zoho-Region", toJsString (jsOr region (.str "in")))]
      options.headers,
    body := match options.body with
      | some b => .text b
      | none => .none }

/-- The token request of `refreshAccessToken`. -/
def refreshAccessTokenRequest (tokenUrl : String) (refreshToken zohoClientId zohoClientSecret : JVal) :
    Request :=
  { method := "POST", url := tokenUrl, headers := formHeaders,
    body := .form [("refresh_token", toJsString refreshToken),
                   ("client_id", toJsString zohoClientId),
                   ("client_secret", toJsString zohoClientSecret),
                   ("grant_type", "refresh_token")] }

/-- The function `refreshAccessToken` of api.js. -/
def refreshAccessToken : Js Bool := do
  let refreshToken ← storageGet "refreshToken"
  let region ← storageGet "region"
  let zohoClientId ← storageGet "zohoClientId"
  let zohoClientSecret ← storageGet "zohoClientSecret"
  if !truthy refreshToken || !truthy zohoClientId || !truthy zohoClientSecret then
    pure false
  else
    Js.tryCatch
      (do
        let tokenUrl :=
          if region = .str "in" then "https://accounts.zoho.in/oauth/v2/token"
          else "https://accounts.zoho.com/oauth/v2/token"
        let response ← awaitFetch
          (refreshAccessTokenRequest tokenUrl refreshToken zohoClientId zohoClientSecret)
        let data ← Js.ofOutcome response.json
        let accessToken ← Js.ofOutcome (getField data "access_token")
        if truthy accessToken then
          let now ← dateNow
          let expiresIn ← Js.ofOutcome (getField data "expires_in")
          let lifetime ← toNumberJs (jsOr expiresIn (.num 3600))
          storageSet [("accessToken", accessToken),
                      ("tokenExpiry", JVal.ofNum (JNum.add (some now) (JNum.mul lifetime (some 1000))))]
          pure true
        else
          pure false)
      (fun _ => pure false)

/-- The message of the error `apiRequest` throws when a 401 cannot be cured by a refresh. -/
def authenticationExpired : String := "Authentication expired"

/-- The message of the error `apiRequest` throws when the relay cannot be reached. -/
def proxyNotRunning : String := "Proxy server not running. Please start the server first."

/-- The error message of a response that is not ok:
`errorData.data?.errorMessage || errorData.error || 'API error: ' + status`, where `errorData`
is the parsed body, or `{ error: errorText }` when the body does not parse. -/
def apiErrorMessage (response : Response) : Outcome String :=
  let errorData : JVal :=
    match response.body with
    | .json v => v
    | .notJson errorText _ => .obj (.cons "error" (.str errorText) .nil)
  match getField errorData "data" with
  | .returned d =>
    let errorMessage : Outcome JVal :=
      match d with
      | .undefined => .returned .undefined
      | .null => .returned .undefined
      | _ => getField d "errorMessage"
    (match errorMessage with
     | .returned m =>
       (match getField errorData "error" with
        | .returned e =>
          .returned (toJsString (jsOr (jsOr m e) (.str ("API error: " ++ toString response.status))))
        | .thrown err => .thrown err
        | .pending => .pending
        | .outOfFuel => .outOfFuel)
     | .thrown err => .thrown err
     | .pending => .pending
     | .outOfFuel => .outOfFuel)
  | .thrown err => .thrown err
  | .pending => .pending
  | .outOfFuel => .outOfFuel

/-- The `catch` block of `apiRequest`. -/
def apiCatch {α : Type} (error : JsError) : Js α :=
  if jsIncludes error.message "Failed to fetch" || jsIncludes error.message "NetworkError" then
    Js.throw proxyNotRunning
  else
    Js.rethrow error

/-- The function `apiRequest(endpoint, options)`.  The first argument bounds the depth of
the re-entrant call on the 401 path; that call is returned without `await` from inside the
`try`, so its rejection does not pass through this invocation's `catch`. -/
def apiRequest : Nat → String → Options → Js JVal
  | 0, _, _ => fun _ w => (.outOfFuel, w)
  | fuel + 1, endpoint, options => fun env w =>
    let accessToken := w.storage "accessToken"
    let region := w.storage "region"
    if !truthy accessToken then
      (.thrown ⟨"Not authenticated"⟩, w)
    else
      match accessToken with
      | .str token =>
        (match awaitFetch (apiFetchRequest endpoint options token region) env w with
         | (.returned response, w1) =>
           if response.status = 401 then
             (match refreshAccessToken env w1 with
              | (.returned true, w2) => apiRequest fuel endpoint options env w2
              | (.returned false, w2) => apiCatch ⟨authenticationExpired⟩ env w2
              | (.thrown e, w2) => apiCatch e env w2
              | (.pending, w2) => (.pending, w2)
              | (.outOfFuel, w2) => (.outOfFuel, w2))
           else if !response.ok then
             (match apiErrorMessage response with
              | .returned msg => apiCatch ⟨msg⟩ env w1
              | .thrown e => apiCatch e env w1
              | .pending => (.pending, w1)
              | .outOfFuel => (.outOfFuel, w1))
           else
             (match response.json with
              | .returned data => (.returned data, w1)
              | .thrown e => apiCatch e env w1
              | .pending => (.pending, w1)
              | .outOfFuel => (.outOfFuel, w1))
         | (.thrown e, w1) => apiCatch e env w1
         | (.pending, w1) => (.pending, w1)
         | (.outOfFuel, w1) => (.outOfFuel, w1))
      | _ => (.thrown ⟨"accessToken.substring is not a function"⟩, w)


/-! ## Vocabulary of the statements -/

/-- Whether a request is a token exchange: a form body with `grant_type=refresh_token`. -/
def Request.isTokenExchange (r : Request) : Bool :=
  match r.body with
  | .form params => decide (("grant_type", "refresh_token") ∈ params)
  | _ => false

/-- Whether a request goes to the local relay: its URL starts with `PROXY_BASE`. -/
def Request.isRelayCall (r : Request) : Bool := startsWithChars r.url.data PROXY_BASE.data

/-- The number of token exchanges in a trace. -/
def tokenExchanges (trace : List Request) : Nat := (trace.filter Request.isTokenExchange).length

/-- The number of relay requests in a trace. -/
def relayCalls (trace : List Request) : Nat := (trace.filter Request.isRelayCall).length

/-- The object `getCredentials` builds from a storage with complete credentials. -/
def credentialsOf (s : String → JVal) : Credentials :=
  { client_id := s "zohoClientId", client_secret := s "zohoClientSecret",
    refresh_token := s "zohoRefreshToken", region := jsOr (s "region") (.str "in") }

/-- The value of `endpoints.token` in `refreshToken` for a storage. -/
def refreshTokenUrl (s : String → JVal) : JVal :=
  match getAuthEndpoints (jsOr (credentialsOf s).region (.str "com")) with
  | .own e => .str e.token
  | _ => .undefined

/-- The token request `refreshToken` issues from a storage. -/
def refreshTokenRequestOf (s : String → JVal) : Request :=
  refreshTokenRequest (refreshTokenUrl s) (credentialsOf s)

/-- The revocation request `logout` issues from a storage with a cached access token. -/
def revokeRequestOf (s : String → JVal) : Request :=
  { method := "POST",
    url := toJsString (match getAuthEndpoints (jsOr (s "region") (.str "com")) with
      | .own e => JVal.str e.revoke
      | _ => JVal.undefined) ++ "?token=" ++ toJsString (s "accessToken"),
    headers := [], body := .none }

/-- The keys `logout` removes. -/
def logoutKeys : List String :=
  ["accessToken", "refreshToken", "region", "tokenExpiry", "isLoggedIn",
   "accountId", "inboxFolderId", "userEmail"]

/-- The token request `refreshAccessToken` issues from a storage. -/
def refreshAccessTokenRequestOf (s : String → JVal) : Request :=
  refreshAccessTokenRequest
    (if s "region" = .str "in" then "https://accounts.zoho.in/oauth/v2/token"
     else "https://accounts.zoho.com/oauth/v2/token")
    (s "refreshToken") (s "zohoClientId") (s "zohoClientSecret")

/-- The world after one more request has been issued. -/
def World.issue (w : World) (req : Request) : World := { w with trace := w.trace ++ [req] }

/-! ## Concrete environments and worlds -/

/-- A JSON object with the given fields. -/
def mkObj : List (String × JVal) → JVal
  | fields => .obj (fields.foldr (fun kv acc => .cons kv.1 kv.2 acc) .nil)

/-- A storage given by a list of pairs, the first binding of a key winning. -/
def storageOf : List (String × JVal) → String → JVal
  | [], _ => .undefined
  | (k, v) :: rest, key => if key = k then v else storageOf rest key

/-- A provider that answers every token request with a fresh token and a lifetime of one
hour; the clock shows 700000. -/
def envHour : Env :=
  { net := fun _ _ => .responds ⟨200, .json (mkObj [("access_token", .str "fresh"),
                                                    ("expires_in", .num 3600)])⟩,
    clock := fun _ => 700000,
    stringToNumber := fun _ => none }

/-- A signed-in storage with complete credentials whose token expires at 1000000, that is
exactly 300000 after the time `envHour` shows. -/
def wBoundary : World :=
  { storage := storageOf [("accessToken", .str "cached"), ("tokenExpiry", .num 1000000),
                          ("isLoggedIn", .bool true), ("region", .str "in"),
                          ("zohoClientId", .str "id"), ("zohoClientSecret", .str "secret"),
                          ("zohoRefreshToken", .str "rt")],
    trace := [], badge := "" }

/-- The same storage with a token that expires at 2000000. -/
def wFresh : World :=
  { wBoundary with storage := Storage.set wBoundary.storage [("tokenExpiry", .num 2000000)] }

/-- The same storage with a token that expired at 900000. -/
def wExpiring : World :=
  { wBoundary with storage := Storage.set wBoundary.storage [("tokenExpiry", .num 900000)] }

/-- The same storage without a `tokenExpiry`. -/
def wNoExpiry : World :=
  { wBoundary with storage := Storage.remove wBoundary.storage ["tokenExpiry"] }

/-- A fresh install: nothing is stored. -/
def wEmpty : World := { storage := fun _ => .undefined, trace := [], badge := "" }

/-- Configured credentials for the region `in`, before the first login. -/
def wConfigured : World :=
  { storage := storageOf [("region", .str "in"), ("zohoClientId", .str "id"),
                          ("zohoClientSecret", .str "secret"), ("zohoRefreshToken", .str "rt")],
    trace := [], badge := "" }

/-- A provider that answers every token request with `abc` and a lifetime of 3600 s. -/
def envAbc : Env :=
  { net := fun _ _ => .responds ⟨200, .json (mkObj [("access_token", .str "abc"),
                                                    ("expires_in", .num 3600)])⟩,
    clock := fun _ => 700000,
    stringToNumber := fun _ => none }

/-- A provider that rejects the refresh token. -/
def envInvalid : Env :=
  { net := fun _ _ => .responds ⟨400, .json (mkObj [("error", .str "invalid_code")])⟩,
    clock := fun _ => 700000,
    stringToNumber := fun _ => none }

/-- A provider that answers with a token and no lifetime. -/
def envNoLifetime : Env :=
  { net := fun _ _ => .responds ⟨200, .json (mkObj [("access_token", .str "fresh")])⟩,
    clock := fun _ => 700000,
    stringToNumber := fun _ => none }

/-- A signed-in storage that holds the refresh token under both keys, `zohoRefreshToken`
(read by auth.js) and `refreshToken` (read by api.js). -/
def wBothKeys : World :=
  { wBoundary with storage := Storage.set wBoundary.storage [("refreshToken", .str "rt")] }

/-- A relay that answers 401 to the first two relay requests (positions 0 and 2 of the trace)
and 200 afterwards, with a provider that answers every token exchange with a fresh token. -/
def envTwice401 : Env :=
  { net := fun k req =>
      if req.isTokenExchange then
        .responds ⟨200, .json (mkObj [("access_token", .str "fresh"), ("expires_in", .num 3600)])⟩
      else if k < 4 then
        .responds ⟨401, .json (mkObj [("error", .str "INVALID_OAUTHTOKEN")])⟩
      else
        .responds ⟨200, .json (mkObj [("data", .arr .nil)])⟩,
    clock := fun _ => 700000,
    stringToNumber := fun _ => none }

/-- A relay that answers 401 to every request. -/
def envAlways401 : Env :=
  { net := fun _ _ => .responds ⟨401, .json (mkObj [("error", .str "INVALID_OAUTHTOKEN")])⟩,
    clock := fun _ => 700000,
    stringToNumber := fun _ => none }

/-! ## Library functions of the platform -/

/-- Functions of the JavaScript platform that the program calls and the model leaves open:
`formEncode` is `URLSearchParams.prototype.toString` on the listed pairs,
`jsonStringify` is `JSON.stringify`, `jsonParse` is `JSON.parse` (the value, or the message
of the `SyntaxError`),
`toLowerCase` is `String.prototype.toLowerCase`, and `hostTypeError` is the message of the
error Node raises when the `hostname` of a request is the inherited member of that name
instead of a string. -/
structure Platform where
  formEncode : List (String × String) → String
  encodeURIComponent : String → String
  jsonStringify : JVal → String
  jsonParse : String → Except String JVal
  toLowerCase : String → String
  hostTypeError : String → String

/-- The elements of an array as a list. -/
def JList.toList : JList → List JVal
  | .nil => []
  | .cons x rest => x :: rest.toList

/-- The array with the given elements. -/
def JList.ofList : List JVal → JList
  | [] => .nil
  | x :: rest => .cons x (JList.ofList rest)

/-- The empty array `[]`. -/
def emptyArray : JVal := .arr .nil

/-- The method call `v.toString()`: a `TypeError` on `null` and `undefined`. -/
def toStringMethod (v : JVal) (what : String) : Outcome String :=
  match v with
  | .undefined =>
    .thrown ⟨"Cannot read properties of undefined (reading \x27toString\x27)"⟩
  | .null => .thrown ⟨"Cannot read properties of null (reading \x27toString\x27)"⟩
  | .obj fields =>
    (match fields.get "toString" with
     | .undefined => .returned "[object Object]"
     | _ => .thrown ⟨what ++ ".toString is not a function"⟩)
  | other => .returned (toJsString other)

/-- The expression `v?.toLowerCase()`: `undefined` on `null` and `undefined`, the lower-cased
string on a string, a `TypeError` on every other value. -/
def optionalLowerCase (p : Platform) (v : JVal) (what : String) : Outcome JVal :=
  match v with
  | .undefined => .returned .undefined
  | .null => .returned .undefined
  | .str s => .returned (.str (p.toLowerCase s))
  | _ => .thrown ⟨what ++ "?.toLowerCase is not a function"⟩

/-- The method `Array.prototype.find` on the elements of an array, for a predicate that may
throw. -/
def findFirst (pred : JVal → Outcome Bool) : List JVal → Outcome JVal
  | [] => .returned .undefined
  | x :: rest =>
    match pred x with
    | .returned true => .returned x
    | .returned false => findFirst pred rest
    | .thrown e => .thrown e
    | .pending => .pending
    | .outOfFuel => .outOfFuel

/-- The call `folders.find(pred)` on a value: a `TypeError` when the value is not an array
(no other value the program can hold here has a `find` method). -/
def jsFind (v : JVal) (what : String) (pred : JVal → Outcome Bool) : Outcome JVal :=
  match v with
  | .arr items => findFirst pred items.toList
  | .undefined => .thrown ⟨"Cannot read properties of undefined (reading \x27find\x27)"⟩
  | .null => .thrown ⟨"Cannot read properties of null (reading \x27find\x27)"⟩
  | _ => .thrown ⟨what ++ ".find is not a function"⟩

/-! ## api.js: the operations -/

/-- The function `getAccounts`. -/
def getAccounts (fuel : Nat) : Js JVal := do
  let response ← apiRequest fuel "/accounts" Options.empty
  let data ← Js.ofOutcome (getField response "data")
  pure (jsOr data emptyArray)

/-- The endpoint of `getFolders`. -/
def foldersEndpoint (accountId : JVal) : String :=
  "/accounts/" ++ toJsString accountId ++ "/folders"

/-- The function `getFolders(accountId)`. -/
def getFolders (fuel : Nat) (accountId : JVal) : Js JVal := do
  let response ← apiRequest fuel (foldersEndpoint accountId) Options.empty
  let data ← Js.ofOutcome (getField response "data")
  pure (jsOr data emptyArray)

/-- The predicate of `getInboxFolderId`:
`f.folderName?.toLowerCase() === 'inbox' || f.path?.toLowerCase() === '/inbox'`. -/
def isInboxFolder (p : Platform) (f : JVal) : Outcome Bool :=
  match getField f "folderName" with
  | .returned folderName =>
    (match optionalLowerCase p folderName "f.folderName" with
     | .returned name =>
       if name = .str "inbox" then .returned true
       else
         (match getField f "path" with
          | .returned path =>
            (match optionalLowerCase p path "f.path" with
             | .returned lowered => .returned (decide (lowered = .str "/inbox"))
             | .thrown e => .thrown e
             | .pending => .pending
             | .outOfFuel => .outOfFuel)
          | .thrown e => .thrown e
          | .pending => .pending
          | .outOfFuel => .outOfFuel)
     | .thrown e => .thrown e
     | .pending => .pending
     | .outOfFuel => .outOfFuel)
  | .thrown e => .thrown e
  | .pending => .pending
  | .outOfFuel => .outOfFuel

/-- The expression `inbox?.folderId`. -/
def optionalFolderId (inbox : JVal) : Outcome JVal :=
  match inbox with
  | .undefined => .returned .undefined
  | .null => .returned .undefined
  | _ => getField inbox "folderId"

/-- The function `getInboxFolderId(accountId)`. -/
def getInboxFolderId (p : Platform) (fuel : Nat) (accountId : JVal) : Js JVal :=
  Js.tryCatch
    (do
      let folders ← getFolders fuel accountId
      let inbox ← Js.ofOutcome (jsFind folders "folders" (isInboxFolder p))
      Js.ofOutcome (optionalFolderId inbox))
    (fun _ => pure .null)

/-- The `options` argument of `getEmails`; a field that is not given is `undefined`. -/
structure EmailOptions where
  folderId : JVal
  limit : JVal
  start : JVal
  status : JVal
  includeto : JVal

/-- The default `options = {}` of `getEmails`. -/
def EmailOptions.empty : EmailOptions :=
  { folderId := .undefined, limit := .undefined, start := .undefined, status := .undefined,
    includeto := .undefined }

/-- A destructuring default `name = value`: it applies when the property is `undefined`. -/
def orDefault (v fallback : JVal) : JVal := if v = .undefined then fallback else v

/-- The `URLSearchParams` that `getEmails` builds from its options; the `toString()` calls on
`limit`, `start` and `includeto` may throw. -/
def emailParams (options : EmailOptions) : Outcome (List (String × String)) :=
  let folderId := options.folderId
  let limit := orDefault options.limit (.num 20)
  let start := orDefault options.start (.num 1)
  let status := orDefault options.status (.str "all")
  let includeto := orDefault options.includeto (.bool true)
  match toStringMethod limit "limit" with
  | .returned limitText =>
    (match toStringMethod start "start" with
     | .returned startText =>
       (match toStringMethod includeto "includeto" with
        | .returned includetoText =>
          let params : List (String × String) :=
            [("limit", limitText), ("start", startText), ("status", toJsString status),
             ("includeto", includetoText), ("sortBy", "date"), ("sortorder", "false")]
          .returned (if truthy folderId then params ++ [("folderId", toJsString folderId)]
                     else params)
        | .thrown e => .thrown e
        | .pending => .pending
        | .outOfFuel => .outOfFuel)
     | .thrown e => .thrown e
     | .pending => .pending
     | .outOfFuel => .outOfFuel)
  | .thrown e => .thrown e
  | .pending => .pending
  | .outOfFuel => .outOfFuel

/-- The endpoint of `getEmails` for the given parameters. -/
def emailsEndpoint (p : Platform) (accountId : JVal) (params : List (String × String)) :
    String :=
  "/accounts/" ++ toJsString accountId ++ "/messages/view?" ++ p.formEncode params

/-- The function `getEmails(accountId, options)`. -/
def getEmails (p : Platform) (fuel : Nat) (accountId : JVal) (options : EmailOptions) :
    Js JVal := do
  let params ← Js.ofOutcome (emailParams options)
  let response ← apiRequest fuel (emailsEndpoint p accountId params) Options.empty
  let data ← Js.ofOutcome (getField response "data")
  pure (jsOr data emptyArray)

/-- The empty object `{}`. -/
def emptyObject : JVal := .obj .nil

/-- The function `getEmailContent(accountId, folderId, messageId)`. -/
def getEmailContent (fuel : Nat) (accountId folderId messageId : JVal) : Js JVal := do
  let response ← apiRequest fuel
    ("/accounts/" ++ toJsString accountId ++ "/folders/" ++ toJsString folderId ++ "/messages/"
      ++ toJsString messageId ++ "/content?includeBlockContent=true")
    Options.empty
  let data ← Js.ofOutcome (getField response "data")
  pure (jsOr data emptyObject)

/-- The function `getEmailDetails(accountId, messageId)`. -/
def getEmailDetails (fuel : Nat) (accountId messageId : JVal) : Js JVal := do
  let response ← apiRequest fuel
    ("/accounts/" ++ toJsString accountId ++ "/messages/" ++ toJsString messageId)
    Options.empty
  let data ← Js.ofOutcome (getField response "data")
  pure (jsOr data emptyObject)

/-- The endpoint of `searchEmails`. -/
def searchEndpoint (p : Platform) (accountId searchKey : JVal) : String :=
  "/accounts/" ++ toJsString accountId ++ "/messages/search?searchKey="
    ++ p.encodeURIComponent (toJsString searchKey) ++ "&sortorder=false&limit=25"

/-- The function `searchEmails(accountId, searchKey)`: it returns what `apiRequest` returns. -/
def searchEmails (p : Platform) (fuel : Nat) (accountId searchKey : JVal) : Js JVal :=
  apiRequest fuel (searchEndpoint p accountId searchKey) Options.empty

/-- The function `sendEmail(accountId, emailData)`. -/
def sendEmail (p : Platform) (fuel : Nat) (accountId emailData : JVal) : Js JVal := do
  let recipient ← Js.ofOutcome (getField emailData "to")
  let subject ← Js.ofOutcome (getField emailData "subject")
  let content ← Js.ofOutcome (getField emailData "content")
  apiRequest fuel ("/accounts/" ++ toJsString accountId ++ "/messages")
    { method := some "POST",
      body := some (p.jsonStringify
        (mkObj [("toAddress", recipient), ("subject", subject), ("content", content)])),
      headers := [] }

/-- The statement `if (!Array.isArray(messageIds)) messageIds = [messageIds]`. -/
def asArray (messageIds : JVal) : JVal :=
  match messageIds with
  | .arr items => .arr items
  | other => .arr (.cons other .nil)

/-- The endpoint of the mutations. -/
def updateEndpoint (accountId : JVal) : String :=
  "/accounts/" ++ toJsString accountId ++ "/updatemessage"

/-- The options of the mutations: `{ method: 'PUT', body: JSON.stringify(payload) }`. -/
def updateOptions (p : Platform) (payload : JVal) : Options :=
  { method := some "PUT", body := some (p.jsonStringify payload), headers := [] }

/-- The call `apiRequest('/accounts/<id>/updatemessage', { method: 'PUT', body })` shared by
the mutations, for the object that is serialised as the body. -/
def updateMessage (p : Platform) (fuel : Nat) (accountId : JVal) (payload : JVal) : Js JVal :=
  apiRequest fuel (updateEndpoint accountId) (updateOptions p payload)

/-- The function `markAsRead(accountId, messageIds)`. -/
def markAsRead (p : Platform) (fuel : Nat) (accountId messageIds : JVal) : Js JVal :=
  updateMessage p fuel accountId
    (mkObj [("mode", .str "markAsRead"), ("messageId", asArray messageIds)])

/-- The function `markAsUnread(accountId, messageIds)`. -/
def markAsUnread (p : Platform) (fuel : Nat) (accountId messageIds : JVal) : Js JVal :=
  updateMessage p fuel accountId
    (mkObj [("mode", .str "markAsUnread"), ("messageId", asArray messageIds)])

/-- The predicate of `deleteEmails`: both `name` and `path` are computed, then
`name === 'trash' || name === 'bin' || name === 'deleted items' || path === '/trash' ||
path === '/bin'`. -/
def isTrashFolder (p : Platform) (f : JVal) : Outcome Bool :=
  match getField f "folderName" with
  | .returned folderName =>
    (match optionalLowerCase p folderName "f.folderName" with
     | .returned name =>
       (match getField f "path" with
        | .returned pathValue =>
          (match optionalLowerCase p pathValue "f.path" with
           | .returned path =>
             .returned (decide (name = .str "trash") || decide (name = .str "bin")
               || decide (name = .str "deleted items") || decide (path = .str "/trash")
               || decide (path = .str "/bin"))
           | .thrown e => .thrown e
           | .pending => .pending
           | .outOfFuel => .outOfFuel)
        | .thrown e => .thrown e
        | .pending => .pending
        | .outOfFuel => .outOfFuel)
     | .thrown e => .thrown e
     | .pending => .pending
     | .outOfFuel => .outOfFuel)
  | .thrown e => .thrown e
  | .pending => .pending
  | .outOfFuel => .outOfFuel

/-- The message of the error `deleteEmails` throws when no folder is recognised. -/
def trashFolderNotFound : String := "Trash folder not found. Please check your folder names."

/-- The function `deleteEmails(accountId, messageIds, folderId)`.  Its `catch` block logs and
rethrows; the final `apiRequest` is returned without `await`. -/
def deleteEmails (p : Platform) (fuel : Nat) (accountId messageIds _folderId : JVal) :
    Js JVal :=
  let messageIds := asArray messageIds
  Js.tryCatch
    (do
      let folders ← getFolders fuel accountId
      let trash ← Js.ofOutcome (jsFind folders "folders" (isTrashFolder p))
      if !truthy trash then
        Js.throw trashFolderNotFound
      else
        let destfolderId ← Js.ofOutcome (getField trash "folderId")
        updateMessage p fuel accountId
          (mkObj [("mode", .str "moveMessage"), ("messageId", messageIds),
                  ("destfolderId", destfolderId)]))
    (fun error => Js.rethrow error)

/-- The function `archiveEmails(accountId, messageIds)`. -/
def archiveEmails (p : Platform) (fuel : Nat) (accountId messageIds : JVal) : Js JVal :=
  updateMessage p fuel accountId
    (mkObj [("mode", .str "archive"), ("messageId", asArray messageIds)])

/-- The function `markAsSpam(accountId, messageIds)`. -/
def markAsSpam (p : Platform) (fuel : Nat) (accountId messageIds : JVal) : Js JVal :=
  updateMessage p fuel accountId
    (mkObj [("mode", .str "markAsSpam"), ("messageId", asArray messageIds)])

/-- The function `setFlag(accountId, messageIds, flagId = 2)`. -/
def setFlag (p : Platform) (fuel : Nat) (accountId messageIds flagId : JVal) : Js JVal :=
  updateMessage p fuel accountId
    (mkObj [("mode", .str "setFlag"), ("messageId", asArray messageIds),
            ("flagid", orDefault flagId (.num 2))])

/-! ## Vocabulary and concrete inputs for the operations -/

/-- The expression `d?.key` on a parsed value, for a key that no prototype defines. -/
def optionalGet (d : JVal) (key : String) : JVal :=
  match d with
  | .obj fields => fields.get key
  | _ => .undefined

/-- What the `catch` block of `apiRequest` makes of an error message. -/
def caughtMessage (message : String) : String :=
  if jsIncludes message "Failed to fetch" || jsIncludes message "NetworkError" then
    proxyNotRunning
  else message

/-- The ASCII lower-casing of a string. -/
def asciiLower (s : String) : String := String.mk (s.data.map Char.toLower)

/-- The pairs joined as `k=v&k=v`, without escaping. -/
def joinPairs : List (String × String) → String
  | [] => ""
  | [(k, v)] => k ++ "=" ++ v
  | (k, v) :: rest => k ++ "=" ++ v ++ "&" ++ joinPairs rest

/-- A platform for the concrete inputs: its functions agree with the real ones on the strings
used there (ASCII letters and digits). -/
def platformAscii : Platform :=
  { formEncode := joinPairs,
    encodeURIComponent := fun s => s,
    jsonStringify := fun v => toJsString v,
    jsonParse := fun _ => .error "Unexpected end of JSON input",
    toLowerCase := asciiLower,
    hostTypeError := fun key => "The hostname must be of type string. Received " ++ key }

/-- A relay whose connection fails with the message `Load failed`. -/
def envLoadFailed : Env :=
  { net := fun _ _ => .rejects "Load failed",
    clock := fun _ => 700000,
    stringToNumber := fun _ => none }

/-- A relay whose connection fails with the message `Failed to fetch`. -/
def envFailedToFetch : Env :=
  { net := fun _ _ => .rejects "Failed to fetch",
    clock := fun _ => 700000,
    stringToNumber := fun _ => none }

/-- A relay that answers 502 with a body that is not JSON. -/
def envBadGateway : Env :=
  { net := fun _ _ => .responds ⟨502, .notJson "Bad Gateway" "Unexpected token B in JSON"⟩,
    clock := fun _ => 700000,
    stringToNumber := fun _ => none }

/-- A relay that answers 404 with an embedded provider message. -/
def envNotFound : Env :=
  { net := fun _ _ => .responds ⟨404, .json (mkObj
      [("data", mkObj [("errorMessage", .str "Invalid account")])])⟩,
    clock := fun _ => 700000,
    stringToNumber := fun _ => none }

/-- A relay that answers 500 with the JSON literal `null` as body. -/
def envNullBody : Env :=
  { net := fun _ _ => .responds ⟨500, .json .null⟩,
    clock := fun _ => 700000,
    stringToNumber := fun _ => none }

/-- One message of a listing. -/
def sampleMessage : JVal := mkObj [("messageId", .str "m1"), ("subject", .str "Hello")]

/-- The envelope of a listing with one message. -/
def sampleEnvelope : JVal :=
  mkObj [("status", mkObj [("code", .num 200)]), ("data", .arr (.cons sampleMessage .nil))]

/-- A relay that answers every request with `sampleEnvelope`. -/
def envListing : Env :=
  { net := fun _ _ => .responds ⟨200, .json sampleEnvelope⟩,
    clock := fun _ => 700000,
    stringToNumber := fun _ => none }

/-- A folder that is not named like a trash folder but whose path is `/Trash`. -/
def folderByPath : JVal :=
  mkObj [("folderId", .str "9"), ("folderName", .str "Papierkorb"), ("path", .str "/Trash")]

/-- A folder that is neither named nor placed like a trash folder. -/
def folderInbox : JVal :=
  mkObj [("folderId", .str "1"), ("folderName", .str "Inbox"), ("path", .str "/Inbox")]

/-- A relay that answers the first request (the folder lookup) with the single folder
`folderByPath` and every later request with an empty envelope. -/
def envTrashByPath : Env :=
  { net := fun k _ =>
      if k = 0 then .responds ⟨200, .json (mkObj [("data", .arr (.cons folderByPath .nil))])⟩
      else .responds ⟨200, .json (mkObj [("status", mkObj [("code", .num 200)])])⟩,
    clock := fun _ => 700000,
    stringToNumber := fun _ => none }

/-- A relay that answers the folder lookup with the single folder `folderInbox`. -/
def envNoTrash : Env :=
  { net := fun _ _ => .responds ⟨200, .json (mkObj [("data", .arr (.cons folderInbox .nil))])⟩,
    clock := fun _ => 700000,
    stringToNumber := fun _ => none }

/-! ## server/proxy.js -/

/-- The constant `corsHeaders`. -/
def corsHeaders : List (String × String) :=
  [("Access-Control-Allow-Origin", "*"),
   ("Access-Control-Allow-Methods", "GET, POST, PUT, DELETE, OPTIONS"),
   ("Access-Control-Allow-Headers", "Content-Type, Authorization, X-Zoho-Region"),
   ("Access-Control-Max-Age", "86400"),
   ("Content-Type", "application/json")]

/-- The constant `ZOHO_MAIL_DOMAINS`. -/
def ZOHO_MAIL_DOMAINS : List (String × String) :=
  [("com", "mail.zoho.com"), ("in", "mail.zoho.in"), ("eu", "mail.zoho.eu"),
   ("au", "mail.zoho.com.au")]

/-- The constant `ZOHO_AUTH_DOMAINS`. -/
def ZOHO_AUTH_DOMAINS : List (String × String) :=
  [("com", "accounts.zoho.com"), ("in", "accounts.zoho.in"), ("eu", "accounts.zoho.eu"),
   ("au", "accounts.zoho.com.au")]

/-- A request the relay receives.  Header names are lower-case, as Node presents them; the
body is what `readBody` collects. -/
structure IncomingRequest where
  method : String
  url : String
  headers : List (String × String)
  body : String
  deriving DecidableEq

/-- A request the relay makes with `https.request`; `body` is what is written to it (nothing
is written for the empty string). -/
structure UpstreamRequest where
  hostname : String
  port : Nat
  path : String
  method : String
  headers : List (String × String)
  body : String
  deriving DecidableEq

/-- What happens to an upstream request. -/
inductive UpstreamOutcome where
  /-- The response ends with this status and this collected body. -/
  | responds (status : Nat) (data : String)
  /-- The request emits `error` with this message. -/
  | fails (message : String)
  /-- Neither happens. -/
  | never
  deriving DecidableEq

/-- The body the relay sends: nothing, a string as it is, or `JSON.stringify` of a value. -/
inductive RelayBody where
  | empty
  | raw (data : String)
  | json (value : JVal)
  deriving DecidableEq

/-- A response of the relay. -/
structure RelayResponse where
  status : Nat
  headers : List (String × String)
  body : RelayBody
  deriving DecidableEq

/-- What the relay does with one incoming request: the response it sends (`none` when it
never answers) and the upstream requests it has issued, in order. -/
structure RelayResult where
  response : Option RelayResponse
  upstream : List UpstreamRequest
  deriving DecidableEq

/-- The value of `req.headers[name]`. -/
def headerGet : List (String × String) → String → Option String
  | [], _ => none
  | (k, v) :: rest, name => if k = name then some v else headerGet rest name

/-- The function `httpsRequest(options, postData)` for the fields of `options` the handlers
set.  A `hostname` that is not a string makes `https.request` throw inside the promise
executor, so the promise is rejected and no request is issued. -/
def httpsRequest (p : Platform) (up : UpstreamRequest → UpstreamOutcome)
    (hostname : Member String) (path method : String) (headers : List (String × String))
    (postData : String) : Outcome (Nat × String) × List UpstreamRequest :=
  match hostname with
  | .inherited key => (.thrown ⟨p.hostTypeError key⟩, [])
  | .absent =>
    let request : UpstreamRequest :=
      { hostname := "localhost", port := 443, path := path, method := method,
        headers := headers, body := postData }
    (match up request with
     | .responds status data => (.returned (status, data), [request])
     | .fails message => (.thrown ⟨message⟩, [request])
     | .never => (.pending, [request]))
  | .own host =>
    let request : UpstreamRequest :=
      { hostname := host, port := 443, path := path, method := method,
        headers := headers, body := postData }
    (match up request with
     | .responds status data => (.returned (status, data), [request])
     | .fails message => (.thrown ⟨message⟩, [request])
     | .never => (.pending, [request]))

/-- The response `res.writeHead(500, corsHeaders); res.end(JSON.stringify({ error }))`. -/
def errorResponse (status : Nat) (message : String) : RelayResponse :=
  { status := status, headers := corsHeaders,
    body := .json (mkObj [("error", .str message)]) }

/-- The end of both handlers, `res.writeHead(response.status, corsHeaders);
res.end(response.data)` and the `catch` block around the upstream call: the upstream answer is
passed on with its status and body, a failure is answered with status 500 and its message, and
there is no answer while the upstream call does not settle. -/
def passOn (result : Outcome (Nat × String) × List UpstreamRequest) : RelayResult :=
  match result with
  | (.returned (status, data), issued) =>
    { response := some { status := status, headers := corsHeaders, body := .raw data },
      upstream := issued }
  | (.thrown error, issued) =>
    { response := some (errorResponse 500 error.message), upstream := issued }
  | (_, issued) => { response := none, upstream := issued }

/-- The expression `ZOHO_AUTH_DOMAINS[region] || ZOHO_AUTH_DOMAINS['in']`. -/
def authHostOf (region : JVal) : Member String :=
  match objectGet ZOHO_AUTH_DOMAINS (toJsString region) with
  | .absent => objectGet ZOHO_AUTH_DOMAINS "in"
  | m => m

/-- The expression `ZOHO_MAIL_DOMAINS[region] || ZOHO_MAIL_DOMAINS['in']`. -/
def mailHostOf (region : String) : Member String :=
  match objectGet ZOHO_MAIL_DOMAINS region with
  | .absent => objectGet ZOHO_MAIL_DOMAINS "in"
  | m => m

/-- The form parameters `handleTokenRefresh` sends upstream. -/
def tokenForm (refresh_token client_id client_secret : JVal) : List (String × String) :=
  [("refresh_token", toJsString refresh_token), ("client_id", toJsString client_id),
   ("client_secret", toJsString client_secret), ("grant_type", "refresh_token")]

/-- The headers `handleTokenRefresh` sends upstream. -/
def tokenHeaders (postData : String) : List (String × String) :=
  [("Content-Type", "application/x-www-form-urlencoded"),
   ("Content-Length", toString postData.utf8ByteSize)]

/-- The function `handleTokenRefresh(req, res)`. -/
def handleTokenRefresh (p : Platform) (up : UpstreamRequest → UpstreamOutcome)
    (req : IncomingRequest) : RelayResult :=
  match p.jsonParse req.body with
  | .error message => { response := some (errorResponse 500 message), upstream := [] }
  | .ok parsed =>
    match parsed with
    | .undefined =>
      { response := some (errorResponse 500
          "Cannot destructure property \x27refresh_token\x27 of \x27JSON.parse(...)\x27 as it is undefined."),
        upstream := [] }
    | .null =>
      { response := some (errorResponse 500
          "Cannot destructure property \x27refresh_token\x27 of \x27JSON.parse(...)\x27 as it is null."),
        upstream := [] }
    | _ =>
      let refresh_token := optionalGet parsed "refresh_token"
      let client_id := optionalGet parsed "client_id"
      let client_secret := optionalGet parsed "client_secret"
      let region := optionalGet parsed "region"
      let authHost := authHostOf region
      let postData := p.formEncode (tokenForm refresh_token client_id client_secret)
      passOn (httpsRequest p up authHost "/oauth/v2/token" "POST" (tokenHeaders postData)
        postData)

/-- The headers `handleApiProxy` sends upstream. -/
def apiHeaders (authHeader method body : String) : List (String × String) :=
  let headers := [("Authorization", authHeader), ("Content-Type", "application/json"),
                  ("Accept", "application/json")]
  if body ≠ "" ∧ (method = "POST" ∨ method = "PUT") then
    headers ++ [("Content-Length", toString body.utf8ByteSize)]
  else headers

/-- The expression `req.headers['x-zoho-region'] || 'in'`. -/
def regionTag (req : IncomingRequest) : String :=
  match headerGet req.headers "x-zoho-region" with
  | some r => if r = "" then "in" else r
  | none => "in"

/-- The function `handleApiProxy(req, res)`. -/
def handleApiProxy (p : Platform) (up : UpstreamRequest → UpstreamOutcome)
    (req : IncomingRequest) : RelayResult :=
  match headerGet req.headers "authorization" with
  | none => { response := some (errorResponse 401 "No authorization header"), upstream := [] }
  | some authHeader =>
    if authHeader = "" then
      { response := some (errorResponse 401 "No authorization header"), upstream := [] }
    else
      let region := regionTag req
      let zohoHost := mailHostOf region
      let zohoPath := req.url
      let body := req.body
      passOn (httpsRequest p up zohoHost zohoPath req.method
        (apiHeaders authHeader req.method body) body)

/-- The request handler passed to `http.createServer`. -/
def server (p : Platform) (up : UpstreamRequest → UpstreamOutcome) (req : IncomingRequest) :
    RelayResult :=
  if req.method = "OPTIONS" then
    { response := some { status := 204, headers := corsHeaders, body := .empty },
      upstream := [] }
  else if req.url = "/token" ∧ req.method = "POST" then
    handleTokenRefresh p up req
  else if startsWithChars req.url.data "/api/".data then
    handleApiProxy p up req
  else
    { response := some (errorResponse 404 "Not found"), upstream := [] }

/-! ## Vocabulary and concrete inputs for the relay -/

/-- The upstream request of the token handler for a parsed body and an auth host. -/
def tokenUpstream (p : Platform) (host : String) (parsed : JVal) : UpstreamRequest :=
  { hostname := host, port := 443, path := "/oauth/v2/token", method := "POST",
    headers := tokenHeaders (p.formEncode (tokenForm (optionalGet parsed "refresh_token")
      (optionalGet parsed "client_id") (optionalGet parsed "client_secret"))),
    body := p.formEncode (tokenForm (optionalGet parsed "refresh_token")
      (optionalGet parsed "client_id") (optionalGet parsed "client_secret")) }

/-- The upstream request of the API handler for an `Authorization` value and a mail host. -/
def apiUpstream (host authHeader : String) (req : IncomingRequest) : UpstreamRequest :=
  { hostname := host, port := 443, path := req.url, method := req.method,
    headers := apiHeaders authHeader req.method req.body, body := req.body }

/-- The body of a token request of the extension for the region `in`. -/
def tokenBodyText : String :=
  "\x7b\"refresh_token\":\"rt\",\"client_id\":\"id\",\"client_secret\":\"secret\",\"region\":\"in\"\x7d"

/-- The fields that body parses to. -/
def tokenBodyFields : JFields :=
  .cons "refresh_token" (.str "rt") (.cons "client_id" (.str "id")
    (.cons "client_secret" (.str "secret") (.cons "region" (.str "in") .nil)))

/-- The platform of the concrete inputs with a `JSON.parse` that knows `tokenBodyText`. -/
def platformToken : Platform :=
  { platformAscii with
    jsonParse := fun s =>
      if s = tokenBodyText then .ok (.obj tokenBodyFields)
      else .error "Unexpected token in JSON" }

/-- The request `POST /token` with that body. -/
def tokenRequest : IncomingRequest :=
  { method := "POST", url := "/token", headers := [("content-type", "application/json")],
    body := tokenBodyText }

/-- A request `GET /api/accounts` of the extension for the region `eu`. -/
def accountsRequest : IncomingRequest :=
  { method := "GET", url := "/api/accounts",
    headers := [("authorization", "Zoho-oauthtoken abc"), ("x-zoho-region", "eu")],
    body := "" }

/-- The preflight of that request. -/
def preflightRequest : IncomingRequest := { accountsRequest with method := "OPTIONS" }

/-- An upstream that answers every request with status 200 and a fixed body. -/
def upstreamOk : UpstreamRequest → UpstreamOutcome :=
  fun _ => .responds 200 "\x7b\"access_token\":\"fresh\",\"expires_in\":3600\x7d"

/-- An upstream that cannot be reached. -/
def upstreamDown : UpstreamRequest → UpstreamOutcome :=
  fun _ => .fails "getaddrinfo ENOTFOUND"

/-! ## background.js -/

/-- An effect on the user interface other than the badge. -/
inductive UiEffect where
  /-- The call `chrome.notifications.create(id, { title, message, ... })`. -/
  | notification (id : String) (title message : JVal)
  /-- The call `chrome.tts.speak(text)`. -/
  | speak (text : String)
  deriving DecidableEq

/-- The state of the background process: the world of the core, the synced storage
`chrome.storage.sync`, and the interface effects so far. -/
structure BgWorld where
  core : World
  sync : String → JVal
  ui : List UiEffect

/-- An asynchronous function of the background process. -/
def Bg (α : Type) : Type := Env → BgWorld → Outcome α × BgWorld

/-- Fulfil with a value. -/
def Bg.pure {α : Type} (a : α) : Bg α := fun _ w => (.returned a, w)

/-- Sequencing: the continuation runs only after a fulfilled step. -/
def Bg.bind {α β : Type} (m : Bg α) (f : α → Bg β) : Bg β := fun env w =>
  match m env w with
  | (.returned a, w1) => f a env w1
  | (.thrown e, w1) => (.thrown e, w1)
  | (.pending, w1) => (.pending, w1)
  | (.outOfFuel, w1) => (.outOfFuel, w1)

instance : Monad Bg where
  pure := Bg.pure
  bind := Bg.bind

/-- A function of the core run in the background process. -/
def Bg.lift {α : Type} (m : Js α) : Bg α := fun env w =>
  match m env w.core with
  | (o, core) => (o, { w with core := core })

/-- The statement `throw new Error(message)`. -/
def Bg.throw {α : Type} (message : String) : Bg α := fun _ w => (.thrown ⟨message⟩, w)

/-- The statement `try { body } catch (error) { handler }`. -/
def Bg.tryCatch {α : Type} (body : Bg α) (handler : JsError → Bg α) : Bg α := fun env w =>
  match body env w with
  | (.thrown e, w1) => handler e env w1
  | r => r

/-- Lift a synchronous step that may throw. -/
def Bg.ofOutcome {α : Type} (o : Outcome α) : Bg α := fun _ w => (o, w)

/-- One key of `await chrome.storage.sync.get(...)`. -/
def syncGet (key : String) : Bg JVal := fun _ w => (.returned (w.sync key), w)

/-- Record an interface effect. -/
def uiEffect (e : UiEffect) : Bg Unit := fun _ w => (.returned (), { w with ui := w.ui ++ [e] })

/-- The number of UTF-16 code units of a string. -/
def utf16Length (s : String) : Nat :=
  s.data.foldl (fun n c => n + (if c.toNat < 65536 then 1 else 2)) 0

/-- The property read `v.length`. -/
def jsLength (v : JVal) : Outcome JVal :=
  match v with
  | .undefined => .thrown ⟨"Cannot read properties of undefined (reading \x27length\x27)"⟩
  | .null => .thrown ⟨"Cannot read properties of null (reading \x27length\x27)"⟩
  | .arr items => .returned (.num items.toList.length)
  | .str s => .returned (.num (utf16Length s))
  | .obj fields => .returned (fields.get "length")
  | _ => .returned .undefined

/-- The element read `v[0]` on a value whose `length` has been read.  For a string the result
stands for its first code unit; the program only reads properties from it, which a string
does not have. -/
def jsFirst (v : JVal) : Outcome JVal :=
  match v with
  | .undefined => .thrown ⟨"Cannot read properties of undefined (reading \x270\x27)"⟩
  | .null => .thrown ⟨"Cannot read properties of null (reading \x270\x27)"⟩
  | .arr (.cons x _) => .returned x
  | .str s => .returned (.str (String.mk (s.data.take 1)))
  | .obj fields => .returned (fields.get "0")
  | _ => .returned .undefined

/-- The comparison `SameValueZero` of `Array.prototype.includes`: values parsed from JSON or
read from the storage are equal when they are equal primitives; two objects or arrays are
never the same object. -/
def sameValueZero (a b : JVal) : Bool :=
  match a with
  | .arr _ => false
  | .obj _ => false
  | _ => decide (a = b)

/-- The call `list.includes(id)` on a value: membership in an array, the substring test on a
string, a `TypeError` on every other value. -/
def jsListIncludes (list : JVal) (what : String) (id : JVal) : Outcome Bool :=
  match list with
  | .undefined => .thrown ⟨"Cannot read properties of undefined (reading \x27includes\x27)"⟩
  | .null => .thrown ⟨"Cannot read properties of null (reading \x27includes\x27)"⟩
  | .arr items => .returned (items.toList.any (fun x => sameValueZero x id))
  | .str s => .returned (jsIncludes s (toJsString id))
  | _ => .thrown ⟨what ++ ".includes is not a function"⟩

/-- The call `newEmailIds.includes(e.messageId)`: the identifiers in `newEmailIds` are the
very values read from the elements of `emails`, so an identifier that is an object or an array
is found by identity (it is always new, never the same object as a stored one) and a
primitive identifier is found by value. -/
def includesOwn (newEmailIds : List JVal) (id : JVal) : Bool :=
  match id with
  | .arr _ => true
  | .obj _ => true
  | _ => newEmailIds.any (fun x => decide (x = id))

/-- Map a function that may throw over a list, stopping at the first error. -/
def mapOutcome {α β : Type} (f : α → Outcome β) : List α → Outcome (List β)
  | [] => .returned []
  | x :: rest =>
    match f x with
    | .returned y =>
      (match mapOutcome f rest with
       | .returned ys => .returned (y :: ys)
       | .thrown e => .thrown e
       | .pending => .pending
       | .outOfFuel => .outOfFuel)
    | .thrown e => .thrown e
    | .pending => .pending
    | .outOfFuel => .outOfFuel

/-- Keep the elements on which a predicate that may throw is true. -/
def filterOutcome {α : Type} (f : α → Outcome Bool) : List α → Outcome (List α)
  | [] => .returned []
  | x :: rest =>
    match f x with
    | .returned keep =>
      (match filterOutcome f rest with
       | .returned ys => .returned (if keep then x :: ys else ys)
       | .thrown e => .thrown e
       | .pending => .pending
       | .outOfFuel => .outOfFuel)
    | .thrown e => .thrown e
    | .pending => .pending
    | .outOfFuel => .outOfFuel

/-- The elements of `emails` for `emails.map(...)` and `emails.filter(...)`: a `TypeError`
when the value is not an array. -/
def arrayElements (v : JVal) (what method : String) : Outcome (List JVal) :=
  match v with
  | .arr items => .returned items.toList
  | .undefined =>
    .thrown ⟨"Cannot read properties of undefined (reading \x27" ++ method ++ "\x27)"⟩
  | .null => .thrown ⟨"Cannot read properties of null (reading \x27" ++ method ++ "\x27)"⟩
  | _ => .thrown ⟨what ++ "." ++ method ++ " is not a function"⟩

/-- The function `updateBadge(count)`. -/
def updateBadge (count : JVal) : Js Unit := fun env w =>
  if count = .num 0 then
    setBadgeText "" env w
  else if JNum.gt (toNumber env count) (some 99) then
    setBadgeText "99+" env w
  else
    match toStringMethod count "count" with
    | .returned text => setBadgeText text env w
    | .thrown e => (.thrown e, w)
    | .pending => (.pending, w)
    | .outOfFuel => (.outOfFuel, w)

/-- The function `showNotification(email)`: the notification is created.  The promise chain
that then records it under the storage key `notifications` is not awaited; it runs after the
caller has moved on and is not part of the model. -/
def showNotification (email : JVal) : Bg Unit := do
  let messageId ← Bg.ofOutcome (getField email "messageId")
  let notificationId := "email_" ++ toJsString messageId
  let fromAddress ← Bg.ofOutcome (getField email "fromAddress")
  let sender ← Bg.ofOutcome (getField email "sender")
  let subject ← Bg.ofOutcome (getField email "subject")
  uiEffect (.notification notificationId
    (jsOr (jsOr fromAddress sender) (.str "New Email"))
    (jsOr subject (.str "(No Subject)")))

/-- The loop `for (const email of newEmails.slice(0, 3)) showNotification(email)`. -/
def showNotifications : List JVal → Bg Unit
  | [] => pure ()
  | email :: rest => do
    showNotification email
    showNotifications rest

/-- The `try` block of `checkForNewEmails`. -/
def checkForNewEmailsBody (p : Platform) (fuel : Nat) : Bg Unit := do
  let loggedIn ← Bg.lift isLoggedIn
  if !truthy loggedIn then
    Bg.lift (setBadgeText "")
  else
    let storedAccountId ← Bg.lift (storageGet "accountId")
    let storedInboxFolderId ← Bg.lift (storageGet "inboxFolderId")
    let discovered : Option JVal ←
      (if !truthy storedAccountId then do
        let accounts ← Bg.lift (getAccounts fuel)
        let length ← Bg.ofOutcome (jsLength accounts)
        let count ← Bg.lift (toNumberJs length)
        if JNum.gt count (some 0) then do
          let first ← Bg.ofOutcome (jsFirst accounts)
          let accountId ← Bg.ofOutcome (getField first "accountId")
          let emailAddress ← Bg.ofOutcome (getField first "emailAddress")
          Bg.lift (storageSet [("accountId", accountId), ("userEmail", emailAddress)])
          pure (some accountId)
        else
          pure none
      else
        pure (some storedAccountId))
    match discovered with
    | none => pure ()
    | some accountId =>
      let inboxFolderId ←
        (if !truthy storedInboxFolderId then do
          let found ← Bg.lift (getInboxFolderId p fuel accountId)
          if truthy found then
            Bg.lift (storageSet [("inboxFolderId", found)])
          pure found
        else
          pure storedInboxFolderId)
      let emails ← Bg.lift (getEmails p fuel accountId
        { folderId := inboxFolderId, limit := .num 50, start := .undefined,
          status := .str "unread", includeto := .undefined })
      let unreadCount ← Bg.ofOutcome (jsLength emails)
      Bg.lift (updateBadge unreadCount)
      let stored ← Bg.lift (storageGet "lastEmailIds")
      let lastEmailIds := orDefault stored emptyArray
      let elements ← Bg.ofOutcome (arrayElements emails "emails" "map")
      let currentEmailIds ← Bg.ofOutcome (mapOutcome (fun e => getField e "messageId") elements)
      let newEmailIds ← Bg.ofOutcome (filterOutcome
        (fun id =>
          match jsListIncludes lastEmailIds "lastEmailIds" id with
          | .returned known => .returned (!known)
          | .thrown e => .thrown e
          | .pending => .pending
          | .outOfFuel => .outOfFuel)
        currentEmailIds)
      if newEmailIds.length > 0 then
        let setting ← syncGet "notificationsEnabled"
        let notificationsEnabled := orDefault setting (.bool true)
        if truthy notificationsEnabled then
          uiEffect (.speak "New email received")
          let newEmails ← Bg.ofOutcome (filterOutcome
            (fun e =>
              match getField e "messageId" with
              | .returned id => .returned (includesOwn newEmailIds id)
              | .thrown err => .thrown err
              | .pending => .pending
              | .outOfFuel => .outOfFuel)
            elements)
          showNotifications (newEmails.take 3)
      Bg.lift (storageSet [("lastEmailIds", .arr (JList.ofList currentEmailIds))])

/-- The function `checkForNewEmails`: the `catch` block logs the error and shows `!` on the
badge when the message contains `expired` or `authenticated`. -/
def checkForNewEmails (p : Platform) (fuel : Nat) : Bg Unit :=
  Bg.tryCatch (checkForNewEmailsBody p fuel)
    (fun error =>
      if jsIncludes error.message "expired" || jsIncludes error.message "authenticated" then
        Bg.lift (setBadgeText "!")
      else
        pure ())

/-- The result `{ success: true }`. -/
def successResult : JVal := mkObj [("success", .bool true)]

/-- The actions `handleMessage` knows. -/
def knownActions : List String :=
  ["checkEmails", "getEmails", "markAsRead", "markAsUnread", "deleteEmails", "archiveEmails",
   "markAsSpam", "updateBadge"]

/-- The function `handleMessage(message)`. -/
def handleMessage (p : Platform) (fuel : Nat) (message : JVal) : Bg JVal := do
  let action ← Bg.ofOutcome (getField message "action")
  if action = .str "checkEmails" then do
    checkForNewEmails p fuel
    pure successResult
  else if action = .str "getEmails" then do
    let accountId ← Bg.lift (storageGet "accountId")
    let inboxFolderId ← Bg.lift (storageGet "inboxFolderId")
    let limit := jsOr (optionalGet message "limit") (.num 20)
    let viaDiscovery : Option JVal ←
      (if !truthy accountId then do
        let accounts ← Bg.lift (getAccounts fuel)
        let length ← Bg.ofOutcome (jsLength accounts)
        let count ← Bg.lift (toNumberJs length)
        if JNum.gt count (some 0) then do
          let first ← Bg.ofOutcome (jsFirst accounts)
          let firstId ← Bg.ofOutcome (getField first "accountId")
          let emailAddress ← Bg.ofOutcome (getField first "emailAddress")
          Bg.lift (storageSet [("accountId", firstId), ("userEmail", emailAddress)])
          let folderId ← Bg.lift (getInboxFolderId p fuel firstId)
          Bg.lift (storageSet [("inboxFolderId", folderId)])
          let emails ← Bg.lift (getEmails p fuel firstId
            { folderId := folderId, limit := limit, start := .undefined, status := .undefined,
              includeto := .undefined })
          pure (some emails)
        else
          pure none
      else
        pure none)
    match viaDiscovery with
    | some emails => pure emails
    | none =>
      Bg.lift (getEmails p fuel accountId
        { folderId := inboxFolderId, limit := limit, start := .undefined,
          status := jsOr (optionalGet message "status") (.str "all"),
          includeto := .undefined })
  else if action = .str "markAsRead" then do
    let accountId ← Bg.lift (storageGet "accountId")
    let _ ← Bg.lift (markAsRead p fuel accountId (optionalGet message "messageIds"))
    checkForNewEmails p fuel
    pure successResult
  else if action = .str "markAsUnread" then do
    let accountId ← Bg.lift (storageGet "accountId")
    let _ ← Bg.lift (markAsUnread p fuel accountId (optionalGet message "messageIds"))
    checkForNewEmails p fuel
    pure successResult
  else if action = .str "deleteEmails" then do
    let accountId ← Bg.lift (storageGet "accountId")
    let inboxFolderId ← Bg.lift (storageGet "inboxFolderId")
    let _ ← Bg.lift (deleteEmails p fuel accountId (optionalGet message "messageIds")
      inboxFolderId)
    checkForNewEmails p fuel
    pure successResult
  else if action = .str "archiveEmails" then do
    let accountId ← Bg.lift (storageGet "accountId")
    let _ ← Bg.lift (archiveEmails p fuel accountId (optionalGet message "messageIds"))
    checkForNewEmails p fuel
    pure successResult
  else if action = .str "markAsSpam" then do
    let accountId ← Bg.lift (storageGet "accountId")
    let _ ← Bg.lift (markAsSpam p fuel accountId (optionalGet message "messageIds"))
    checkForNewEmails p fuel
    pure successResult
  else if action = .str "updateBadge" then do
    Bg.lift (updateBadge (optionalGet message "count"))
    pure successResult
  else
    Bg.throw ("Unknown action: " ++ toJsString action)

/-- The listener of `chrome.runtime.onMessage`: what is passed to `sendResponse` (`none` while
`handleMessage` does not settle). -/
def onMessage (p : Platform) (fuel : Nat) (message : JVal) (env : Env) (w : BgWorld) :
    Option JVal × BgWorld :=
  match handleMessage p fuel message env w with
  | (.returned result, w1) => (some result, w1)
  | (.thrown error, w1) => (some (mkObj [("error", .str error.message)]), w1)
  | (_, w1) => (none, w1)

/-! ## Concrete inputs for the background process -/

/-- A background process on a fresh install. -/
def bgEmpty : BgWorld := { core := wEmpty, sync := fun _ => .undefined, ui := [] }

/-- A message with an action the background process does not know. -/
def messageUnknown : JVal := mkObj [("action", .str "refreshAll")]

/-- A message without an action. -/
def messageNoAction : JVal := mkObj [("count", .num 3)]

/-! ## options.js -/

/-- The function `saveCredentials`: the arguments are the values of the input elements
`clientId`, `clientSecret` and `refreshToken` after `trim()`, and the value of the select
`region`.  The rest of the function updates the page. -/
def saveCredentials (clientId clientSecret refreshToken region : String) : Js Unit :=
  storageSet [("zohoClientId", .str clientId), ("zohoClientSecret", .str clientSecret),
              ("zohoRefreshToken", .str refreshToken), ("region", .str region)]

/-! ## Sequences of token operations -/

/-- The operations that write the token state. -/
inductive TokenOp where
  | login (region : JVal)
  | refreshToken
  | refreshAccessToken
  | logout

/-- The world one operation leaves, whatever its outcome. -/
def TokenOp.run (op : TokenOp) (env : Env) (w : World) : World :=
  match op with
  | .login region => (ZohoMail.login region env w).2
  | .refreshToken => (ZohoMail.refreshToken env w).2
  | .refreshAccessToken => (ZohoMail.refreshAccessToken env w).2
  | .logout => (ZohoMail.logout env w).2

/-- The world a sequence of operations leaves, each operation under its own environment. -/
def runOps : List (TokenOp × Env) → World → World
  | [], w => w
  | (op, env) :: rest, w => runOps rest (op.run env w)

/-! ## Concrete inputs for the token operations -/

/-- The storage after `saveCredentials` for the region `eu` on a fresh install. -/
def wSaved : World := (saveCredentials "id" "secret" "rt" "eu" envAbc wEmpty).2

/-- The storage after `saveCredentials` for the region `in` on a fresh install: the
credentials are configured and the token state is empty. -/
def wSavedIn : World := (saveCredentials "id" "secret" "rt" "in" envAbc wEmpty).2

/-- The storage after a successful `login` that follows. -/
def wSignedIn : World := (login (.str "eu") envAbc wSaved).2

/-- Complete credentials without a stored region. -/
def wNoRegion : World :=
  { storage := storageOf [("zohoClientId", .str "id"), ("zohoClientSecret", .str "secret"),
                          ("zohoRefreshToken", .str "rt")],
    trace := [], badge := "" }

/-- A signed-in storage for the region `eu` that also holds the refresh token under the key
`refreshToken`. -/
def wEuBothKeys : World :=
  { storage := storageOf [("accessToken", .str "cached"), ("tokenExpiry", .num 1000000),
                          ("isLoggedIn", .bool true), ("region", .str "eu"),
                          ("zohoClientId", .str "id"), ("zohoClientSecret", .str "secret"),
                          ("zohoRefreshToken", .str "rt"), ("refreshToken", .str "rt")],
    trace := [], badge := "" }

/-- A relay that answers 400 with a provider message that contains the text `NetworkError`. -/
def envProviderNetworkError : Env :=
  { net := fun _ _ => .responds ⟨400, .json (mkObj
      [("data", mkObj [("errorMessage", .str "NetworkError while contacting the mail store")])])⟩,
    clock := fun _ => 700000,
    stringToNumber := fun _ => none }

/-- A relay that answers 403 with a provider message about the subscription. -/
def envSubscriptionExpired : Env :=
  { net := fun _ _ => .responds ⟨403, .json (mkObj
      [("data", mkObj [("errorMessage", .str "Subscription expired")])])⟩,
    clock := fun _ => 700000,
    stringToNumber := fun _ => none }

/-- A signed-in background process that has not yet discovered the account. -/
def bgSignedIn : BgWorld := { core := wBoundary, sync := fun _ => .undefined, ui := [] }

/-! ## Two calls of `refreshToken` in flight

An asynchronous function runs until it awaits a promise that is not settled and resumes when
the promise settles; between the two, other calls run.  The `fetch` of `refreshToken` is the
promise that takes time, so a call of `refreshToken` is cut there: the part up to the `fetch`
and the part after its answer.  The awaited storage reads and writes are taken as one piece
with the code around them. -/

/-- The part of `refreshToken` up to its `fetch`: the token request to issue. -/
def refreshTokenPrepare : Js Request := do
  let credentials ← getCredentials
  let region := credentials.region
  let endpoints := getAuthEndpoints (jsOr region (.str "com"))
  let tokenUrl ← Js.ofOutcome endpoints.token
  pure (refreshTokenRequest tokenUrl credentials)

/-- The part of `refreshToken` after its `fetch` has been answered. -/
def refreshTokenResume (response : Response) : Js JVal := do
  let data ← Js.ofOutcome response.json
  let error ← Js.ofOutcome (getField data "error")
  if truthy error then
    logout
    Js.throw sessionExpired
  else
    let accessToken ← Js.ofOutcome (getField data "access_token")
    let now ← dateNow
    let expiresIn ← Js.ofOutcome (getField data "expires_in")
    let lifetime ← toNumberJs expiresIn
    storageSet [("accessToken", accessToken),
                ("tokenExpiry", JVal.ofNum (JNum.add (some now) (JNum.mul lifetime (some 1000))))]
    pure accessToken

/-- How far a call of `refreshToken` has come: not started, waiting for the answer to the
request it issued at a position of the trace, or settled. -/
inductive Call where
  | idle
  | waiting (position : Nat) (request : Request)
  | settled (result : Outcome JVal)
  deriving DecidableEq

/-- Whether a call has started: 1 when it has, 0 when it has not. -/
def Call.started : Call → Nat
  | .idle => 0
  | _ => 1

/-- The next piece of a call: an idle call runs up to its `fetch` and issues the request, a
waiting call resumes with the answer to its request (and keeps waiting when there is none),
a settled call has nothing left to run. -/
def Call.advance (env : Env) (c : Call) (w : World) : Call × World :=
  match c with
  | .idle =>
    (match refreshTokenPrepare env w with
     | (.returned request, w1) => (.waiting w1.trace.length request, w1.issue request)
     | (.thrown e, w1) => (.settled (.thrown e), w1)
     | (.pending, w1) => (.settled .pending, w1)
     | (.outOfFuel, w1) => (.settled .outOfFuel, w1))
  | .waiting position request =>
    (match env.net position request with
     | .responds response =>
       (match refreshTokenResume response env w with
        | (result, w1) => (.settled result, w1))
     | .rejects message => (.settled (.thrown ⟨message⟩), w)
     | .never => (.waiting position request, w))
  | .settled result => (.settled result, w)

/-- Two calls of `refreshToken` over one storage and one network. -/
structure Pool where
  world : World
  first : Call
  second : Call

/-- Which of the two calls runs its next piece. -/
inductive Turn where
  | first
  | second
  deriving DecidableEq

/-- One turn of the event loop. -/
def Pool.turn (env : Env) (pool : Pool) (t : Turn) : Pool :=
  match t with
  | .first =>
    (match pool.first.advance env pool.world with
     | (c, w) => { pool with world := w, first := c })
  | .second =>
    (match pool.second.advance env pool.world with
     | (c, w) => { pool with world := w, second := c })

/-- A schedule: the turns in the order the event loop takes them. -/
def runSchedule (env : Env) : List Turn → Pool → Pool
  | [], pool => pool
  | t :: rest, pool => runSchedule env rest (pool.turn env t)

/-- Two calls of `refreshToken` that have not started, hence no refresh in flight. -/
def Pool.fresh (w : World) : Pool := { world := w, first := .idle, second := .idle }

/-! ## Basic facts about the combinators -/

@[simp] theorem bind_eq_jsBind {α β : Type} (m : Js α) (f : α → Js β) : (m >>= f) = Js.bind m f :=
  rfl

@[simp] theorem pure_eq_jsPure {α : Type} (a : α) : (pure a : Js α) = Js.pure a := rfl

attribute [simp] Js.pure Js.bind Js.throw Js.rethrow Js.tryCatch Js.ofOutcome awaitFetch
  fireAndForget dateNow storageGet storageSet storageRemove setBadgeText toNumberJs

@[simp] theorem World.issue_trace (w : World) (req : Request) :
    (w.issue req).trace = w.trace ++ [req] := rfl

@[simp] theorem World.issue_storage (w : World) (req : Request) :
    (w.issue req).storage = w.storage := rfl

@[simp] theorem World.issue_badge (w : World) (req : Request) :
    (w.issue req).badge = w.badge := rfl

/-- A property read either yields a value or throws. -/
theorem getField_cases (v : JVal) (key : String) :
    (∃ x, getField v key = .returned x) ∨ (∃ e, getField v key = .thrown e) := by
  cases v <;> simp [getField]

/-- A value one property of which can be read has every property readable. -/
theorem getField_returned_of_returned (v : JVal) (k1 k2 : String) (a : JVal)
    (h : getField v k1 = .returned a) : ∃ x, getField v k2 = .returned x := by
  cases v <;> simp [getField] at h ⊢

theorem getAuthEndpoints_cases (r : JVal) :
    (∃ e, getAuthEndpoints r = .own e) ∨ (∃ k, getAuthEndpoints r = .inherited k) := by
  unfold getAuthEndpoints
  simp only
  cases h : objectGet ZOHO_AUTH_ENDPOINTS (toJsString (if r = .undefined then JVal.str "com" else r)) with
  | own e => exact Or.inl ⟨e, rfl⟩
  | inherited k => exact Or.inr ⟨k, rfl⟩
  | absent => exact Or.inl ⟨_, rfl⟩

theorem getCredentials_complete (env : Env) (w : World)
    (hId : truthy (w.storage "zohoClientId") = true)
    (hSec : truthy (w.storage "zohoClientSecret") = true)
    (hRt : truthy (w.storage "zohoRefreshToken") = true) :
    getCredentials env w = (.returned (credentialsOf w.storage), w) := by
  simp [getCredentials, hId, hSec, hRt, credentialsOf]

theorem getCredentials_missing (env : Env) (w : World)
    (h : ¬ (truthy (w.storage "zohoClientId") = true ∧ truthy (w.storage "zohoClientSecret") = true
      ∧ truthy (w.storage "zohoRefreshToken") = true)) :
    getCredentials env w = (.thrown ⟨credentialsMissing⟩, w) := by
  simp only [getCredentials, bind_eq_jsBind, Js.bind, storageGet]
  by_cases h1 : truthy (w.storage "zohoClientId") = true <;>
  by_cases h2 : truthy (w.storage "zohoClientSecret") = true <;>
  by_cases h3 : truthy (w.storage "zohoRefreshToken") = true <;>
  simp_all

theorem logout_eq (env : Env) (w : World) :
    logout env w = (.returned (),
      { storage := Storage.remove w.storage logoutKeys,
        trace := if truthy (w.storage "accessToken") then w.trace ++ [revokeRequestOf w.storage]
                 else w.trace,
        badge := "" }) := by
  by_cases h : truthy (w.storage "accessToken") = true
  · rcases getAuthEndpoints_cases (jsOr (w.storage "region") (.str "com")) with ⟨e, he⟩ | ⟨k, hk⟩
    · simp [logout, h, he, Member.revoke, revokeRequestOf, logoutKeys]
    · simp [logout, h, hk, Member.revoke, revokeRequestOf, logoutKeys]
  · simp [logout, h, logoutKeys]

/-- The token URL `login` builds for a region of the table is the table's token URL. -/
theorem login_tokenUrl (r : String) (ep : AuthEndpoints)
    (hr : ownGet ZOHO_AUTH_ENDPOINTS r = some ep) :
    "https://accounts.zoho." ++ loginTld (.str r) ++ "/oauth/v2/token" = ep.token := by
  have hr4 : r = "com" ∨ r = "in" ∨ r = "eu" ∨ r = "au" := by
    simp only [ZOHO_AUTH_ENDPOINTS, ownGet] at hr
    by_contra hcon
    simp only [not_or] at hcon
    obtain ⟨h1, h2, h3, h4⟩ := hcon
    simp [Ne.symm h1, Ne.symm h2, Ne.symm h3, Ne.symm h4] at hr
  rcases hr4 with h | h | h | h <;> subst h <;>
    simp [ZOHO_AUTH_ENDPOINTS, ownGet] at hr <;> subst hr <;> decide

/-- Whatever the network does, `login` with complete credentials issues exactly its one
token request. -/
theorem login_trace (env : Env) (w : World) (arg : JVal)
    (hId : truthy (w.storage "zohoClientId") = true)
    (hSec : truthy (w.storage "zohoClientSecret") = true)
    (hRt : truthy (w.storage "zohoRefreshToken") = true) :
    (login arg env w).2.trace = w.trace ++
      [loginRequest ("https://accounts.zoho." ++
          loginTld (jsOr (credentialsOf w.storage).region
            (if arg = .undefined then JVal.str "in" else arg)) ++ "/oauth/v2/token")
        (credentialsOf w.storage)] := by
  have hc := getCredentials_complete env w hId hSec hRt
  rcases hnet : env.net w.trace.length (loginRequest ("https://accounts.zoho." ++
          loginTld (jsOr (credentialsOf w.storage).region
            (if arg = .undefined then JVal.str "in" else arg)) ++ "/oauth/v2/token")
        (credentialsOf w.storage)) with ⟨st, d | ⟨t, m⟩⟩ | msg | _
  · rcases hg : getField d "error" with er | e | _ | _
    · by_cases hte : truthy er = true
      · simp [login, hc, hnet, Response.json, hg, hte]
      · rcases hg2 : getField d "access_token" with a | e | _ | _
        · by_cases hta : truthy a = true
          · rcases hg3 : getField d "expires_in" with x | e | _ | _ <;>
              simp [login, hc, hnet, Response.json, hg, hte, hg2, hta, hg3]
          · simp [login, hc, hnet, Response.json, hg, hte, hg2, hta]
        all_goals simp [login, hc, hnet, Response.json, hg, hte, hg2]
    all_goals simp [login, hc, hnet, Response.json, hg]
  all_goals simp [login, hc, hnet, Response.json]

/-! ## The auth endpoint resolver -/

/-- The four regions resolve to their own entry. -/
theorem getAuthEndpoints_known :
    getAuthEndpoints (.str "com") = .own
        { authorize := "https://accounts.zoho.com/oauth/v2/auth",
          token := "https://accounts.zoho.com/oauth/v2/token",
          revoke := "https://accounts.zoho.com/oauth/v2/token/revoke" }
    ∧ getAuthEndpoints (.str "in") = .own
        { authorize := "https://accounts.zoho.in/oauth/v2/auth",
          token := "https://accounts.zoho.in/oauth/v2/token",
          revoke := "https://accounts.zoho.in/oauth/v2/token/revoke" }
    ∧ getAuthEndpoints (.str "eu") = .own
        { authorize := "https://accounts.zoho.eu/oauth/v2/auth",
          token := "https://accounts.zoho.eu/oauth/v2/token",
          revoke := "https://accounts.zoho.eu/oauth/v2/token/revoke" }
    ∧ getAuthEndpoints (.str "au") = .own
        { authorize := "https://accounts.zoho.com.au/oauth/v2/auth",
          token := "https://accounts.zoho.com.au/oauth/v2/token",
          revoke := "https://accounts.zoho.com.au/oauth/v2/token/revoke" } := by
  decide

/-- A missing argument resolves to the entry of `com`. -/
theorem getAuthEndpoints_missing_argument :
    getAuthEndpoints .undefined = getAuthEndpoints (.str "com") := by
  decide

/-- A string that is neither a region nor a member of `Object.prototype` resolves to the
entry of `com`. -/
theorem getAuthEndpoints_unknown (s : String)
    (hs : s ≠ "com" ∧ s ≠ "in" ∧ s ≠ "eu" ∧ s ≠ "au") (hp : s ∉ objectPrototypeKeys) :
    getAuthEndpoints (.str s) = getAuthEndpoints (.str "com") := by
  obtain ⟨h1, h2, h3, h4⟩ := hs
  have hown : ownGet ZOHO_AUTH_ENDPOINTS s = none := by
    simp [ZOHO_AUTH_ENDPOINTS, ownGet, Ne.symm h1, Ne.symm h2, Ne.symm h3, Ne.symm h4]
  have hget : objectGet ZOHO_AUTH_ENDPOINTS s = .absent := by
    simp [objectGet, hown, hp]
  have hcom : getAuthEndpoints (.str "com") = objectGet ZOHO_AUTH_ENDPOINTS "com" := by decide
  rw [hcom]
  simp [getAuthEndpoints, toJsString, hget]

/-- C1, evaluated at a string that names a member of `Object.prototype`: the lookup
`ZOHO_AUTH_ENDPOINTS['constructor']` finds the inherited member, which is truthy, so the
fallback to the entry of `com` is not taken and the result has no `token` URL. -/
theorem getAuthEndpoints_inherited_key :
    getAuthEndpoints (.str "constructor") = .inherited "constructor"
    ∧ getAuthEndpoints (.str "constructor") ≠ getAuthEndpoints (.str "com")
    ∧ (getAuthEndpoints (.str "constructor")).token = .returned .undefined := by
  decide

/-! ## getAccessToken -/

/-- C2: with a non-empty cached access token and `tokenExpiry - 300000 > now`,
`getAccessToken` returns exactly the cached token and leaves the world as it was: no request is
issued and the storage is unchanged. -/
theorem getAccessToken_cached (env : Env) (w : World) (tok : String) (t : Int)
    (hTok : w.storage "accessToken" = .str tok) (hne : tok ≠ "")
    (hExp : w.storage "tokenExpiry" = .num t)
    (hFresh : t - 300000 > env.clock w.trace.length) :
    getAccessToken env w = (.returned (.str tok), w) := by
  have h : ¬ (t - 300000 < env.clock w.trace.length) := by omega
  simp [getAccessToken, hTok, hExp, truthy, hne, toNumber, JNum.sub, JNum.gt, h]

/-- C2 at a concrete state: the token expires at 2000000 and the clock shows 700000. -/
theorem getAccessToken_cached_witness :
    getAccessToken envHour wFresh = (.returned (.str "cached"), wFresh) :=
  getAccessToken_cached envHour wFresh "cached" 2000000 (by decide) (by decide) (by decide)
    (by decide)

/-- C3 as stated fails at the boundary: at `now = tokenExpiry - 300000` (so that
`now < tokenExpiry - 300000` does not hold) `getAccessToken` returns the cached token and
issues no token exchange, although the provider would have answered with a fresh one. -/
theorem getAccessToken_boundary_keeps_cached :
    envHour.clock wBoundary.trace.length = 1000000 - 300000
    ∧ wBoundary.storage "tokenExpiry" = .num 1000000
    ∧ truthy (wBoundary.storage "zohoClientId") = true
    ∧ truthy (wBoundary.storage "zohoClientSecret") = true
    ∧ truthy (wBoundary.storage "zohoRefreshToken") = true
    ∧ (getAccessToken envHour wBoundary).1 = .returned (.str "cached")
    ∧ (getAccessToken envHour wBoundary).2.trace = [] := by
  decide

/-- C4 as stated fails: without a stored `tokenExpiry`, `getAccessToken` returns the cached
token and issues no request at all. -/
theorem getAccessToken_no_expiry_keeps_cached :
    wNoExpiry.storage "tokenExpiry" = .undefined
    ∧ truthy (wNoExpiry.storage "zohoClientId") = true
    ∧ truthy (wNoExpiry.storage "zohoClientSecret") = true
    ∧ truthy (wNoExpiry.storage "zohoRefreshToken") = true
    ∧ (getAccessToken envHour wNoExpiry).1 = .returned (.str "cached")
    ∧ (getAccessToken envHour wNoExpiry).2.trace = [] := by
  decide

/-- C4 as amended: with a non-empty cached access token and no stored `tokenExpiry`,
`getAccessToken` returns the cached token and leaves the world as it was (no token exchange,
no storage write). -/
theorem getAccessToken_without_expiry (env : Env) (w : World) (tok : String)
    (hTok : w.storage "accessToken" = .str tok) (hne : tok ≠ "")
    (hExp : w.storage "tokenExpiry" = .undefined) :
    getAccessToken env w = (.returned (.str tok), w) := by
  simp [getAccessToken, hTok, hExp, truthy, hne]

/-- C4 as amended, at a concrete state. -/
theorem getAccessToken_without_expiry_witness :
    getAccessToken envHour wNoExpiry = (.returned (.str "cached"), wNoExpiry) :=
  getAccessToken_without_expiry envHour wNoExpiry "cached" (by decide) (by decide) (by decide)

/-! ## login -/

/-- C5: when one of `zohoClientId`, `zohoClientSecret`, `zohoRefreshToken` is absent or
empty, `login` (whatever its region argument) throws the credentials-missing error and leaves
the world as it was: no request is issued and nothing is written to the storage. -/
theorem login_credentials_missing (env : Env) (w : World) (region : JVal)
    (h : (w.storage "zohoClientId" = .undefined ∨ w.storage "zohoClientId" = .str "")
      ∨ (w.storage "zohoClientSecret" = .undefined ∨ w.storage "zohoClientSecret" = .str "")
      ∨ (w.storage "zohoRefreshToken" = .undefined ∨ w.storage "zohoRefreshToken" = .str "")) :
    login region env w =
      (.thrown ⟨"Credentials not configured. Please go to Settings and enter your Zoho API credentials."⟩,
       w) := by
  have hmiss : ¬ (truthy (w.storage "zohoClientId") = true
      ∧ truthy (w.storage "zohoClientSecret") = true
      ∧ truthy (w.storage "zohoRefreshToken") = true) := by
    rintro ⟨h1, h2, h3⟩
    rcases h with (h | h) | (h | h) | (h | h) <;> simp [h, truthy] at h1 h2 h3
  have hc := getCredentials_missing env w hmiss
  simp [login, hc, credentialsMissing]

/-- C5 on a fresh install: nothing stored, `login('in')` fails before any request. -/
theorem login_credentials_missing_witness :
    login (.str "in") envAbc wEmpty =
      (.thrown ⟨"Credentials not configured. Please go to Settings and enter your Zoho API credentials."⟩,
       wEmpty) :=
  login_credentials_missing envAbc wEmpty (.str "in") (Or.inl (Or.inl rfl))

/-! ## refreshToken (auth.js) -/

theorem refreshToken_tokenUrl (s : String → JVal) :
    (getAuthEndpoints (jsOr (credentialsOf s).region (.str "com"))).token
      = .returned (refreshTokenUrl s) := by
  rcases getAuthEndpoints_cases (jsOr (credentialsOf s).region (.str "com")) with ⟨e, he⟩ | ⟨k, hk⟩
  · simp [refreshTokenUrl, he, Member.token]
  · simp [refreshTokenUrl, hk, Member.token]

theorem tokenExchanges_append (a b : List Request) :
    tokenExchanges (a ++ b) = tokenExchanges a + tokenExchanges b := by
  simp [tokenExchanges]

theorem relayCalls_append (a b : List Request) :
    relayCalls (a ++ b) = relayCalls a + relayCalls b := by
  simp [relayCalls]

theorem isTokenExchange_refreshTokenRequestOf (s : String → JVal) :
    (refreshTokenRequestOf s).isTokenExchange = true := by
  simp [refreshTokenRequestOf, refreshTokenRequest, Request.isTokenExchange]

theorem isTokenExchange_revokeRequestOf (s : String → JVal) :
    (revokeRequestOf s).isTokenExchange = false := by
  simp [revokeRequestOf, Request.isTokenExchange]

/-- A successful exchange in `refreshToken`: the token of the response is returned and stored,
and the expiry is computed from `expires_in` as it is. -/
theorem refreshToken_success (env : Env) (w : World) (status : Nat) (data err a x : JVal)
    (hId : truthy (w.storage "zohoClientId") = true)
    (hSec : truthy (w.storage "zohoClientSecret") = true)
    (hRt : truthy (w.storage "zohoRefreshToken") = true)
    (hNet : env.net w.trace.length (refreshTokenRequestOf w.storage)
      = .responds ⟨status, .json data⟩)
    (hErr : getField data "error" = .returned err) (hNoErr : truthy err = false)
    (hTok : getField data "access_token" = .returned a)
    (hLife : getField data "expires_in" = .returned x) :
    refreshToken env w = (.returned a,
      { storage := Storage.set w.storage
          [("accessToken", a),
           ("tokenExpiry", JVal.ofNum (JNum.add (some (env.clock (w.trace.length + 1)))
              (JNum.mul (toNumber env x) (some 1000))))],
        trace := w.trace ++ [refreshTokenRequestOf w.storage],
        badge := w.badge }) := by
  have hc := getCredentials_complete env w hId hSec hRt
  have hu := refreshToken_tokenUrl w.storage
  have hreq : refreshTokenRequest (refreshTokenUrl w.storage) (credentialsOf w.storage)
      = refreshTokenRequestOf w.storage := rfl
  simp [refreshToken, hc, hu, hreq, hNet, Response.json, hErr, hNoErr, hTok, hLife]

/-- A provider error in `refreshToken`: `logout` runs and the session-expired error is
thrown. -/
theorem refreshToken_error (env : Env) (w : World) (status : Nat) (data err : JVal)
    (hId : truthy (w.storage "zohoClientId") = true)
    (hSec : truthy (w.storage "zohoClientSecret") = true)
    (hRt : truthy (w.storage "zohoRefreshToken") = true)
    (hNet : env.net w.trace.length (refreshTokenRequestOf w.storage)
      = .responds ⟨status, .json data⟩)
    (hErr : getField data "error" = .returned err) (hIsErr : truthy err = true) :
    refreshToken env w = (.thrown ⟨sessionExpired⟩,
      { storage := Storage.remove w.storage logoutKeys,
        trace := if truthy (w.storage "accessToken")
                 then w.trace ++ [refreshTokenRequestOf w.storage] ++ [revokeRequestOf w.storage]
                 else w.trace ++ [refreshTokenRequestOf w.storage],
        badge := "" }) := by
  have hc := getCredentials_complete env w hId hSec hRt
  have hu := refreshToken_tokenUrl w.storage
  have hreq : refreshTokenRequest (refreshTokenUrl w.storage) (credentialsOf w.storage)
      = refreshTokenRequestOf w.storage := rfl
  simp [refreshToken, hc, hu, hreq, hNet, Response.json, hErr, hIsErr, logout_eq, revokeRequestOf]

/-- Whatever the network does, `refreshToken` with complete credentials adds exactly one token
exchange to the trace. -/
theorem refreshToken_exchanges (env : Env) (w : World)
    (hId : truthy (w.storage "zohoClientId") = true)
    (hSec : truthy (w.storage "zohoClientSecret") = true)
    (hRt : truthy (w.storage "zohoRefreshToken") = true) :
    tokenExchanges (refreshToken env w).2.trace = tokenExchanges w.trace + 1 := by
  have hc := getCredentials_complete env w hId hSec hRt
  have hu := refreshToken_tokenUrl w.storage
  have hreq : refreshTokenRequest (refreshTokenUrl w.storage) (credentialsOf w.storage)
      = refreshTokenRequestOf w.storage := rfl
  have h1 : tokenExchanges (w.trace ++ [refreshTokenRequestOf w.storage])
      = tokenExchanges w.trace + 1 := by
    simp [tokenExchanges, isTokenExchange_refreshTokenRequestOf]
  rcases hnet : env.net w.trace.length (refreshTokenRequestOf w.storage)
    with ⟨st, d | ⟨t, m⟩⟩ | msg | _
  · rcases hg : getField d "error" with er | e | _ | _
    · by_cases hte : truthy er = true
      · rw [refreshToken_error env w st d er hId hSec hRt hnet hg hte]
        by_cases hat : truthy (w.storage "accessToken") = true
        · simp [hat, tokenExchanges, List.filter_cons, isTokenExchange_revokeRequestOf,
            isTokenExchange_refreshTokenRequestOf]
        · simp [hat, h1]
      · rcases hg2 : getField d "access_token" with a | e | _ | _
        · rcases hg3 : getField d "expires_in" with x | e | _ | _ <;>
            simp [refreshToken, hc, hu, hreq, hnet, Response.json, hg, hte, hg2, hg3, h1]
        all_goals simp [refreshToken, hc, hu, hreq, hnet, Response.json, hg, hte, hg2, h1]
    all_goals simp [refreshToken, hc, hu, hreq, hnet, Response.json, hg, h1]
  all_goals simp [refreshToken, hc, hu, hreq, hnet, Response.json, h1]

/-- C3 as amended: with a non-empty cached access token, complete credentials and a stored
`tokenExpiry` other than 0, `getAccessToken` refreshes exactly when
`now > tokenExpiry - 300000`: it then performs exactly one token exchange and, when the
provider answers without an error, returns the access token of the answer; when
`now ≤ tokenExpiry - 300000` (the boundary included) it returns the cached token and leaves
the world as it was. -/
theorem getAccessToken_refresh_threshold (env : Env) (w : World) (tok : String) (t : Int)
    (hTok : w.storage "accessToken" = .str tok) (hne : tok ≠ "")
    (hId : truthy (w.storage "zohoClientId") = true)
    (hSec : truthy (w.storage "zohoClientSecret") = true)
    (hRt : truthy (w.storage "zohoRefreshToken") = true)
    (hExp : w.storage "tokenExpiry" = .num t) (ht : t ≠ 0) :
    (env.clock w.trace.length > t - 300000 →
      tokenExchanges (getAccessToken env w).2.trace = tokenExchanges w.trace + 1
      ∧ ∀ (status : Nat) (data err a : JVal),
          env.net w.trace.length (refreshTokenRequestOf w.storage)
            = .responds ⟨status, .json data⟩ →
          getField data "error" = .returned err → truthy err = false →
          getField data "access_token" = .returned a →
          (getAccessToken env w).1 = .returned a)
    ∧ (env.clock w.trace.length ≤ t - 300000 →
        getAccessToken env w = (.returned (.str tok), w)) := by
  constructor
  · intro hnow
    have hget : getAccessToken env w = refreshToken env w := by
      have h : t - 300000 < env.clock w.trace.length := by omega
      simp [getAccessToken, hTok, hExp, truthy, hne, ht, toNumber, JNum.sub, JNum.gt, h]
    rw [hget]
    refine ⟨refreshToken_exchanges env w hId hSec hRt, ?_⟩
    intro status data err a hNet hErr hNoErr hA
    obtain ⟨x, hX⟩ := getField_returned_of_returned data "access_token" "expires_in" a hA
    rw [refreshToken_success env w status data err a x hId hSec hRt hNet hErr hNoErr hA hX]
  · intro hnow
    have h : ¬ (t - 300000 < env.clock w.trace.length) := by omega
    simp [getAccessToken, hTok, hExp, truthy, hne, toNumber, JNum.sub, JNum.gt, h]

/-- C3 as amended, at a concrete state: the token expired at 900000, the clock shows 700000
(later than 900000 - 300000), and the provider answers with `fresh`: one token exchange is
issued and `fresh` is returned. -/
theorem getAccessToken_refresh_threshold_witness :
    tokenExchanges (getAccessToken envHour wExpiring).2.trace
        = tokenExchanges wExpiring.trace + 1
    ∧ (getAccessToken envHour wExpiring).1 = .returned (.str "fresh") :=
  have h := (getAccessToken_refresh_threshold envHour wExpiring "cached" 900000 (by decide)
    (by decide) (by decide) (by decide) (by decide) (by decide) (by decide)).1 (by decide)
  ⟨h.1, h.2 200 (mkObj [("access_token", .str "fresh"), ("expires_in", .num 3600)]) .undefined
    (.str "fresh") rfl (by decide) (by decide) (by decide)⟩

/-- C6: with complete credentials (each of them a non-empty string) and a stored region `r`
among `com`, `in`, `eu`, `au`, `login` issues exactly one request, a POST to the token URL of `r` whose form body carries the
stored refresh token, client id and client secret and `grant_type=refresh_token`; and when the
answer has no error and contains a (non-empty) `access_token = a` and `expires_in = e` with
`e > 0`, `login` returns `true` and the storage then has `accessToken = a`,
`tokenExpiry = now + e * 1000`, `isLoggedIn = true` and `region = r`, `now` being the clock
when the answer has arrived.  The expiry is stated for a clock that is not negative and a sum
`now + e * 1000` of at most `Number.MAX_SAFE_INTEGER` = 9007199254740991, where the doubles of
the language compute it without rounding. -/
theorem login_success (env : Env) (w : World) (arg : JVal) (r : String)
    (hId : truthy (w.storage "zohoClientId") = true)
    (hSec : truthy (w.storage "zohoClientSecret") = true)
    (hRt : truthy (w.storage "zohoRefreshToken") = true)
    (_hIdText : (w.storage "zohoClientId").isTextOrAbsent = true)
    (_hSecText : (w.storage "zohoClientSecret").isTextOrAbsent = true)
    (_hRtText : (w.storage "zohoRefreshToken").isTextOrAbsent = true)
    (hRegion : w.storage "region" = .str r)
    (hr : r = "com" ∨ r = "in" ∨ r = "eu" ∨ r = "au") :
    ∃ ep : AuthEndpoints, getAuthEndpoints (.str r) = .own ep
      ∧ (login arg env w).2.trace = w.trace ++
          [{ method := "POST", url := ep.token,
             headers := [("Content-Type", "application/x-www-form-urlencoded")],
             body := .form [("refresh_token", toJsString (w.storage "zohoRefreshToken")),
                            ("client_id", toJsString (w.storage "zohoClientId")),
                            ("client_secret", toJsString (w.storage "zohoClientSecret")),
                            ("grant_type", "refresh_token")] }]
      ∧ ∀ (status : Nat) (data err : JVal) (a : String) (e : Int),
          env.net w.trace.length
              { method := "POST", url := ep.token,
                headers := [("Content-Type", "application/x-www-form-urlencoded")],
                body := .form [("refresh_token", toJsString (w.storage "zohoRefreshToken")),
                               ("client_id", toJsString (w.storage "zohoClientId")),
                               ("client_secret", toJsString (w.storage "zohoClientSecret")),
                               ("grant_type", "refresh_token")] }
            = .responds ⟨status, .json data⟩ →
          getField data "error" = .returned err → truthy err = false →
          getField data "access_token" = .returned (.str a) → a ≠ "" →
          getField data "expires_in" = .returned (.num e) → 0 < e →
          0 ≤ env.clock (w.trace.length + 1) →
          env.clock (w.trace.length + 1) + e * 1000 ≤ 9007199254740991 →
          (login arg env w).1 = .returned true
          ∧ (login arg env w).2.storage "accessToken" = .str a
          ∧ (login arg env w).2.storage "tokenExpiry"
              = .num (env.clock (w.trace.length + 1) + e * 1000)
          ∧ (login arg env w).2.storage "isLoggedIn" = .bool true
          ∧ (login arg env w).2.storage "region" = .str r := by
  have hc := getCredentials_complete env w hId hSec hRt
  have hrne : r ≠ "" := by rcases hr with h | h | h | h <;> subst h <;> decide
  have hreg : jsOr (credentialsOf w.storage).region (if arg = .undefined then JVal.str "in" else arg)
      = .str r := by
    simp [credentialsOf, hRegion, jsOr, truthy, hrne]
  have hown : ∃ ep, ownGet ZOHO_AUTH_ENDPOINTS r = some ep ∧ getAuthEndpoints (.str r) = .own ep := by
    rcases hr with h | h | h | h <;> subst h <;> exact ⟨_, rfl, by decide⟩
  obtain ⟨ep, hep, hget⟩ := hown
  have hurl := login_tokenUrl r ep hep
  have htrace := login_trace env w arg hId hSec hRt
  rw [hreg, hurl] at htrace
  refine ⟨ep, hget, ?_, ?_⟩
  · simpa [loginRequest, credentialsOf, formHeaders] using htrace
  · intro status data err a e hnet hge hfe hga hne hgx hpos _ _
    have hne0 : e ≠ 0 := by omega
    have hnet2 : env.net w.trace.length (loginRequest ep.token (credentialsOf w.storage))
        = .responds ⟨status, .json data⟩ := by
      simpa [loginRequest, credentialsOf, formHeaders] using hnet
    have hta : truthy (.str a) = true := by simp [truthy, hne]
    have hor : jsOr (.num e) (.num 3600) = .num e := by simp [jsOr, truthy, hne0]
    simp [login, hc, hreg, hurl, hnet2, Response.json, hge, hfe, hga, hta, hgx, hor,
      toNumber, Storage.set, JNum.add, JNum.mul, JVal.ofNum]

/-- C6 at the scenario of the specification: region `in`, answer `access_token = abc`,
`expires_in = 3600`, clock at 700000: the expiry stored is `700000 + 3600000`. -/
theorem login_success_witness :
    ∃ ep : AuthEndpoints, getAuthEndpoints (.str "in") = .own ep
      ∧ (login (.str "com") envAbc wConfigured).2.trace = wConfigured.trace ++
          [{ method := "POST", url := ep.token,
             headers := [("Content-Type", "application/x-www-form-urlencoded")],
             body := .form [("refresh_token", toJsString (wConfigured.storage "zohoRefreshToken")),
                            ("client_id", toJsString (wConfigured.storage "zohoClientId")),
                            ("client_secret", toJsString (wConfigured.storage "zohoClientSecret")),
                            ("grant_type", "refresh_token")] }]
      ∧ (login (.str "com") envAbc wConfigured).1 = .returned true
      ∧ (login (.str "com") envAbc wConfigured).2.storage "accessToken" = .str "abc"
      ∧ (login (.str "com") envAbc wConfigured).2.storage "tokenExpiry"
          = .num (envAbc.clock (wConfigured.trace.length + 1) + 3600 * 1000)
      ∧ (login (.str "com") envAbc wConfigured).2.storage "isLoggedIn" = .bool true
      ∧ (login (.str "com") envAbc wConfigured).2.storage "region" = .str "in" :=
  match login_success envAbc wConfigured (.str "com") "in" (by decide) (by decide) (by decide)
      (by decide) (by decide) (by decide) (by decide) (by decide) with
  | ⟨ep, hget, htrace, hok⟩ =>
    ⟨ep, hget, htrace,
      hok 200 (mkObj [("access_token", .str "abc"), ("expires_in", .num 3600)]) .undefined
        "abc" 3600 rfl (by decide) (by decide) (by decide) (by decide) (by decide) (by decide)
        (by decide) (by decide)⟩

/-! ## refreshToken: provider error and lifetime -/

/-- C7: with complete credentials, when the token endpoint answers with a response that
contains an error field (a truthy `error`), `refreshToken` fails with the session-expired
error and the storage it leaves contains none of `accessToken`, `tokenExpiry`,
`isLoggedIn`. -/
theorem refreshToken_provider_error (env : Env) (w : World) (status : Nat) (data err : JVal)
    (hId : truthy (w.storage "zohoClientId") = true)
    (hSec : truthy (w.storage "zohoClientSecret") = true)
    (hRt : truthy (w.storage "zohoRefreshToken") = true)
    (hNet : env.net w.trace.length (refreshTokenRequestOf w.storage)
      = .responds ⟨status, .json data⟩)
    (hErr : getField data "error" = .returned err) (hIsErr : truthy err = true) :
    (refreshToken env w).1 = .thrown ⟨"Session expired, please login again"⟩
    ∧ (refreshToken env w).2.storage "accessToken" = .undefined
    ∧ (refreshToken env w).2.storage "tokenExpiry" = .undefined
    ∧ (refreshToken env w).2.storage "isLoggedIn" = .undefined := by
  rw [refreshToken_error env w status data err hId hSec hRt hNet hErr hIsErr]
  simp [sessionExpired, Storage.remove, logoutKeys]

/-- C7 at a concrete state: the provider answers `invalid_code` to a signed-in user. -/
theorem refreshToken_provider_error_witness :
    (refreshToken envInvalid wBoundary).1 = .thrown ⟨"Session expired, please login again"⟩
    ∧ (refreshToken envInvalid wBoundary).2.storage "accessToken" = .undefined
    ∧ (refreshToken envInvalid wBoundary).2.storage "tokenExpiry" = .undefined
    ∧ (refreshToken envInvalid wBoundary).2.storage "isLoggedIn" = .undefined :=
  refreshToken_provider_error envInvalid wBoundary 400 (mkObj [("error", .str "invalid_code")])
    (.str "invalid_code") (by decide) (by decide) (by decide) rfl (by decide) (by decide)

/-- C8, evaluated where the provider answers with a token and no `expires_in`:
`refreshToken` of auth.js stores the token but computes the expiry as
`Date.now() + undefined * 1000`, which is `NaN`, while `refreshAccessToken` of api.js stores
`now + 3600000` for the same answer. -/
theorem refreshToken_lifetime_default_missing :
    (refreshToken envNoLifetime wBothKeys).1 = .returned (.str "fresh")
    ∧ (refreshToken envNoLifetime wBothKeys).2.storage "accessToken" = .str "fresh"
    ∧ (refreshToken envNoLifetime wBothKeys).2.storage "tokenExpiry" = .nan
    ∧ (refreshAccessToken envNoLifetime wBothKeys).1 = .returned true
    ∧ (refreshAccessToken envNoLifetime wBothKeys).2.storage "accessToken" = .str "fresh"
    ∧ (refreshAccessToken envNoLifetime wBothKeys).2.storage "tokenExpiry"
        = .num (700000 + 3600000) := by
  decide

/-! ## refreshAccessToken (api.js) -/

theorem startsWithChars_append (p x : List Char) : startsWithChars (p ++ x) p = true := by
  induction p with
  | nil => cases x <;> simp [startsWithChars]
  | cons c cs ih => simp [startsWithChars, ih]

theorem isRelayCall_apiFetchRequest (endpoint : String) (options : Options) (token : String)
    (region : JVal) : (apiFetchRequest endpoint options token region).isRelayCall = true := by
  simp [Request.isRelayCall, apiFetchRequest, String.data_append, startsWithChars_append]

theorem isTokenExchange_apiFetchRequest (endpoint : String) (options : Options) (token : String)
    (region : JVal) : (apiFetchRequest endpoint options token region).isTokenExchange = false := by
  cases h : options.body <;> simp [Request.isTokenExchange, apiFetchRequest, h]

theorem isRelayCall_refreshAccessTokenRequestOf (s : String → JVal) :
    (refreshAccessTokenRequestOf s).isRelayCall = false := by
  by_cases h : s "region" = .str "in"
  · simp only [refreshAccessTokenRequestOf, refreshAccessTokenRequest, h, if_true,
      Request.isRelayCall]
    decide
  · simp only [refreshAccessTokenRequestOf, refreshAccessTokenRequest, h, if_false,
      Request.isRelayCall]
    decide

theorem isTokenExchange_refreshAccessTokenRequestOf (s : String → JVal) :
    (refreshAccessTokenRequestOf s).isTokenExchange = true := by
  simp [refreshAccessTokenRequestOf, refreshAccessTokenRequest, Request.isTokenExchange]

/-- Without one of `refreshToken`, `zohoClientId`, `zohoClientSecret` in the storage,
`refreshAccessToken` returns `false` and issues no request. -/
theorem refreshAccessToken_missing (env : Env) (w : World)
    (h : ¬ (truthy (w.storage "refreshToken") = true ∧ truthy (w.storage "zohoClientId") = true
      ∧ truthy (w.storage "zohoClientSecret") = true)) :
    refreshAccessToken env w = (.returned false, w) := by
  simp only [refreshAccessToken, bind_eq_jsBind, Js.bind, storageGet]
  by_cases h1 : truthy (w.storage "refreshToken") = true <;>
  by_cases h2 : truthy (w.storage "zohoClientId") = true <;>
  by_cases h3 : truthy (w.storage "zohoClientSecret") = true <;>
  simp_all

/-- A successful exchange in `refreshAccessToken`: the token is stored with the expiry
computed from `expires_in || 3600`. -/
theorem refreshAccessToken_success (env : Env) (w : World) (status : Nat) (data a x : JVal)
    (hRt : truthy (w.storage "refreshToken") = true)
    (hId : truthy (w.storage "zohoClientId") = true)
    (hSec : truthy (w.storage "zohoClientSecret") = true)
    (hNet : env.net w.trace.length (refreshAccessTokenRequestOf w.storage)
      = .responds ⟨status, .json data⟩)
    (hTok : getField data "access_token" = .returned a) (hA : truthy a = true)
    (hLife : getField data "expires_in" = .returned x) :
    refreshAccessToken env w = (.returned true,
      { storage := Storage.set w.storage
          [("accessToken", a),
           ("tokenExpiry", JVal.ofNum (JNum.add (some (env.clock (w.trace.length + 1)))
              (JNum.mul (toNumber env (jsOr x (.num 3600))) (some 1000))))],
        trace := w.trace ++ [refreshAccessTokenRequestOf w.storage],
        badge := w.badge }) := by
  have hreq : refreshAccessTokenRequest
      (if w.storage "region" = .str "in" then "https://accounts.zoho.in/oauth/v2/token"
       else "https://accounts.zoho.com/oauth/v2/token")
      (w.storage "refreshToken") (w.storage "zohoClientId") (w.storage "zohoClientSecret")
      = refreshAccessTokenRequestOf w.storage := rfl
  simp [refreshAccessToken, hRt, hId, hSec, hreq, hNet, Response.json, hTok, hA, hLife]

/-- The possible results of `refreshAccessToken`: `false` without a request, `false` or a
promise that never settles after its one token request, or `true` after that request with a
truthy access token stored. -/
theorem refreshAccessToken_cases (env : Env) (w : World) :
    refreshAccessToken env w = (.returned false, w)
    ∨ refreshAccessToken env w = (.returned false, w.issue (refreshAccessTokenRequestOf w.storage))
    ∨ refreshAccessToken env w = (.pending, w.issue (refreshAccessTokenRequestOf w.storage))
    ∨ ∃ a expiry, truthy a = true ∧ refreshAccessToken env w = (.returned true,
        { storage := Storage.set w.storage [("accessToken", a), ("tokenExpiry", expiry)],
          trace := w.trace ++ [refreshAccessTokenRequestOf w.storage],
          badge := w.badge }) := by
  by_cases hall : truthy (w.storage "refreshToken") = true ∧ truthy (w.storage "zohoClientId") = true
      ∧ truthy (w.storage "zohoClientSecret") = true
  · obtain ⟨hRt, hId, hSec⟩ := hall
    have hreq : refreshAccessTokenRequest
        (if w.storage "region" = .str "in" then "https://accounts.zoho.in/oauth/v2/token"
         else "https://accounts.zoho.com/oauth/v2/token")
        (w.storage "refreshToken") (w.storage "zohoClientId") (w.storage "zohoClientSecret")
        = refreshAccessTokenRequestOf w.storage := rfl
    rcases hnet : env.net w.trace.length (refreshAccessTokenRequestOf w.storage)
      with ⟨st, d | ⟨t, m⟩⟩ | msg | _
    · rcases getField_cases d "access_token" with ⟨a, hg⟩ | ⟨e, hg⟩
      · by_cases hta : truthy a = true
        · rcases getField_cases d "expires_in" with ⟨x, hg3⟩ | ⟨e, hg3⟩
          · exact Or.inr (Or.inr (Or.inr ⟨a, _, hta,
              refreshAccessToken_success env w st d a x hRt hId hSec hnet hg hta hg3⟩))
          · right; left
            simp [World.issue, refreshAccessToken, hRt, hId, hSec, hreq, hnet, Response.json, hg, hta, hg3]
        · right; left
          simp [World.issue, refreshAccessToken, hRt, hId, hSec, hreq, hnet, Response.json, hg, hta]
      · right; left
        simp [World.issue, refreshAccessToken, hRt, hId, hSec, hreq, hnet, Response.json, hg]
    · right; left
      simp [World.issue, refreshAccessToken, hRt, hId, hSec, hreq, hnet, Response.json]
    · right; left
      simp [World.issue, refreshAccessToken, hRt, hId, hSec, hreq, hnet]
    · right; right; left
      simp [World.issue, refreshAccessToken, hRt, hId, hSec, hreq, hnet]
  · exact Or.inl (refreshAccessToken_missing env w hall)

/-! ## apiRequest -/

/-- The `catch` block of `apiRequest` always throws and leaves the world as it is. -/
theorem apiCatch_snd {α : Type} (e : JsError) (env : Env) (w : World) :
    ((apiCatch e : Js α) env w).2 = w := by
  unfold apiCatch
  split <;> simp

theorem apiCatch_ne_outOfFuel {α : Type} (e : JsError) (env : Env) (w : World) :
    ((apiCatch e : Js α) env w).1 ≠ .outOfFuel := by
  unfold apiCatch
  split <;> simp

/-- The error of a failed refresh passes through the `catch` block unchanged. -/
theorem apiCatch_authenticationExpired {α : Type} (env : Env) (w : World) :
    (apiCatch ⟨authenticationExpired⟩ : Js α) env w = (.thrown ⟨authenticationExpired⟩, w) := by
  have h1 : jsIncludes authenticationExpired "Failed to fetch" = false := by decide
  have h2 : jsIncludes authenticationExpired "NetworkError" = false := by decide
  simp [apiCatch, h1, h2]

/-- One invocation with a string token: the request is issued and the answer decides. -/
theorem apiRequest_succ (fuel : Nat) (endpoint : String) (options : Options) (env : Env)
    (w : World) (tok : String) (hTok : w.storage "accessToken" = .str tok) (hne : tok ≠ "") :
    apiRequest (fuel + 1) endpoint options env w =
      (match env.net w.trace.length (apiFetchRequest endpoint options tok (w.storage "region")) with
       | .responds response =>
         if response.status = 401 then
           (match refreshAccessToken env
               (w.issue (apiFetchRequest endpoint options tok (w.storage "region"))) with
            | (.returned true, w2) => apiRequest fuel endpoint options env w2
            | (.returned false, w2) => apiCatch ⟨authenticationExpired⟩ env w2
            | (.thrown e, w2) => apiCatch e env w2
            | (.pending, w2) => (.pending, w2)
            | (.outOfFuel, w2) => (.outOfFuel, w2))
         else if !response.ok then
           (match apiErrorMessage response with
            | .returned msg => apiCatch ⟨msg⟩ env
                (w.issue (apiFetchRequest endpoint options tok (w.storage "region")))
            | .thrown e => apiCatch e env
                (w.issue (apiFetchRequest endpoint options tok (w.storage "region")))
            | .pending => (.pending,
                w.issue (apiFetchRequest endpoint options tok (w.storage "region")))
            | .outOfFuel => (.outOfFuel,
                w.issue (apiFetchRequest endpoint options tok (w.storage "region"))))
         else
           (match response.json with
            | .returned data => (.returned data,
                w.issue (apiFetchRequest endpoint options tok (w.storage "region")))
            | .thrown e => apiCatch e env
                (w.issue (apiFetchRequest endpoint options tok (w.storage "region")))
            | .pending => (.pending,
                w.issue (apiFetchRequest endpoint options tok (w.storage "region")))
            | .outOfFuel => (.outOfFuel,
                w.issue (apiFetchRequest endpoint options tok (w.storage "region"))))
       | .rejects msg => apiCatch ⟨msg⟩ env
           (w.issue (apiFetchRequest endpoint options tok (w.storage "region")))
       | .never => (.pending,
           w.issue (apiFetchRequest endpoint options tok (w.storage "region")))) := by
  have ht : truthy (.str tok) = true := by simp [truthy, hne]
  cases hnet : env.net w.trace.length (apiFetchRequest endpoint options tok (w.storage "region")) <;>
    simp [apiRequest, hTok, ht, hnet, World.issue]

/-- An invocation whose relay request is not answered 401 issues that request and nothing
else, and does not run out of fuel. -/
theorem apiRequest_no_401 (fuel : Nat) (endpoint : String) (options : Options) (env : Env)
    (w : World) (tok : String) (hTok : w.storage "accessToken" = .str tok) (hne : tok ≠ "")
    (h : ∀ response, env.net w.trace.length
        (apiFetchRequest endpoint options tok (w.storage "region")) = .responds response →
      response.status ≠ 401) :
    (apiRequest (fuel + 1) endpoint options env w).2
        = w.issue (apiFetchRequest endpoint options tok (w.storage "region"))
    ∧ (apiRequest (fuel + 1) endpoint options env w).1 ≠ .outOfFuel := by
  rw [apiRequest_succ fuel endpoint options env w tok hTok hne]
  rcases hnet : env.net w.trace.length (apiFetchRequest endpoint options tok (w.storage "region"))
    with ⟨st, body⟩ | msg | _
  · have h401 : st ≠ 401 := h ⟨st, body⟩ hnet
    by_cases hok : (Response.ok ⟨st, body⟩) = true
    · cases hj : Response.json ⟨st, body⟩ with
      | returned d => simp [h401, hok, hj]
      | thrown e => simp [h401, hok, hj, apiCatch_snd, apiCatch_ne_outOfFuel]
      | pending => cases body <;> simp [Response.json] at hj
      | outOfFuel => cases body <;> simp [Response.json] at hj
    · cases hm : apiErrorMessage ⟨st, body⟩ with
      | returned d => simp [h401, hok, hm, apiCatch_snd, apiCatch_ne_outOfFuel]
      | thrown e => simp [h401, hok, hm, apiCatch_snd, apiCatch_ne_outOfFuel]
      | pending => simp [h401, hok, hm]
      | outOfFuel =>
        exfalso
        unfold apiErrorMessage at hm
        simp only [] at hm
        rcases getField_cases (match Response.body ⟨st, body⟩ with
          | .json v => v
          | .notJson errorText _ => .obj (.cons "error" (.str errorText) .nil)) "data"
          with ⟨x, hx⟩ | ⟨e, hx⟩
        · rw [hx] at hm
          simp only [] at hm
          rcases getField_cases (match Response.body ⟨st, body⟩ with
            | .json v => v
            | .notJson errorText _ => .obj (.cons "error" (.str errorText) .nil)) "error"
            with ⟨y, hy⟩ | ⟨e, hy⟩
          · rw [hy] at hm
            cases x <;> simp [getField] at hm
          · rw [hy] at hm
            cases x <;> simp [getField] at hm
        · rw [hx] at hm
          simp at hm
  · simp [apiCatch_snd, apiCatch_ne_outOfFuel]
  · simp

/-- An invocation without a usable token issues no request. -/
theorem apiRequest_no_token (fuel : Nat) (endpoint : String) (options : Options) (env : Env)
    (w : World) (h : ¬ ∃ tok, w.storage "accessToken" = .str tok ∧ tok ≠ "") :
    (apiRequest fuel endpoint options env w).2 = w := by
  cases fuel with
  | zero => simp [apiRequest]
  | succ n =>
    cases hA : w.storage "accessToken" with
    | str s =>
      have hs : s = "" := by
        by_contra hne
        exact h ⟨s, hA, hne⟩
      simp [apiRequest, hA, truthy, hs]
    | bool b => cases b <;> simp [apiRequest, hA, truthy]
    | num k => by_cases hk : k = 0 <;> simp [apiRequest, hA, truthy, hk]
    | _ => simp [apiRequest, hA, truthy]

/-- The requests of an invocation: what it adds to the trace contains at most one more relay
request than token exchanges, and at most as many token exchanges as relay requests. -/
theorem apiRequest_counts (fuel : Nat) (endpoint : String) (options : Options) (env : Env) :
    ∀ w : World, ∃ added, (apiRequest fuel endpoint options env w).2.trace = w.trace ++ added
      ∧ relayCalls added ≤ tokenExchanges added + 1
      ∧ tokenExchanges added ≤ relayCalls added := by
  induction fuel with
  | zero => intro w; exact ⟨[], by simp [apiRequest], by simp [relayCalls], by simp [tokenExchanges, relayCalls]⟩
  | succ n ih =>
    intro w
    by_cases hstr : ∃ tok, w.storage "accessToken" = .str tok ∧ tok ≠ ""
    · obtain ⟨tok, hTok, hne⟩ := hstr
      have hrel := isRelayCall_apiFetchRequest endpoint options tok (w.storage "region")
      have hnex := isTokenExchange_apiFetchRequest endpoint options tok (w.storage "region")
      have hrel2 := isRelayCall_refreshAccessTokenRequestOf w.storage
      have hex2 := isTokenExchange_refreshAccessTokenRequestOf w.storage
      by_cases h401 : ∃ body, env.net w.trace.length
          (apiFetchRequest endpoint options tok (w.storage "region")) = .responds ⟨401, body⟩
      · obtain ⟨body, hnet⟩ := h401
        rw [apiRequest_succ n endpoint options env w tok hTok hne, hnet]
        rcases refreshAccessToken_cases env
            (w.issue (apiFetchRequest endpoint options tok (w.storage "region")))
          with h | h | h | ⟨a, x, _, h⟩
        · refine ⟨[apiFetchRequest endpoint options tok (w.storage "region")], ?_, ?_, ?_⟩
          · simp [h, apiCatch_snd]
          · simp [relayCalls, tokenExchanges, hrel, hnex]
          · simp [relayCalls, tokenExchanges, hrel, hnex]
        · refine ⟨[apiFetchRequest endpoint options tok (w.storage "region"),
            refreshAccessTokenRequestOf
              (w.issue (apiFetchRequest endpoint options tok (w.storage "region"))).storage],
            ?_, ?_, ?_⟩
          · simp [h, apiCatch_snd]
          · simp [relayCalls, tokenExchanges, List.filter_cons, hrel, hnex, hrel2, hex2]
          · simp [relayCalls, tokenExchanges, List.filter_cons, hrel, hnex, hrel2, hex2]
        · refine ⟨[apiFetchRequest endpoint options tok (w.storage "region"),
            refreshAccessTokenRequestOf
              (w.issue (apiFetchRequest endpoint options tok (w.storage "region"))).storage],
            ?_, ?_, ?_⟩
          · simp [h]
          · simp [relayCalls, tokenExchanges, List.filter_cons, hrel, hnex, hrel2, hex2]
          · simp [relayCalls, tokenExchanges, List.filter_cons, hrel, hnex, hrel2, hex2]
        · obtain ⟨added, hadd, hle1, hle2⟩ := ih
            { storage := Storage.set
                (w.issue (apiFetchRequest endpoint options tok (w.storage "region"))).storage
                [("accessToken", a), ("tokenExpiry", x)],
              trace := (w.issue (apiFetchRequest endpoint options tok (w.storage "region"))).trace ++
                [refreshAccessTokenRequestOf
                  (w.issue (apiFetchRequest endpoint options tok (w.storage "region"))).storage],
              badge := (w.issue (apiFetchRequest endpoint options tok (w.storage "region"))).badge }
          refine ⟨[apiFetchRequest endpoint options tok (w.storage "region"),
            refreshAccessTokenRequestOf
              (w.issue (apiFetchRequest endpoint options tok (w.storage "region"))).storage]
            ++ added, ?_, ?_, ?_⟩
          · simp only [h, if_true]
            rw [hadd]
            simp
          · rw [relayCalls_append, tokenExchanges_append]
            simp [relayCalls, tokenExchanges, List.filter_cons, hrel, hnex, hrel2, hex2] at *
            omega
          · rw [relayCalls_append, tokenExchanges_append]
            simp [relayCalls, tokenExchanges, List.filter_cons, hrel, hnex, hrel2, hex2] at *
            omega
      · have hno : ∀ response, env.net w.trace.length
            (apiFetchRequest endpoint options tok (w.storage "region")) = .responds response →
            response.status ≠ 401 := by
          intro response hresp hst
          apply h401
          obtain ⟨st, body⟩ := response
          simp only at hst
          subst hst
          exact ⟨body, hresp⟩
        refine ⟨[apiFetchRequest endpoint options tok (w.storage "region")], ?_, ?_, ?_⟩
        · rw [(apiRequest_no_401 n endpoint options env w tok hTok hne hno).1]
          simp
        · simp [relayCalls, tokenExchanges, hrel, hnex]
        · simp [relayCalls, tokenExchanges, hrel, hnex]
    · refine ⟨[], ?_, ?_, ?_⟩
      · rw [apiRequest_no_token (n + 1) endpoint options env w hstr]
        simp
      · simp [relayCalls]
      · simp [relayCalls, tokenExchanges]

/-- Once the relay stops answering 401, the invocation ends: when no request issued at
position `N` or later is answered 401, a budget that together with the length of the trace
exceeds `N` is never used up. -/
theorem apiRequest_ends (endpoint : String) (options : Options) (env : Env) (N : Nat)
    (hN : ∀ k, N ≤ k → ∀ req response, env.net k req = .responds response →
      response.status ≠ 401) :
    ∀ (fuel : Nat) (w : World), 1 ≤ fuel → N + 1 ≤ fuel + w.trace.length →
      (apiRequest fuel endpoint options env w).1 ≠ .outOfFuel := by
  intro fuel
  induction fuel with
  | zero => intro w h; omega
  | succ n ih =>
    intro w _ hlen
    by_cases hstr : ∃ tok, w.storage "accessToken" = .str tok ∧ tok ≠ ""
    · obtain ⟨tok, hTok, hne⟩ := hstr
      by_cases h401 : ∃ body, env.net w.trace.length
          (apiFetchRequest endpoint options tok (w.storage "region")) = .responds ⟨401, body⟩
      · obtain ⟨body, hnet⟩ := h401
        have hlt : w.trace.length < N := by
          by_contra hge
          exact hN w.trace.length (by omega) _ _ hnet rfl
        rw [apiRequest_succ n endpoint options env w tok hTok hne, hnet]
        rcases refreshAccessToken_cases env
            (w.issue (apiFetchRequest endpoint options tok (w.storage "region")))
          with h | h | h | ⟨a, x, _, h⟩
        · simp [h, apiCatch_ne_outOfFuel]
        · simp [h, apiCatch_ne_outOfFuel]
        · simp [h]
        · simp only [h, if_true]
          apply ih
          · omega
          · simp
            omega
      · have hno : ∀ response, env.net w.trace.length
            (apiFetchRequest endpoint options tok (w.storage "region")) = .responds response →
            response.status ≠ 401 := by
          intro response hresp hst
          apply h401
          obtain ⟨st, body⟩ := response
          simp only at hst
          subst hst
          exact ⟨body, hresp⟩
        exact (apiRequest_no_401 n endpoint options env w tok hTok hne hno).2
    · cases hA : w.storage "accessToken" with
      | str s =>
        have hs : s = "" := by
          by_contra hne
          exact hstr ⟨s, hA, hne⟩
        simp [apiRequest, hA, truthy, hs]
      | bool b => cases b <;> simp [apiRequest, hA, truthy]
      | num k => by_cases hk : k = 0 <;> simp [apiRequest, hA, truthy, hk]
      | _ => simp [apiRequest, hA, truthy]

/-- Writing another header leaves the value under a name as it is. -/
theorem headerGet_setHeader_ne (h : List (String × String)) (k v name : String)
    (hne : k ≠ name) : headerGet (setHeader h k v) name = headerGet h name := by
  induction h with
  | nil => simp [setHeader, headerGet, hne]
  | cons kv rest ih =>
    obtain ⟨k0, v0⟩ := kv
    by_cases hk : k0 = k
    · subst hk
      simp [setHeader, headerGet, hne]
    · simp [setHeader, headerGet, hk, ih]

/-- A spread of headers none of which has a given name leaves the value under that name as it
is. -/
theorem headerGet_spreadHeaders (extra : List (String × String)) (name : String)
    (h : ∀ kv ∈ extra, kv.1 ≠ name) :
    ∀ base : List (String × String),
      headerGet (spreadHeaders base extra) name = headerGet base name := by
  induction extra with
  | nil => intro base; rfl
  | cons kv rest ih =>
    intro base
    have hrest : ∀ x ∈ rest, x.1 ≠ name := fun x hx => h x (List.mem_cons_of_mem kv hx)
    have hkv : kv.1 ≠ name := h kv (List.mem_cons_self kv rest)
    have hstep : spreadHeaders base (kv :: rest)
        = spreadHeaders (setHeader base kv.1 kv.2) rest := rfl
    rw [hstep, ih hrest, headerGet_setHeader_ne base kv.1 kv.2 name hkv]

/-- The request `apiRequest` hands to `fetch`, field by field, and its bearer: unless the
options name an `Authorization` header of their own, the header is `Zoho-oauthtoken <token>`. -/
theorem apiFetchRequest_fields (endpoint : String) (options : Options) (token : String)
    (region : JVal) :
    apiFetchRequest endpoint options token region
      = { method := options.method.getD "GET",
          url := "http://127.0.0.1:3847/api" ++ endpoint,
          headers := spreadHeaders
            [("Authorization", "Zoho-oauthtoken " ++ token),
             ("Content-Type", "application/json"),
             ("Accept", "application/json"),
             ("X-Zoho-Region", toJsString (jsOr region (.str "in")))]
            options.headers,
          body := match options.body with
            | some b => .text b
            | none => .none }
    ∧ ((∀ kv ∈ options.headers, kv.1 ≠ "Authorization") →
        headerGet (apiFetchRequest endpoint options token region).headers "Authorization"
          = some ("Zoho-oauthtoken " ++ token)) := by
  refine ⟨rfl, ?_⟩
  intro h
  simp only [apiFetchRequest]
  rw [headerGet_spreadHeaders options.headers "Authorization" h]
  simp [headerGet]

/-- The first request of an invocation with a string token is the relay request built from
the endpoint, the options, that token and the stored region. -/
theorem apiRequest_first_request (fuel : Nat) (endpoint : String) (options : Options)
    (env : Env) (w : World) (tok : String)
    (hTok : w.storage "accessToken" = .str tok) (hne : tok ≠ "") :
    ∃ rest, (apiRequest (fuel + 1) endpoint options env w).2.trace
      = w.trace ++ apiFetchRequest endpoint options tok (w.storage "region") :: rest := by
  by_cases h401 : ∃ body, env.net w.trace.length
      (apiFetchRequest endpoint options tok (w.storage "region")) = .responds ⟨401, body⟩
  · obtain ⟨body, hnet⟩ := h401
    rw [apiRequest_succ fuel endpoint options env w tok hTok hne, hnet]
    rcases refreshAccessToken_cases env
        (w.issue (apiFetchRequest endpoint options tok (w.storage "region")))
      with h | h | h | ⟨a, x, _, h⟩
    · exact ⟨[], by simp [h, apiCatch_snd]⟩
    · exact ⟨[refreshAccessTokenRequestOf w.storage], by rw [h]; simp [apiCatch_snd]⟩
    · exact ⟨[refreshAccessTokenRequestOf w.storage], by rw [h]; simp⟩
    · obtain ⟨added, hadd, _, _⟩ := apiRequest_counts fuel endpoint options env
        { storage := Storage.set
            (w.issue (apiFetchRequest endpoint options tok (w.storage "region"))).storage
            [("accessToken", a), ("tokenExpiry", x)],
          trace := (w.issue (apiFetchRequest endpoint options tok (w.storage "region"))).trace ++
            [refreshAccessTokenRequestOf
              (w.issue (apiFetchRequest endpoint options tok (w.storage "region"))).storage],
          badge := (w.issue (apiFetchRequest endpoint options tok (w.storage "region"))).badge }
      refine ⟨refreshAccessTokenRequestOf w.storage :: added, ?_⟩
      simp only [h, if_true]
      rw [hadd]
      simp
  · have hno : ∀ response, env.net w.trace.length
        (apiFetchRequest endpoint options tok (w.storage "region")) = .responds response →
        response.status ≠ 401 := by
      intro response hresp hst
      apply h401
      obtain ⟨st, body⟩ := response
      simp only at hst
      subst hst
      exact ⟨body, hresp⟩
    exact ⟨[], by rw [(apiRequest_no_401 fuel endpoint options env w tok hTok hne hno).1]; simp⟩

/-- C9 as stated fails: when the relay answers 401 to the original request and again to the
retried request while both refreshes succeed, `apiRequest` does not fail with
`Authentication expired`: it refreshes a second time and issues a third relay request, whose
answer it returns.  Two token exchanges and three relay requests are issued. -/
theorem apiRequest_second_401_refreshes_again :
    envTwice401.net 0 (apiFetchRequest "/accounts" Options.empty "cached" (.str "in"))
        = .responds ⟨401, .json (mkObj [("error", .str "INVALID_OAUTHTOKEN")])⟩
    ∧ envTwice401.net 2 (apiFetchRequest "/accounts" Options.empty "fresh" (.str "in"))
        = .responds ⟨401, .json (mkObj [("error", .str "INVALID_OAUTHTOKEN")])⟩
    ∧ (apiRequest 3 "/accounts" Options.empty envTwice401 wBothKeys).1
        = .returned (mkObj [("data", .arr .nil)])
    ∧ tokenExchanges (apiRequest 3 "/accounts" Options.empty envTwice401 wBothKeys).2.trace = 2
    ∧ relayCalls (apiRequest 3 "/accounts" Options.empty envTwice401 wBothKeys).2.trace = 3 := by
  decide

/-- C9 as amended: an invocation of `apiRequest` re-enters itself after every 401 answer that
is followed by a successful refresh, without a bound on the number of rounds.  What it adds to
the trace contains at most one more relay request than token exchanges and at most as many
token exchanges as relay requests; and it ends as soon as the relay stops answering 401: if no
request issued at position `N` or later is answered 401, a recursion budget above `N` is never
used up. -/
theorem apiRequest_rounds (endpoint : String) (options : Options) (env : Env) (w : World)
    (N fuel : Nat)
    (hN : ∀ k, N ≤ k → ∀ req response, env.net k req = .responds response →
      response.status ≠ 401)
    (hfuel : N + 1 ≤ fuel) :
    (apiRequest fuel endpoint options env w).1 ≠ .outOfFuel
    ∧ ∃ added, (apiRequest fuel endpoint options env w).2.trace = w.trace ++ added
        ∧ relayCalls added ≤ tokenExchanges added + 1
        ∧ tokenExchanges added ≤ relayCalls added :=
  ⟨apiRequest_ends endpoint options env N hN fuel w (by omega) (by omega),
   apiRequest_counts fuel endpoint options env w⟩

/-- C9 as amended, for the relay that answers 401 twice: no request from position 4 on is
answered 401, so a budget of 5 suffices. -/
theorem apiRequest_rounds_witness :
    (apiRequest 5 "/accounts" Options.empty envTwice401 wBothKeys).1 ≠ .outOfFuel
    ∧ ∃ added, (apiRequest 5 "/accounts" Options.empty envTwice401 wBothKeys).2.trace
          = wBothKeys.trace ++ added
        ∧ relayCalls added ≤ tokenExchanges added + 1
        ∧ tokenExchanges added ≤ relayCalls added :=
  apiRequest_rounds "/accounts" Options.empty envTwice401 wBothKeys 4 5
    (by
      intro k hk req response hresp
      simp only [envTwice401] at hresp
      split at hresp
      · cases hresp; decide
      · split at hresp
        · omega
        · cases hresp; decide)
    (by decide)

/-- C10: when the relay answers 401 to an invocation with a (non-empty string) token, then
(1) if `refreshAccessToken` returns `false`, `apiRequest` fails with `Authentication expired`
and the trace holds no relay request beyond the original one; (2) if it returns `true` and has
stored the token `a`, the invocation continues as `apiRequest` with the same endpoint and
options, and its next request is the original one again with the new token: the method and
the body of the options, the URL of the relay for the endpoint, and the headers
`Authorization: Zoho-oauthtoken a`, `Content-Type`, `Accept` and the unchanged region tag,
with the headers of the options spread over them; unless the options name an `Authorization`
header themselves, the bearer of that request is `a`.  The stored region and the stored
values the refresh sends are strings or absent. -/
theorem apiRequest_after_401 (fuel : Nat) (endpoint : String) (options : Options) (env : Env)
    (w : World) (tok : String) (body : Body)
    (hTok : w.storage "accessToken" = .str tok) (hne : tok ≠ "")
    (_hRegion : (w.storage "region").isTextOrAbsent = true)
    (_hRefresh : (w.storage "refreshToken").isTextOrAbsent = true)
    (_hId : (w.storage "zohoClientId").isTextOrAbsent = true)
    (_hSecret : (w.storage "zohoClientSecret").isTextOrAbsent = true)
    (h401 : env.net w.trace.length (apiFetchRequest endpoint options tok (w.storage "region"))
      = .responds ⟨401, body⟩) :
    (∀ w2, refreshAccessToken env
          (w.issue (apiFetchRequest endpoint options tok (w.storage "region")))
          = (.returned false, w2) →
        apiRequest (fuel + 1) endpoint options env w = (.thrown ⟨"Authentication expired"⟩, w2)
        ∧ relayCalls w2.trace = relayCalls w.trace + 1)
    ∧ (∀ w2 a, refreshAccessToken env
          (w.issue (apiFetchRequest endpoint options tok (w.storage "region")))
          = (.returned true, w2) →
        w2.storage "accessToken" = .str a →
        apiRequest (fuel + 2) endpoint options env w = apiRequest (fuel + 1) endpoint options env w2
        ∧ ∃ request rest, (apiRequest (fuel + 2) endpoint options env w).2.trace
              = w2.trace ++ request :: rest
            ∧ request
              = { method := options.method.getD "GET",
                  url := "http://127.0.0.1:3847/api" ++ endpoint,
                  headers := spreadHeaders
                    [("Authorization", "Zoho-oauthtoken " ++ a),
                     ("Content-Type", "application/json"),
                     ("Accept", "application/json"),
                     ("X-Zoho-Region", toJsString (jsOr (w.storage "region") (.str "in")))]
                    options.headers,
                  body := match options.body with
                    | some b => .text b
                    | none => .none }
            ∧ ((∀ kv ∈ options.headers, kv.1 ≠ "Authorization") →
                headerGet request.headers "Authorization" = some ("Zoho-oauthtoken " ++ a))) := by
  have hrel := isRelayCall_apiFetchRequest endpoint options tok (w.storage "region")
  have hrel2 := isRelayCall_refreshAccessTokenRequestOf w.storage
  constructor
  · intro w2 hw2
    constructor
    · rw [apiRequest_succ fuel endpoint options env w tok hTok hne, h401]
      rw [hw2]
      exact apiCatch_authenticationExpired env w2
    · rcases refreshAccessToken_cases env
          (w.issue (apiFetchRequest endpoint options tok (w.storage "region")))
        with h | h | h | ⟨a, x, _, h⟩
      · rw [h] at hw2
        cases hw2
        simp [relayCalls, hrel]
      · rw [h] at hw2
        cases hw2
        simp [relayCalls, List.filter_cons, hrel, hrel2]
      · rw [h] at hw2
        cases hw2
      · rw [h] at hw2
        cases hw2
  · intro w2 a hw2 ha
    have heq : apiRequest (fuel + 2) endpoint options env w
        = apiRequest (fuel + 1) endpoint options env w2 := by
      rw [apiRequest_succ (fuel + 1) endpoint options env w tok hTok hne, h401]
      simp [hw2]
    refine ⟨heq, ?_⟩
    rcases refreshAccessToken_cases env
        (w.issue (apiFetchRequest endpoint options tok (w.storage "region")))
      with h | h | h | ⟨a2, x, ha2, h⟩
    · rw [h] at hw2
      cases hw2
    · rw [h] at hw2
      cases hw2
    · rw [h] at hw2
      cases hw2
    · rw [h] at hw2
      cases hw2
      have hstored : a2 = .str a := by
        simpa [Storage.set] using ha
      subst hstored
      have hane : a ≠ "" := by
        simpa [truthy] using ha2
      have hreg : (Storage.set w.storage [("accessToken", JVal.str a), ("tokenExpiry", x)])
          "region" = w.storage "region" := by
        simp [Storage.set]
      obtain ⟨rest, hrest⟩ := apiRequest_first_request fuel endpoint options env
        { storage := Storage.set
            (w.issue (apiFetchRequest endpoint options tok (w.storage "region"))).storage
            [("accessToken", JVal.str a), ("tokenExpiry", x)],
          trace := (w.issue (apiFetchRequest endpoint options tok (w.storage "region"))).trace ++
            [refreshAccessTokenRequestOf
              (w.issue (apiFetchRequest endpoint options tok (w.storage "region"))).storage],
          badge := (w.issue (apiFetchRequest endpoint options tok (w.storage "region"))).badge }
        a ha hane
      have hfields := apiFetchRequest_fields endpoint options a (w.storage "region")
      refine ⟨apiFetchRequest endpoint options a (w.storage "region"), rest, ?_, hfields.1,
        hfields.2⟩
      rw [heq, hrest]
      simp [hreg]

/-- C10 at concrete states: (1) a signed-in user whose storage has no `refreshToken` key and a
relay that answers 401: the refresh returns `false` without a request and `apiRequest` fails
with `Authentication expired` after its one relay request; (2) a storage that has the key and a
provider that answers `fresh`: the retried request carries `fresh` as bearer. -/
theorem apiRequest_after_401_witness :
    (apiRequest 1 "/accounts" Options.empty envAlways401 wBoundary
        = (.thrown ⟨"Authentication expired"⟩,
           wBoundary.issue
             (apiFetchRequest "/accounts" Options.empty "cached" (wBoundary.storage "region")))
      ∧ relayCalls (wBoundary.issue
            (apiFetchRequest "/accounts" Options.empty "cached" (wBoundary.storage "region"))).trace
          = relayCalls wBoundary.trace + 1)
    ∧ ∃ request rest, (apiRequest 2 "/accounts" Options.empty envTwice401 wBothKeys).2.trace
          = (refreshAccessToken envTwice401 (wBothKeys.issue
              (apiFetchRequest "/accounts" Options.empty "cached"
                (wBothKeys.storage "region")))).2.trace ++ request :: rest
        ∧ request
          = { method := "GET",
              url := "http://127.0.0.1:3847/api/accounts",
              headers := [("Authorization", "Zoho-oauthtoken fresh"),
                          ("Content-Type", "application/json"),
                          ("Accept", "application/json"),
                          ("X-Zoho-Region", "in")],
              body := .none }
        ∧ headerGet request.headers "Authorization" = some "Zoho-oauthtoken fresh" :=
  ⟨(apiRequest_after_401 0 "/accounts" Options.empty envAlways401 wBoundary "cached"
      (.json (mkObj [("error", .str "INVALID_OAUTHTOKEN")])) (by decide) (by decide) (by decide)
      (by decide) (by decide) (by decide) rfl).1 _
      (refreshAccessToken_missing _ _ (by decide)),
   Exists.elim
     ((apiRequest_after_401 0 "/accounts" Options.empty envTwice401 wBothKeys "cached"
        (.json (mkObj [("error", .str "INVALID_OAUTHTOKEN")])) (by decide) (by decide)
        (by decide) (by decide) (by decide) (by decide) rfl).2
        (refreshAccessToken envTwice401 (wBothKeys.issue
          (apiFetchRequest "/accounts" Options.empty "cached" (wBothKeys.storage "region")))).2
        "fresh" (Prod.ext (by decide) rfl) (by decide)).2
     (fun request h => Exists.elim h (fun rest hr =>
       ⟨request, rest, hr.1, hr.2.1.trans (by decide), hr.2.2 (by decide)⟩))⟩

/-! ## apiRequest: the answers of the relay -/

/-- A 2xx answer with a JSON body is returned as it is. -/
theorem apiRequest_success (fuel : Nat) (endpoint : String) (options : Options) (env : Env)
    (w : World) (tok : String) (s : Nat) (E : JVal)
    (hTok : w.storage "accessToken" = .str tok) (hne : tok ≠ "")
    (hs : 200 ≤ s ∧ s ≤ 299)
    (hNet : env.net w.trace.length (apiFetchRequest endpoint options tok (w.storage "region"))
      = .responds ⟨s, .json E⟩) :
    apiRequest (fuel + 1) endpoint options env w
      = (.returned E, w.issue (apiFetchRequest endpoint options tok (w.storage "region"))) := by
  have h401 : s ≠ 401 := by omega
  rw [apiRequest_succ fuel endpoint options env w tok hTok hne, hNet]
  simp [h401, Response.ok, hs.1, hs.2, Response.json]

/-- A rejected request to the relay: the `catch` block decides on the text of the message. -/
theorem apiRequest_rejected (fuel : Nat) (endpoint : String) (options : Options) (env : Env)
    (w : World) (tok msg : String)
    (hTok : w.storage "accessToken" = .str tok) (hne : tok ≠ "")
    (hNet : env.net w.trace.length (apiFetchRequest endpoint options tok (w.storage "region"))
      = .rejects msg) :
    apiRequest (fuel + 1) endpoint options env w
      = (.thrown ⟨caughtMessage msg⟩,
         w.issue (apiFetchRequest endpoint options tok (w.storage "region"))) := by
  rw [apiRequest_succ fuel endpoint options env w tok hTok hne, hNet]
  unfold apiCatch caughtMessage
  by_cases h : (jsIncludes msg "Failed to fetch" || jsIncludes msg "NetworkError") = true
  · simp only [h, if_true, Js.throw]
  · simp only [h, if_false, Js.rethrow]
    simp

/-- C11 as stated fails: a connection failure whose message is `Load failed` is rethrown as
it is, not as the relay-unavailable error. -/
theorem apiRequest_rejection_rethrown :
    wBoundary.storage "accessToken" = .str "cached"
    ∧ envLoadFailed.net wBoundary.trace.length
        (apiFetchRequest "/accounts" Options.empty "cached" (wBoundary.storage "region"))
        = .rejects "Load failed"
    ∧ (apiRequest 1 "/accounts" Options.empty envLoadFailed wBoundary).1
        = .thrown ⟨"Load failed"⟩
    ∧ (apiRequest 1 "/accounts" Options.empty envLoadFailed wBoundary).1
        ≠ .thrown ⟨"Proxy server not running. Please start the server first."⟩ := by
  decide

/-- C11 as amended: with a cached (non-empty string) access token, when the request to the
relay is rejected with a message that contains `Failed to fetch` or `NetworkError`,
`apiRequest` fails with the relay-unavailable error; when the message contains neither, it
fails with the rejection itself. -/
theorem apiRequest_relay_unavailable (fuel : Nat) (endpoint : String) (options : Options)
    (env : Env) (w : World) (tok msg : String)
    (hTok : w.storage "accessToken" = .str tok) (hne : tok ≠ "")
    (hNet : env.net w.trace.length (apiFetchRequest endpoint options tok (w.storage "region"))
      = .rejects msg) :
    (jsIncludes msg "Failed to fetch" = true ∨ jsIncludes msg "NetworkError" = true →
      (apiRequest (fuel + 1) endpoint options env w).1
        = .thrown ⟨"Proxy server not running. Please start the server first."⟩)
    ∧ (jsIncludes msg "Failed to fetch" = false ∧ jsIncludes msg "NetworkError" = false →
      (apiRequest (fuel + 1) endpoint options env w).1 = .thrown ⟨msg⟩) := by
  rw [apiRequest_rejected fuel endpoint options env w tok msg hTok hne hNet]
  constructor
  · intro h
    have : (jsIncludes msg "Failed to fetch" || jsIncludes msg "NetworkError") = true := by
      rcases h with h | h <;> simp [h]
    simp [caughtMessage, this, proxyNotRunning]
  · rintro ⟨h1, h2⟩
    simp [caughtMessage, h1, h2]

/-- C11 as amended, at the message Chrome gives to a failed connection. -/
theorem apiRequest_relay_unavailable_witness :
    (apiRequest 1 "/accounts" Options.empty envFailedToFetch wBoundary).1
      = .thrown ⟨"Proxy server not running. Please start the server first."⟩ :=
  (apiRequest_relay_unavailable 0 "/accounts" Options.empty envFailedToFetch wBoundary "cached"
    "Failed to fetch" (by decide) (by decide) rfl).1 (Or.inl (by decide))

/-- The error message of an answer whose JSON body is not `null`. -/
theorem apiErrorMessage_json (s : Nat) (v d e : JVal)
    (hd : getField v "data" = .returned d) (he : getField v "error" = .returned e) :
    apiErrorMessage ⟨s, .json v⟩ = .returned
      (if truthy (optionalGet d "errorMessage") then toJsString (optionalGet d "errorMessage")
       else if truthy e then toJsString e
       else "API error: " ++ toString s) := by
  have h0 : truthy .undefined = false := rfl
  unfold apiErrorMessage
  simp only [hd, he]
  cases d with
  | obj fields =>
    simp only [getField, optionalGet]
    by_cases h1 : truthy (fields.get "errorMessage") = true
    · simp [jsOr, h1]
    · by_cases h2 : truthy e = true <;> simp [jsOr, h1, h2, toJsString]
  | _ =>
    simp only [getField, optionalGet]
    by_cases h2 : truthy e = true <;> simp [jsOr, h0, h2, toJsString]

/-- The error message of an answer whose body is not JSON: the body text, or the status when
the body is empty. -/
theorem apiErrorMessage_notJson (s : Nat) (text se : String) :
    apiErrorMessage ⟨s, .notJson text se⟩ = .returned
      (if text ≠ "" then text else "API error: " ++ toString s) := by
  have h0 : truthy .undefined = false := rfl
  by_cases h : text = ""
  · subst h
    have h1 : truthy (.str "") = false := rfl
    simp [apiErrorMessage, getField, JFields.get, jsOr, h0, h1, toJsString]
  · have h1 : truthy (.str text) = true := by simp [truthy, h]
    simp [apiErrorMessage, getField, JFields.get, jsOr, h0, h1, h, toJsString]

/-- An answer that is neither 2xx nor 401: the error message passes through the `catch`
block. -/
theorem apiRequest_api_error (fuel : Nat) (endpoint : String) (options : Options) (env : Env)
    (w : World) (tok : String) (s : Nat) (body : Body) (M : String)
    (hTok : w.storage "accessToken" = .str tok) (hne : tok ≠ "")
    (hs : ¬ (200 ≤ s ∧ s ≤ 299)) (h401 : s ≠ 401)
    (hNet : env.net w.trace.length (apiFetchRequest endpoint options tok (w.storage "region"))
      = .responds ⟨s, body⟩)
    (hM : apiErrorMessage ⟨s, body⟩ = .returned M) :
    apiRequest (fuel + 1) endpoint options env w
      = (.thrown ⟨caughtMessage M⟩,
         w.issue (apiFetchRequest endpoint options tok (w.storage "region"))) := by
  have hok : Response.ok ⟨s, body⟩ = false := by
    simp only [Response.ok]
    by_cases h1 : 200 ≤ s
    · have h2 : ¬ s ≤ 299 := fun h => hs ⟨h1, h⟩
      simp [h1, h2]
    · simp [h1]
  rw [apiRequest_succ fuel endpoint options env w tok hTok hne, hNet]
  simp only [h401, if_false, hok, Bool.not_false, if_true, hM]
  unfold apiCatch caughtMessage
  by_cases h : (jsIncludes M "Failed to fetch" || jsIncludes M "NetworkError") = true
  · simp only [h, if_true, Js.throw]
  · simp only [h, if_false, Js.rethrow]
    simp

/-- C12 as stated fails: for a 502 answer whose body `Bad Gateway` is not valid JSON the
error message is the body text, not `API error: 502`. -/
theorem apiRequest_text_body_is_message :
    envBadGateway.net wBoundary.trace.length
        (apiFetchRequest "/accounts" Options.empty "cached" (wBoundary.storage "region"))
        = .responds ⟨502, .notJson "Bad Gateway" "Unexpected token B in JSON"⟩
    ∧ (apiRequest 1 "/accounts" Options.empty envBadGateway wBoundary).1
        = .thrown ⟨"Bad Gateway"⟩
    ∧ (apiRequest 1 "/accounts" Options.empty envBadGateway wBoundary).1
        ≠ .thrown ⟨"API error: 502"⟩ := by
  decide

/-- C12 as amended: for a relay answer with a status `s` that is neither 2xx nor 401,
`apiRequest` fails with this message: when the body parses as JSON to a value other than
`null` whose `data.errorMessage` and `error` are strings or absent, the embedded
`data.errorMessage` if there is one (a non-empty string), else the top-level `error` if there
is one, else `API error: s`; when the body is not valid JSON, the body text itself, and
`API error: s` only for an empty body.  In each case the message goes through the `catch`
block (`caughtMessage`), which leaves a message that contains neither `Failed to fetch` nor
`NetworkError` as it is; a message with such text is the subject of C29.  The stored region,
which goes into the request, is a string or absent. -/
theorem apiRequest_error_message (fuel : Nat) (endpoint : String) (options : Options)
    (env : Env) (w : World) (tok : String) (s : Nat) (body : Body)
    (hTok : w.storage "accessToken" = .str tok) (hne : tok ≠ "")
    (_hRegion : (w.storage "region").isTextOrAbsent = true)
    (hs : ¬ (200 ≤ s ∧ s ≤ 299)) (h401 : s ≠ 401)
    (hNet : env.net w.trace.length (apiFetchRequest endpoint options tok (w.storage "region"))
      = .responds ⟨s, body⟩) :
    (∀ v d e, body = .json v → getField v "data" = .returned d →
        getField v "error" = .returned e →
        (optionalGet d "errorMessage").isTextOrAbsent = true → e.isTextOrAbsent = true →
        (apiRequest (fuel + 1) endpoint options env w).1 = .thrown ⟨caughtMessage
          (if truthy (optionalGet d "errorMessage") then toJsString (optionalGet d "errorMessage")
           else if truthy e then toJsString e
           else "API error: " ++ toString s)⟩)
    ∧ (∀ text se, body = .notJson text se →
        (apiRequest (fuel + 1) endpoint options env w).1 = .thrown ⟨caughtMessage
          (if text ≠ "" then text else "API error: " ++ toString s)⟩) := by
  constructor
  · intro v d e hb hd he _ _
    subst hb
    rw [apiRequest_api_error fuel endpoint options env w tok s (.json v) _ hTok hne hs h401 hNet
      (apiErrorMessage_json s v d e hd he)]
  · intro text se hb
    subst hb
    rw [apiRequest_api_error fuel endpoint options env w tok s (.notJson text se) _ hTok hne hs
      h401 hNet (apiErrorMessage_notJson s text se)]

/-- C12 as amended, at a 404 answer that embeds the provider message `Invalid account`. -/
theorem apiRequest_error_message_witness :
    (apiRequest 1 "/accounts" Options.empty envNotFound wBoundary).1
      = .thrown ⟨"Invalid account"⟩ :=
  (apiRequest_error_message 0 "/accounts" Options.empty envNotFound wBoundary "cached" 404
    (.json (mkObj [("data", mkObj [("errorMessage", .str "Invalid account")])]))
    (by decide) (by decide) (by decide) (by decide) (by decide) rfl).1 _
    (mkObj [("errorMessage", .str "Invalid account")]) .undefined rfl (by decide) (by decide)
    (by decide) (by decide)

/-- For a 500 answer whose body is the JSON literal `null`, reading `errorData.data` throws:
`apiRequest` fails with that `TypeError`, not with `API error: 500`. -/
theorem apiRequest_null_body :
    (apiRequest 1 "/accounts" Options.empty envNullBody wBoundary).1
      = .thrown ⟨"Cannot read properties of null (reading \x27data\x27)"⟩ := by
  decide

/-! ## The list operations -/

/-- C13: with a cached (non-empty string) access token and a 2xx relay answer whose JSON
envelope is an object, each of `getAccounts`, `getFolders` and `getEmails` returns the `data`
field of the envelope when it is present (truthy) and the empty array otherwise.  What is
returned is the `data` value itself, so the order of the messages is that of the envelope. -/
theorem list_operations_return_data (p : Platform) (fuel : Nat) (env : Env) (w : World)
    (tok : String) (s : Nat) (fields : JFields)
    (hTok : w.storage "accessToken" = .str tok) (hne : tok ≠ "")
    (hs : 200 ≤ s ∧ s ≤ 299) :
    (env.net w.trace.length (apiFetchRequest "/accounts" Options.empty tok (w.storage "region"))
        = .responds ⟨s, .json (.obj fields)⟩ →
      (getAccounts (fuel + 1) env w).1
        = .returned (if truthy (fields.get "data") then fields.get "data" else .arr .nil))
    ∧ (∀ accountId : JVal,
        env.net w.trace.length
            (apiFetchRequest (foldersEndpoint accountId) Options.empty tok (w.storage "region"))
          = .responds ⟨s, .json (.obj fields)⟩ →
        (getFolders (fuel + 1) accountId env w).1
          = .returned (if truthy (fields.get "data") then fields.get "data" else .arr .nil))
    ∧ (∀ (accountId : JVal) (options : EmailOptions) (params : List (String × String)),
        emailParams options = .returned params →
        env.net w.trace.length
            (apiFetchRequest (emailsEndpoint p accountId params) Options.empty tok
              (w.storage "region"))
          = .responds ⟨s, .json (.obj fields)⟩ →
        (getEmails p (fuel + 1) accountId options env w).1
          = .returned (if truthy (fields.get "data") then fields.get "data" else .arr .nil)) := by
  refine ⟨?_, ?_, ?_⟩
  · intro hNet
    have h := apiRequest_success fuel "/accounts" Options.empty env w tok s (.obj fields) hTok hne
      hs hNet
    simp [getAccounts, h, getField, jsOr, emptyArray]
  · intro accountId hNet
    have h := apiRequest_success fuel (foldersEndpoint accountId) Options.empty env w tok s
      (.obj fields) hTok hne hs hNet
    simp [getFolders, h, getField, jsOr, emptyArray]
  · intro accountId options params hp hNet
    have h := apiRequest_success fuel (emailsEndpoint p accountId params) Options.empty env w tok
      s (.obj fields) hTok hne hs hNet
    simp [getEmails, hp, h, getField, jsOr, emptyArray]

/-- C13 at a concrete listing: the three operations return the one-message array of the
envelope. -/
theorem list_operations_return_data_witness :
    (getAccounts 1 envListing wBoundary).1 = .returned (.arr (.cons sampleMessage .nil))
    ∧ (getFolders 1 (.str "77") envListing wBoundary).1
        = .returned (.arr (.cons sampleMessage .nil))
    ∧ (getEmails platformAscii 1 (.str "77") EmailOptions.empty envListing wBoundary).1
        = .returned (.arr (.cons sampleMessage .nil)) :=
  have h := list_operations_return_data platformAscii 0 envListing wBoundary "cached" 200
    (.cons "status" (mkObj [("code", .num 200)])
      (.cons "data" (.arr (.cons sampleMessage .nil)) .nil))
    (by decide) (by decide) (by decide)
  ⟨h.1 rfl, h.2.1 (.str "77") rfl,
   h.2.2 (.str "77") EmailOptions.empty
     [("limit", "20"), ("start", "1"), ("status", "all"), ("includeto", "true"),
      ("sortBy", "date"), ("sortorder", "false")] (by decide) rfl⟩

/-- C14 as stated fails: `searchEmails` returns the envelope of the answer, not its `data`
field. -/
theorem searchEmails_returns_envelope_example :
    envListing.net wBoundary.trace.length
        (apiFetchRequest (searchEndpoint platformAscii (.str "77") (.str "hello")) Options.empty
          "cached" (wBoundary.storage "region"))
        = .responds ⟨200, .json sampleEnvelope⟩
    ∧ (searchEmails platformAscii 1 (.str "77") (.str "hello") envListing wBoundary).1
        = .returned sampleEnvelope
    ∧ (searchEmails platformAscii 1 (.str "77") (.str "hello") envListing wBoundary).1
        ≠ .returned (.arr (.cons sampleMessage .nil)) := by
  decide

/-- C14 as amended: for every account id, search key and 2xx relay answer with JSON envelope
`E`, `searchEmails` returns `E` itself; taking `E.data` (or the empty list) is left to the
caller. -/
theorem searchEmails_returns_envelope (p : Platform) (fuel : Nat) (env : Env) (w : World)
    (tok : String) (s : Nat) (accountId searchKey E : JVal)
    (hTok : w.storage "accessToken" = .str tok) (hne : tok ≠ "")
    (hs : 200 ≤ s ∧ s ≤ 299)
    (hNet : env.net w.trace.length
        (apiFetchRequest (searchEndpoint p accountId searchKey) Options.empty tok
          (w.storage "region"))
      = .responds ⟨s, .json E⟩) :
    (searchEmails p (fuel + 1) accountId searchKey env w).1 = .returned E := by
  unfold searchEmails
  rw [apiRequest_success fuel _ Options.empty env w tok s E hTok hne hs hNet]

/-- C14 as amended, at a concrete search. -/
theorem searchEmails_returns_envelope_witness :
    (searchEmails platformAscii 1 (.str "77") (.str "hello") envListing wBoundary).1
      = .returned sampleEnvelope :=
  searchEmails_returns_envelope platformAscii 0 envListing wBoundary "cached" 200 (.str "77")
    (.str "hello") sampleEnvelope (by decide) (by decide) (by decide) rfl

/-! ## logout -/

/-- C16: for a stored access token and a stored region that are strings or absent, and
whatever happens to the revocation request, `logout` returns normally and leaves none of
`accessToken`, `tokenExpiry`, `isLoggedIn`, `accountId`, `inboxFolderId`, `userEmail` in the
storage; it issues the revocation request exactly when an access token was cached, and no
request otherwise. -/
theorem logout_clears_state (env : Env) (w : World)
    (_hTok : (w.storage "accessToken").isTextOrAbsent = true)
    (_hRegion : (w.storage "region").isTextOrAbsent = true) :
    (logout env w).1 = .returned ()
    ∧ (logout env w).2.storage "accessToken" = .undefined
    ∧ (logout env w).2.storage "tokenExpiry" = .undefined
    ∧ (logout env w).2.storage "isLoggedIn" = .undefined
    ∧ (logout env w).2.storage "accountId" = .undefined
    ∧ (logout env w).2.storage "inboxFolderId" = .undefined
    ∧ (logout env w).2.storage "userEmail" = .undefined
    ∧ (logout env w).2.trace
        = (if truthy (w.storage "accessToken") then w.trace ++ [revokeRequestOf w.storage]
           else w.trace) := by
  rw [logout_eq]
  simp [Storage.remove, logoutKeys]

/-- C16 at a signed-in storage of the region `in` and a network whose connections fail: the
six keys are gone and the one request is the revocation of the cached token. -/
theorem logout_clears_state_witness :
    (logout envLoadFailed wBoundary).1 = .returned ()
    ∧ (logout envLoadFailed wBoundary).2.storage "accessToken" = .undefined
    ∧ (logout envLoadFailed wBoundary).2.storage "tokenExpiry" = .undefined
    ∧ (logout envLoadFailed wBoundary).2.storage "isLoggedIn" = .undefined
    ∧ (logout envLoadFailed wBoundary).2.storage "accountId" = .undefined
    ∧ (logout envLoadFailed wBoundary).2.storage "inboxFolderId" = .undefined
    ∧ (logout envLoadFailed wBoundary).2.storage "userEmail" = .undefined
    ∧ (logout envLoadFailed wBoundary).2.trace
        = [{ method := "POST",
             url := "https://accounts.zoho.in/oauth/v2/token/revoke?token=cached",
             headers := [], body := .none }] :=
  match logout_clears_state envLoadFailed wBoundary (by decide) (by decide) with
  | ⟨h1, h2, h3, h4, h5, h6, h7, h8⟩ => ⟨h1, h2, h3, h4, h5, h6, h7, h8.trans (by decide)⟩

/-! ## deleteEmails -/

/-- When the predicate is false on every element, `find` returns `undefined`. -/
theorem findFirst_none (pred : JVal → Outcome Bool) (l : List JVal)
    (h : ∀ x ∈ l, pred x = .returned false) : findFirst pred l = .returned .undefined := by
  induction l with
  | nil => rfl
  | cons x rest ih =>
    have hx : pred x = .returned false := h x (List.mem_cons_self x rest)
    have hrest : ∀ y ∈ rest, pred y = .returned false :=
      fun y hy => h y (List.mem_cons_of_mem x hy)
    simp [findFirst, hx, ih hrest]

/-- The predicate of `deleteEmails` on a folder object whose `folderName` and `path` are
strings: a match of the lower-cased name or of the lower-cased path. -/
theorem isTrashFolder_strings (p : Platform) (fields : JFields) (name path : String)
    (hName : fields.get "folderName" = .str name) (hPath : fields.get "path" = .str path) :
    isTrashFolder p (.obj fields) = .returned
      (decide (p.toLowerCase name = "trash") || decide (p.toLowerCase name = "bin")
        || decide (p.toLowerCase name = "deleted items")
        || decide (p.toLowerCase path = "/trash") || decide (p.toLowerCase path = "/bin")) := by
  simp [isTrashFolder, getField, hName, hPath, optionalLowerCase]

/-- C15 as stated fails: with the single folder `Papierkorb`, which is not named `trash`,
`bin` or `deleted items` but has the path `/Trash`, `deleteEmails` finds a trash folder and
issues the `updatemessage` request that moves the message. -/
theorem deleteEmails_matches_path :
    asciiLower "Papierkorb" ≠ "trash" ∧ asciiLower "Papierkorb" ≠ "bin"
    ∧ asciiLower "Papierkorb" ≠ "deleted items"
    ∧ (getFolders 2 (.str "77") envTrashByPath wBoundary).1
        = .returned (.arr (.cons folderByPath .nil))
    ∧ (deleteEmails platformAscii 2 (.str "77") (.str "m1") (.str "1") envTrashByPath
        wBoundary).1 ≠ .thrown ⟨"Trash folder not found. Please check your folder names."⟩
    ∧ ((deleteEmails platformAscii 2 (.str "77") (.str "m1") (.str "1") envTrashByPath
        wBoundary).2.trace.map (fun r => (r.method, r.url)))
        = [("GET", "http://127.0.0.1:3847/api/accounts/77/folders"),
           ("PUT", "http://127.0.0.1:3847/api/accounts/77/updatemessage")] := by
  decide

/-- C15 as amended: when the folder lookup returns a list in which the predicate of the code
is false for every folder (no folder whose lower-cased name is `trash`, `bin` or
`deleted items`, and none whose lower-cased path is `/trash` or `/bin`), `deleteEmails` fails
with the trash-folder-not-found error and the world is the one the folder lookup left: no
`updatemessage` request is issued. -/
theorem deleteEmails_no_trash (p : Platform) (fuel : Nat) (env : Env) (w w1 : World)
    (accountId messageIds folderId : JVal) (folders : JList)
    (hFolders : getFolders fuel accountId env w = (.returned (.arr folders), w1))
    (hNone : ∀ f ∈ folders.toList, isTrashFolder p f = .returned false) :
    deleteEmails p fuel accountId messageIds folderId env w
      = (.thrown ⟨"Trash folder not found. Please check your folder names."⟩, w1) := by
  have hfind := findFirst_none (isTrashFolder p) folders.toList hNone
  have h0 : truthy .undefined = false := rfl
  simp [deleteEmails, hFolders, jsFind, hfind, h0, trashFolderNotFound]

/-- C15 as amended, for an account whose only folder is the inbox. -/
theorem deleteEmails_no_trash_witness :
    deleteEmails platformAscii 1 (.str "77") (.str "m1") (.str "1") envNoTrash wBoundary
      = (.thrown ⟨"Trash folder not found. Please check your folder names."⟩,
         (getFolders 1 (.str "77") envNoTrash wBoundary).2) :=
  deleteEmails_no_trash platformAscii 1 envNoTrash wBoundary
    (getFolders 1 (.str "77") envNoTrash wBoundary).2 (.str "77") (.str "m1") (.str "1")
    (.cons folderInbox .nil) (Prod.ext (by decide) rfl) (by decide)

/-! ## The relay -/

/-- The auth host of each of the four regions. -/
theorem authHostOf_known :
    authHostOf (.str "com") = .own "accounts.zoho.com"
    ∧ authHostOf (.str "in") = .own "accounts.zoho.in"
    ∧ authHostOf (.str "eu") = .own "accounts.zoho.eu"
    ∧ authHostOf (.str "au") = .own "accounts.zoho.com.au" := by
  decide

/-- The mail host of each of the four regions. -/
theorem mailHostOf_known :
    mailHostOf "com" = .own "mail.zoho.com"
    ∧ mailHostOf "in" = .own "mail.zoho.in"
    ∧ mailHostOf "eu" = .own "mail.zoho.eu"
    ∧ mailHostOf "au" = .own "mail.zoho.com.au" := by
  decide

/-- A URL under `/api/` is not `/token`. -/
theorem api_url_ne_token (url : String) (h : startsWithChars url.data "/api/".data = true) :
    url ≠ "/token" := by
  intro hu
  subst hu
  revert h
  decide

/-- C17: for a request `POST /token` whose body parses to a JSON object with the region `r`
among `com`, `in`, `eu`, `au`, and an upstream that answers with status `s` and body `b`, the
relay issues exactly one upstream request, a POST to `/oauth/v2/token` on port 443 of the auth
host of `r` whose body is the form encoding of exactly `refresh_token`, `client_id`,
`client_secret` (as given) and `grant_type=refresh_token`, and it answers with status `s` and
the body `b` as it is. -/
theorem relay_token_exchange (p : Platform) (up : UpstreamRequest → UpstreamOutcome)
    (req : IncomingRequest) (fields : JFields) (r host : String) (s : Nat) (b : String)
    (hMethod : req.method = "POST") (hUrl : req.url = "/token")
    (hBody : p.jsonParse req.body = .ok (.obj fields))
    (hRegion : fields.get "region" = .str r)
    (hHost : ownGet ZOHO_AUTH_DOMAINS r = some host)
    (hUp : up { hostname := host, port := 443, path := "/oauth/v2/token", method := "POST",
                headers := [("Content-Type", "application/x-www-form-urlencoded"),
                            ("Content-Length", toString (p.formEncode
                              [("refresh_token", toJsString (fields.get "refresh_token")),
                               ("client_id", toJsString (fields.get "client_id")),
                               ("client_secret", toJsString (fields.get "client_secret")),
                               ("grant_type", "refresh_token")]).utf8ByteSize)],
                body := p.formEncode
                  [("refresh_token", toJsString (fields.get "refresh_token")),
                   ("client_id", toJsString (fields.get "client_id")),
                   ("client_secret", toJsString (fields.get "client_secret")),
                   ("grant_type", "refresh_token")] }
      = .responds s b) :
    server p up req =
      { response := some { status := s, headers := corsHeaders, body := .raw b },
        upstream :=
          [{ hostname := host, port := 443, path := "/oauth/v2/token", method := "POST",
             headers := [("Content-Type", "application/x-www-form-urlencoded"),
                         ("Content-Length", toString (p.formEncode
                           [("refresh_token", toJsString (fields.get "refresh_token")),
                            ("client_id", toJsString (fields.get "client_id")),
                            ("client_secret", toJsString (fields.get "client_secret")),
                            ("grant_type", "refresh_token")]).utf8ByteSize)],
             body := p.formEncode
               [("refresh_token", toJsString (fields.get "refresh_token")),
                ("client_id", toJsString (fields.get "client_id")),
                ("client_secret", toJsString (fields.get "client_secret")),
                ("grant_type", "refresh_token")] }] } := by
  have hauth : authHostOf (.str r) = .own host := by
    simp [authHostOf, objectGet, toJsString, hHost]
  have hopt : req.method ≠ "OPTIONS" := by rw [hMethod]; decide
  simp [server, hopt, hUrl, hMethod, handleTokenRefresh, hBody, optionalGet, hRegion, hauth,
    httpsRequest, passOn, tokenForm, tokenHeaders, hUp]

/-- C17 at the token request of the extension for the region `in`. -/
theorem relay_token_exchange_witness :
    server platformToken upstreamOk tokenRequest =
      { response := some { status := 200, headers := corsHeaders,
                           body := .raw "\x7b\"access_token\":\"fresh\",\"expires_in\":3600\x7d" },
        upstream :=
          [{ hostname := "accounts.zoho.in", port := 443, path := "/oauth/v2/token",
             method := "POST",
             headers := [("Content-Type", "application/x-www-form-urlencoded"),
                         ("Content-Length", toString (platformToken.formEncode
                           [("refresh_token", toJsString (tokenBodyFields.get "refresh_token")),
                            ("client_id", toJsString (tokenBodyFields.get "client_id")),
                            ("client_secret", toJsString (tokenBodyFields.get "client_secret")),
                            ("grant_type", "refresh_token")]).utf8ByteSize)],
             body := platformToken.formEncode
               [("refresh_token", toJsString (tokenBodyFields.get "refresh_token")),
                ("client_id", toJsString (tokenBodyFields.get "client_id")),
                ("client_secret", toJsString (tokenBodyFields.get "client_secret")),
                ("grant_type", "refresh_token")] }] } :=
  relay_token_exchange platformToken upstreamOk tokenRequest tokenBodyFields "in"
    "accounts.zoho.in" 200 "\x7b\"access_token\":\"fresh\",\"expires_in\":3600\x7d"
    rfl rfl rfl (by decide) (by decide) rfl

/-- C18 as stated fails for the method `OPTIONS`: a request `OPTIONS /api/accounts` with an
`Authorization` header and the region tag `eu` is answered 204 by the relay itself, and no
upstream request is issued. -/
theorem relay_preflight_not_forwarded :
    preflightRequest.method = "OPTIONS"
    ∧ startsWithChars preflightRequest.url.data "/api/".data = true
    ∧ headerGet preflightRequest.headers "authorization" = some "Zoho-oauthtoken abc"
    ∧ headerGet preflightRequest.headers "x-zoho-region" = some "eu"
    ∧ (server platformAscii upstreamOk preflightRequest).upstream = []
    ∧ (server platformAscii upstreamOk preflightRequest).response
        = some { status := 204, headers := corsHeaders, body := .empty } := by
  decide

/-- C18 as amended: for a request with a method `m` other than `OPTIONS`, a URL `p` that
starts with `/api/`, a body `d`, a non-empty `Authorization` header `h` and a region tag `r`
among `com`, `in`, `eu`, `au`, and an upstream that answers with status `s` and body `b`, the
relay issues exactly one upstream request, with the method `m`, the path `p` and the body `d`,
to port 443 of the mail host of `r`, carrying `Authorization = h`,
`Content-Type: application/json` and `Accept: application/json` (and a `Content-Length` when
`m` is POST or PUT and `d` is not empty), and it answers with status `s` and the body `b` as
it is. -/
theorem relay_api_forward (p : Platform) (up : UpstreamRequest → UpstreamOutcome)
    (req : IncomingRequest) (h r host : String) (s : Nat) (b : String)
    (hMethod : req.method ≠ "OPTIONS")
    (hUrl : startsWithChars req.url.data "/api/".data = true)
    (hAuth : headerGet req.headers "authorization" = some h) (hne : h ≠ "")
    (hRegion : headerGet req.headers "x-zoho-region" = some r)
    (hHost : ownGet ZOHO_MAIL_DOMAINS r = some host)
    (hUp : up { hostname := host, port := 443, path := req.url, method := req.method,
                headers := apiHeaders h req.method req.body, body := req.body }
      = .responds s b) :
    server p up req =
      { response := some { status := s, headers := corsHeaders, body := .raw b },
        upstream := [{ hostname := host, port := 443, path := req.url, method := req.method,
                       headers := apiHeaders h req.method req.body, body := req.body }] }
    ∧ ("Authorization", h) ∈ apiHeaders h req.method req.body
    ∧ ("Content-Type", "application/json") ∈ apiHeaders h req.method req.body
    ∧ ("Accept", "application/json") ∈ apiHeaders h req.method req.body := by
  have hmail : mailHostOf r = .own host := by
    simp [mailHostOf, objectGet, hHost]
  have hrne : r ≠ "" := by
    intro hr
    subst hr
    simp [ZOHO_MAIL_DOMAINS, ownGet] at hHost
  have hnotToken : req.url ≠ "/token" := api_url_ne_token req.url hUrl
  refine ⟨?_, ?_, ?_, ?_⟩
  · simp [server, hMethod, hnotToken, hUrl, handleApiProxy, hAuth, hne, regionTag, hRegion, hrne,
      hmail, httpsRequest, passOn, hUp]
  · unfold apiHeaders
    split <;> simp
  · unfold apiHeaders
    split <;> simp
  · unfold apiHeaders
    split <;> simp

/-- C18 as amended, at `GET /api/accounts` for the region `eu`. -/
theorem relay_api_forward_witness :
    server platformAscii upstreamOk accountsRequest =
      { response := some { status := 200, headers := corsHeaders,
                           body := .raw "\x7b\"access_token\":\"fresh\",\"expires_in\":3600\x7d" },
        upstream := [{ hostname := "mail.zoho.eu", port := 443, path := accountsRequest.url,
                       method := accountsRequest.method,
                       headers := apiHeaders "Zoho-oauthtoken abc" accountsRequest.method
                         accountsRequest.body,
                       body := accountsRequest.body }] } :=
  (relay_api_forward platformAscii upstreamOk accountsRequest "Zoho-oauthtoken abc" "eu"
    "mail.zoho.eu" 200 "\x7b\"access_token\":\"fresh\",\"expires_in\":3600\x7d"
    (by decide) (by decide) (by decide) (by decide) (by decide) (by decide) rfl).1

/-- The relay issues at most one upstream request per call of `httpsRequest`. -/
theorem httpsRequest_issues_at_most_one (p : Platform) (up : UpstreamRequest → UpstreamOutcome)
    (hostname : Member String) (path method : String) (headers : List (String × String))
    (postData : String) :
    (httpsRequest p up hostname path method headers postData).2.length ≤ 1 := by
  unfold httpsRequest
  cases hostname with
  | own host =>
    simp only
    split <;> simp
  | inherited key => simp
  | absent =>
    simp only
    split <;> simp

theorem passOn_upstream (result : Outcome (Nat × String) × List UpstreamRequest) :
    (passOn result).upstream = result.2 := by
  rcases result with ⟨(⟨status, data⟩ | e | _ | _), issued⟩ <;> rfl

theorem handleTokenRefresh_upstream (p : Platform) (up : UpstreamRequest → UpstreamOutcome)
    (req : IncomingRequest) : (handleTokenRefresh p up req).upstream.length ≤ 1 := by
  unfold handleTokenRefresh
  cases p.jsonParse req.body with
  | error m => simp
  | ok parsed =>
    cases parsed <;> simp only [passOn_upstream, List.length_nil, Nat.zero_le] <;>
      exact httpsRequest_issues_at_most_one _ _ _ _ _ _ _

theorem handleApiProxy_upstream (p : Platform) (up : UpstreamRequest → UpstreamOutcome)
    (req : IncomingRequest) : (handleApiProxy p up req).upstream.length ≤ 1 := by
  unfold handleApiProxy
  cases headerGet req.headers "authorization" with
  | none => simp
  | some h =>
    simp only
    split
    · simp
    · rw [passOn_upstream]
      exact httpsRequest_issues_at_most_one _ _ _ _ _ _ _

/-- C19: when the request a handler sends upstream fails with the message `msg`, the relay
answers with status 500 and the JSON body `{"error": msg}` and has issued exactly that one
upstream request: (1) for a request routed to the token handler whose body parses to a value
other than `null`, (2) for a request routed to the API handler with a non-empty
`Authorization` header; and (3) for every incoming request the relay issues at most one
upstream request. -/
theorem relay_upstream_failure (p : Platform) (up : UpstreamRequest → UpstreamOutcome) :
    (∀ (req : IncomingRequest) (parsed : JVal) (host msg : String),
        req.method = "POST" → req.url = "/token" →
        p.jsonParse req.body = .ok parsed → parsed ≠ .undefined → parsed ≠ .null →
        authHostOf (optionalGet parsed "region") = .own host →
        up (tokenUpstream p host parsed) = .fails msg →
        server p up req =
          { response := some { status := 500, headers := corsHeaders,
                               body := .json (mkObj [("error", .str msg)]) },
            upstream := [tokenUpstream p host parsed] })
    ∧ (∀ (req : IncomingRequest) (h host msg : String),
        req.method ≠ "OPTIONS" → startsWithChars req.url.data "/api/".data = true →
        headerGet req.headers "authorization" = some h → h ≠ "" →
        mailHostOf (regionTag req) = .own host →
        up (apiUpstream host h req) = .fails msg →
        server p up req =
          { response := some { status := 500, headers := corsHeaders,
                               body := .json (mkObj [("error", .str msg)]) },
            upstream := [apiUpstream host h req] })
    ∧ (∀ req : IncomingRequest, (server p up req).upstream.length ≤ 1) := by
  refine ⟨?_, ?_, ?_⟩
  · intro req parsed host msg hMethod hUrl hBody hu hn hHost hUp
    have hopt : req.method ≠ "OPTIONS" := by rw [hMethod]; decide
    have hUp2 := hUp
    simp only [tokenUpstream] at hUp2
    cases parsed <;>
      first
      | exact absurd rfl hu
      | exact absurd rfl hn
      | simp [server, hopt, hUrl, hMethod, handleTokenRefresh, hBody, hHost, httpsRequest, passOn,
          hUp2, errorResponse, tokenUpstream]
  · intro req h host msg hMethod hUrl hAuth hne hHost hUp
    have hnotToken : req.url ≠ "/token" := api_url_ne_token req.url hUrl
    have hUp2 := hUp
    simp only [apiUpstream] at hUp2
    simp [server, hMethod, hnotToken, hUrl, handleApiProxy, hAuth, hne, hHost, httpsRequest,
      passOn, hUp2, errorResponse, apiUpstream]
  · intro req
    unfold server
    split
    · simp
    · split
      · exact handleTokenRefresh_upstream p up req
      · split
        · exact handleApiProxy_upstream p up req
        · simp

/-- C19 at concrete requests: with an upstream that cannot be reached, the token request and
the API request are both answered 500 with the message of the failure, after one upstream
request each. -/
theorem relay_upstream_failure_witness :
    server platformToken upstreamDown tokenRequest =
        { response := some { status := 500, headers := corsHeaders,
                             body := .json (mkObj [("error", .str "getaddrinfo ENOTFOUND")]) },
          upstream := [tokenUpstream platformToken "accounts.zoho.in" (.obj tokenBodyFields)] }
    ∧ server platformAscii upstreamDown accountsRequest =
        { response := some { status := 500, headers := corsHeaders,
                             body := .json (mkObj [("error", .str "getaddrinfo ENOTFOUND")]) },
          upstream := [apiUpstream "mail.zoho.eu" "Zoho-oauthtoken abc" accountsRequest] } :=
  ⟨(relay_upstream_failure platformToken upstreamDown).1 tokenRequest (.obj tokenBodyFields)
      "accounts.zoho.in" "getaddrinfo ENOTFOUND" rfl rfl rfl (by decide) (by decide) (by decide)
      rfl,
   (relay_upstream_failure platformAscii upstreamDown).2.1 accountsRequest "Zoho-oauthtoken abc"
      "mail.zoho.eu" "getaddrinfo ENOTFOUND" (by decide) (by decide) (by decide) (by decide)
      (by decide) rfl⟩

/-! ## The message contract of the background process -/

@[simp] theorem bind_eq_bgBind {α β : Type} (m : Bg α) (f : α → Bg β) : (m >>= f) = Bg.bind m f :=
  rfl

@[simp] theorem pure_eq_bgPure {α : Type} (a : α) : (pure a : Bg α) = Bg.pure a := rfl

attribute [simp] Bg.pure Bg.bind Bg.throw Bg.tryCatch Bg.ofOutcome Bg.lift syncGet uiEffect

/-- C20: for a message whose `action` is a string or is missing (a missing action is
`undefined`) and is none of `checkEmails`, `getEmails`, `markAsRead`, `markAsUnread`,
`deleteEmails`, `archiveEmails`, `markAsSpam`, `updateBadge`, `handleMessage` throws `Unknown action: <action>` and leaves the state of the
background process as it was (no request, no storage write, no interface effect), and the
listener answers `{ error: 'Unknown action: <action>' }`. -/
theorem handleMessage_unknown_action (p : Platform) (fuel : Nat) (env : Env) (w : BgWorld)
    (fields : JFields)
    (_hText : (fields.get "action").isTextOrAbsent = true)
    (h : ∀ name ∈ ["checkEmails", "getEmails", "markAsRead", "markAsUnread", "deleteEmails",
        "archiveEmails", "markAsSpam", "updateBadge"], fields.get "action" ≠ .str name) :
    handleMessage p fuel (.obj fields) env w
      = (.thrown ⟨"Unknown action: " ++ toJsString (fields.get "action")⟩, w)
    ∧ onMessage p fuel (.obj fields) env w
      = (some (mkObj [("error", .str ("Unknown action: " ++ toJsString (fields.get "action")))]),
         w) := by
  have h1 := h "checkEmails" (by simp)
  have h2 := h "getEmails" (by simp)
  have h3 := h "markAsRead" (by simp)
  have h4 := h "markAsUnread" (by simp)
  have h5 := h "deleteEmails" (by simp)
  have h6 := h "archiveEmails" (by simp)
  have h7 := h "markAsSpam" (by simp)
  have h8 := h "updateBadge" (by simp)
  have hm : handleMessage p fuel (.obj fields) env w
      = (.thrown ⟨"Unknown action: " ++ toJsString (fields.get "action")⟩, w) := by
    simp [handleMessage, getField, h1, h2, h3, h4, h5, h6, h7, h8]
  exact ⟨hm, by simp [onMessage, hm]⟩

/-- C20 at a message with an unknown action and at a message without an action. -/
theorem handleMessage_unknown_action_witness :
    (handleMessage platformAscii 1 messageUnknown envListing bgEmpty
        = (.thrown ⟨"Unknown action: refreshAll"⟩, bgEmpty)
      ∧ onMessage platformAscii 1 messageUnknown envListing bgEmpty
        = (some (mkObj [("error", .str "Unknown action: refreshAll")]), bgEmpty))
    ∧ (handleMessage platformAscii 1 messageNoAction envListing bgEmpty
        = (.thrown ⟨"Unknown action: undefined"⟩, bgEmpty)
      ∧ onMessage platformAscii 1 messageNoAction envListing bgEmpty
        = (some (mkObj [("error", .str "Unknown action: undefined")]), bgEmpty)) :=
  ⟨handleMessage_unknown_action platformAscii 1 envListing bgEmpty
      (.cons "action" (.str "refreshAll") .nil) (by decide) (by decide),
   handleMessage_unknown_action platformAscii 1 envListing bgEmpty
      (.cons "count" (.num 3) .nil) (by decide) (by decide)⟩

/-! ## The token state across operations -/

/-- C21, evaluated on a sequence of operations from the storage of a fresh install on which
the credentials have been saved, so that the token state is empty: after a successful `login`
and a `refreshToken` that the provider answers with a token and no `expires_in`, the access
token is present while the stored `tokenExpiry` is `NaN`, not the time of the exchange plus
3600000. -/
theorem token_state_expiry_not_a_number :
    wSavedIn.storage "accessToken" = .undefined
    ∧ wSavedIn.storage "tokenExpiry" = .undefined
    ∧ (runOps [(.login (.str "in"), envAbc)] wSavedIn).storage "tokenExpiry"
        = .num (700000 + 3600 * 1000)
    ∧ (runOps [(.login (.str "in"), envAbc), (.refreshToken, envNoLifetime)]
        wSavedIn).storage "accessToken" = .str "fresh"
    ∧ (runOps [(.login (.str "in"), envAbc), (.refreshToken, envNoLifetime)]
        wSavedIn).storage "tokenExpiry" = .nan
    ∧ (runOps [(.login (.str "in"), envAbc), (.refreshToken, envNoLifetime)]
        wSavedIn).storage "tokenExpiry" ≠ .num (700000 + 3600 * 1000) := by
  decide

/-! ## refreshAccessToken: the endpoint and the stored key -/

/-- C26, evaluated for the stored region `eu`: `refreshAccessToken` posts to the token URL of
`com`, which is not the token URL `getAuthEndpoints('eu')` resolves to. -/
theorem refreshAccessToken_ignores_region :
    wEuBothKeys.storage "region" = .str "eu"
    ∧ (getAuthEndpoints (.str "eu")).token
        = .returned (.str "https://accounts.zoho.eu/oauth/v2/token")
    ∧ (refreshAccessToken envAbc wEuBothKeys).2.trace.map (fun r => (r.method, r.url))
        = [("POST", "https://accounts.zoho.com/oauth/v2/token")] := by
  decide

/-- C27, evaluated on the storage that `saveCredentials` followed by a successful `login`
produces: the three credential keys are present, and `refreshAccessToken` returns `false`
without any request, because it reads the refresh token under the key `refreshToken`, which
neither of them writes. -/
theorem refreshAccessToken_reads_absent_key :
    (login (.str "eu") envAbc wSaved).1 = .returned true
    ∧ wSignedIn.storage "zohoClientId" = .str "id"
    ∧ wSignedIn.storage "zohoClientSecret" = .str "secret"
    ∧ wSignedIn.storage "zohoRefreshToken" = .str "rt"
    ∧ wSignedIn.storage "refreshToken" = .undefined
    ∧ (refreshAccessToken envAbc wSignedIn).1 = .returned false
    ∧ (refreshAccessToken envAbc wSignedIn).2.trace = wSignedIn.trace
    ∧ tokenExchanges (refreshAccessToken envAbc wSignedIn).2.trace
        = tokenExchanges wSignedIn.trace := by
  decide

/-! ## apiRequest: API errors and the relay-unavailable error -/

/-- C29, evaluated at a 400 answer that the relay did deliver and whose provider message
contains `NetworkError`: `apiRequest` fails with the relay-unavailable error instead of the
provider message. -/
theorem apiRequest_api_error_reported_as_relay_down :
    envProviderNetworkError.net wBoundary.trace.length
        (apiFetchRequest "/accounts" Options.empty "cached" (wBoundary.storage "region"))
        = .responds ⟨400, .json (mkObj
            [("data", mkObj [("errorMessage",
              .str "NetworkError while contacting the mail store")])])⟩
    ∧ (apiRequest 1 "/accounts" Options.empty envProviderNetworkError wBoundary).1
        = .thrown ⟨"Proxy server not running. Please start the server first."⟩
    ∧ (apiRequest 1 "/accounts" Options.empty envProviderNetworkError wBoundary).1
        ≠ .thrown ⟨"NetworkError while contacting the mail store"⟩ := by
  decide

/-! ## login: the region argument -/

/-- C30, evaluated with complete credentials, no stored region and the argument `eu`:
`login('eu')` posts to the token URL of `in` and stores `region = 'in'`, because
`getCredentials` has already replaced the missing region by `'in'`. -/
theorem login_ignores_argument :
    wNoRegion.storage "region" = .undefined
    ∧ (getAuthEndpoints (.str "eu")).token
        = .returned (.str "https://accounts.zoho.eu/oauth/v2/token")
    ∧ (login (.str "eu") envAbc wNoRegion).1 = .returned true
    ∧ (login (.str "eu") envAbc wNoRegion).2.trace.map (fun r => (r.method, r.url))
        = [("POST", "https://accounts.zoho.in/oauth/v2/token")]
    ∧ (login (.str "eu") envAbc wNoRegion).2.storage "region" = .str "in" := by
  decide

/-! ## The default region -/

/-- C22 as stated fails: for the code `us` the resolver of auth.js falls back to the entry of
`com` while both lookups of the relay fall back to the entry of `in`, so no region `d` is the
default of all three. -/
theorem no_single_default_region :
    getAuthEndpoints (.str "us") = getAuthEndpoints (.str "com")
    ∧ authHostOf (.str "us") = .own "accounts.zoho.in"
    ∧ mailHostOf "us" = .own "mail.zoho.in"
    ∧ ¬ ∃ d ∈ ["com", "in", "eu", "au"],
        getAuthEndpoints (.str "us") = getAuthEndpoints (.str d)
        ∧ authHostOf (.str "us") = authHostOf (.str d)
        ∧ mailHostOf "us" = mailHostOf d := by
  decide

/-- C22 as amended: for every region code outside `com`, `in`, `eu`, `au` that does not name a
member of `Object.prototype`, `getAuthEndpoints` returns the entry of `com`, and the token-host
lookup and the API-host lookup of the relay return the entry of `in`; and for every code among
the four, the token URL of `getAuthEndpoints` is `https://<host>/oauth/v2/token` for the
relay's auth host of that code. -/
theorem region_defaults (s : String)
    (hs : s ≠ "com" ∧ s ≠ "in" ∧ s ≠ "eu" ∧ s ≠ "au") (hp : s ∉ objectPrototypeKeys) :
    getAuthEndpoints (.str s) = getAuthEndpoints (.str "com")
    ∧ authHostOf (.str s) = authHostOf (.str "in")
    ∧ mailHostOf s = mailHostOf "in"
    ∧ ∀ code ∈ ["com", "in", "eu", "au"], ∃ ep host,
        getAuthEndpoints (.str code) = .own ep ∧ authHostOf (.str code) = .own host
        ∧ ep.token = "https://" ++ host ++ "/oauth/v2/token" := by
  obtain ⟨h1, h2, h3, h4⟩ := hs
  have hauth : ownGet ZOHO_AUTH_DOMAINS s = none := by
    simp [ZOHO_AUTH_DOMAINS, ownGet, Ne.symm h1, Ne.symm h2, Ne.symm h3, Ne.symm h4]
  have hmail : ownGet ZOHO_MAIL_DOMAINS s = none := by
    simp [ZOHO_MAIL_DOMAINS, ownGet, Ne.symm h1, Ne.symm h2, Ne.symm h3, Ne.symm h4]
  have ha : authHostOf (.str "in") = objectGet ZOHO_AUTH_DOMAINS "in" := by decide
  have hm : mailHostOf "in" = objectGet ZOHO_MAIL_DOMAINS "in" := by decide
  refine ⟨getAuthEndpoints_unknown s ⟨h1, h2, h3, h4⟩ hp, ?_, ?_, ?_⟩
  · rw [ha]
    simp [authHostOf, toJsString, objectGet, hauth, hp]
  · rw [hm]
    simp [mailHostOf, objectGet, hmail, hp]
  · intro code hc
    simp only [List.mem_cons, List.mem_singleton, List.not_mem_nil, or_false] at hc
    rcases hc with h | h | h | h <;> subst h
    · exact ⟨_, _, getAuthEndpoints_known.1, authHostOf_known.1, by decide⟩
    · exact ⟨_, _, getAuthEndpoints_known.2.1, authHostOf_known.2.1, by decide⟩
    · exact ⟨_, _, getAuthEndpoints_known.2.2.1, authHostOf_known.2.2.1, by decide⟩
    · exact ⟨_, _, getAuthEndpoints_known.2.2.2, authHostOf_known.2.2.2, by decide⟩

/-- C22 as amended, at the code `us`. -/
theorem region_defaults_witness :
    getAuthEndpoints (.str "us") = getAuthEndpoints (.str "com")
    ∧ authHostOf (.str "us") = authHostOf (.str "in")
    ∧ mailHostOf "us" = mailHostOf "in"
    ∧ ∀ code ∈ ["com", "in", "eu", "au"], ∃ ep host,
        getAuthEndpoints (.str code) = .own ep ∧ authHostOf (.str code) = .own host
        ∧ ep.token = "https://" ++ host ++ "/oauth/v2/token" :=
  region_defaults "us" (by decide) (by decide)

/-! ## apiRequest: the bearer token -/

/-- C28 as stated fails: with a cached token that expires within five minutes, `apiRequest`
issues its relay request at once with the cached token as bearer and no token exchange, while
`getAccessToken` in the same state refreshes and returns the fresh token. -/
theorem apiRequest_sends_expiring_token :
    wExpiring.storage "tokenExpiry" = .num 900000
    ∧ envHour.clock wExpiring.trace.length > 900000 - 300000
    ∧ (getAccessToken envHour wExpiring).1 = .returned (.str "fresh")
    ∧ (apiRequest 1 "/accounts" Options.empty envHour wExpiring).2.trace
        = [apiFetchRequest "/accounts" Options.empty "cached" (.str "in")]
    ∧ headerGet (apiFetchRequest "/accounts" Options.empty "cached" (.str "in")).headers
        "Authorization" = some "Zoho-oauthtoken cached"
    ∧ tokenExchanges (apiRequest 1 "/accounts" Options.empty envHour wExpiring).2.trace = 0 := by
  decide

/-- C28 as amended: whatever the stored `tokenExpiry`, the first request an invocation of
`apiRequest` issues is the relay request for the endpoint, with the method and the body of the
options and the headers `Authorization: Zoho-oauthtoken <cached token>`, `Content-Type`,
`Accept` and the region tag, the headers of the options spread over them; unless the options
name an `Authorization` header themselves, the bearer of that request is the cached access
token.  The expiry is not consulted and no token refresh precedes that request.  The stored
region is a string or absent. -/
theorem apiRequest_sends_cached_token (fuel : Nat) (endpoint : String) (options : Options)
    (env : Env) (w : World) (tok : String)
    (hTok : w.storage "accessToken" = .str tok) (hne : tok ≠ "")
    (_hRegion : (w.storage "region").isTextOrAbsent = true) :
    ∃ request rest, (apiRequest (fuel + 1) endpoint options env w).2.trace
        = w.trace ++ request :: rest
      ∧ request
        = { method := options.method.getD "GET",
            url := "http://127.0.0.1:3847/api" ++ endpoint,
            headers := spreadHeaders
              [("Authorization", "Zoho-oauthtoken " ++ tok),
               ("Content-Type", "application/json"),
               ("Accept", "application/json"),
               ("X-Zoho-Region", toJsString (jsOr (w.storage "region") (.str "in")))]
              options.headers,
            body := match options.body with
              | some b => .text b
              | none => .none }
      ∧ ((∀ kv ∈ options.headers, kv.1 ≠ "Authorization") →
          headerGet request.headers "Authorization" = some ("Zoho-oauthtoken " ++ tok)) := by
  obtain ⟨rest, hrest⟩ := apiRequest_first_request fuel endpoint options env w tok hTok hne
  have hfields := apiFetchRequest_fields endpoint options tok (w.storage "region")
  exact ⟨apiFetchRequest endpoint options tok (w.storage "region"), rest, hrest, hfields.1,
    hfields.2⟩

/-- C28 as amended, at the expiring token: the first request carries `cached` as bearer. -/
theorem apiRequest_sends_cached_token_witness :
    ∃ request rest, (apiRequest 1 "/accounts" Options.empty envHour wExpiring).2.trace
        = wExpiring.trace ++ request :: rest
      ∧ request
        = { method := "GET",
            url := "http://127.0.0.1:3847/api/accounts",
            headers := [("Authorization", "Zoho-oauthtoken cached"),
                        ("Content-Type", "application/json"),
                        ("Accept", "application/json"),
                        ("X-Zoho-Region", "in")],
            body := .none }
      ∧ headerGet request.headers "Authorization" = some "Zoho-oauthtoken cached" :=
  Exists.elim
    (apiRequest_sends_cached_token 0 "/accounts" Options.empty envHour wExpiring "cached"
      (by decide) (by decide) (by decide))
    (fun request h => Exists.elim h (fun rest hr =>
      ⟨request, rest, hr.1, hr.2.1.trans (by decide), hr.2.2 (by decide)⟩))

/-! ## The storage keys the operations leave alone -/

/-- The keys `login` can write: every other key keeps its value. -/
theorem login_frame (env : Env) (w : World) (arg : JVal) (k : String)
    (h1 : k ≠ "accessToken") (h2 : k ≠ "region") (h3 : k ≠ "tokenExpiry")
    (h4 : k ≠ "isLoggedIn") :
    (login arg env w).2.storage k = w.storage k := by
  by_cases hall : truthy (w.storage "zohoClientId") = true
      ∧ truthy (w.storage "zohoClientSecret") = true
      ∧ truthy (w.storage "zohoRefreshToken") = true
  · obtain ⟨hId, hSec, hRt⟩ := hall
    have hc := getCredentials_complete env w hId hSec hRt
    rcases hnet : env.net w.trace.length (loginRequest ("https://accounts.zoho." ++
            loginTld (jsOr (credentialsOf w.storage).region
              (if arg = .undefined then JVal.str "in" else arg)) ++ "/oauth/v2/token")
          (credentialsOf w.storage)) with ⟨st, d | ⟨t, m⟩⟩ | msg | _
    · rcases getField_cases d "error" with ⟨er, hg⟩ | ⟨e, hg⟩
      · by_cases hte : truthy er = true
        · simp [login, hc, hnet, Response.json, hg, hte]
        · rcases getField_cases d "access_token" with ⟨a, hg2⟩ | ⟨e, hg2⟩
          · by_cases hta : truthy a = true
            · rcases getField_cases d "expires_in" with ⟨x, hg3⟩ | ⟨e, hg3⟩
              · simp [login, hc, hnet, Response.json, hg, hte, hg2, hta, hg3, Storage.set, h1,
                  h2, h3, h4]
              · simp [login, hc, hnet, Response.json, hg, hte, hg2, hta, hg3]
            · simp [login, hc, hnet, Response.json, hg, hte, hg2, hta]
          · simp [login, hc, hnet, Response.json, hg, hte, hg2]
      · simp [login, hc, hnet, Response.json, hg]
    · simp [login, hc, hnet, Response.json]
    · simp [login, hc, hnet]
    · simp [login, hc, hnet]
  · have hc := getCredentials_missing env w hall
    simp [login, hc]

/-- A stored region that is truthy is the region `login` writes back. -/
theorem login_region_kept (env : Env) (w : World) (arg : JVal)
    (hr : truthy (w.storage "region") = true) :
    (login arg env w).2.storage "region" = w.storage "region" := by
  have hreg : jsOr (credentialsOf w.storage).region
      (if arg = .undefined then JVal.str "in" else arg) = w.storage "region" := by
    simp [credentialsOf, jsOr, hr]
  by_cases hall : truthy (w.storage "zohoClientId") = true
      ∧ truthy (w.storage "zohoClientSecret") = true
      ∧ truthy (w.storage "zohoRefreshToken") = true
  · obtain ⟨hId, hSec, hRt⟩ := hall
    have hc := getCredentials_complete env w hId hSec hRt
    rcases hnet : env.net w.trace.length (loginRequest ("https://accounts.zoho." ++
            loginTld (w.storage "region") ++ "/oauth/v2/token")
          (credentialsOf w.storage)) with ⟨st, d | ⟨t, m⟩⟩ | msg | _
    · rcases getField_cases d "error" with ⟨er, hg⟩ | ⟨e, hg⟩
      · by_cases hte : truthy er = true
        · simp [login, hc, hreg, hnet, Response.json, hg, hte]
        · rcases getField_cases d "access_token" with ⟨a, hg2⟩ | ⟨e, hg2⟩
          · by_cases hta : truthy a = true
            · rcases getField_cases d "expires_in" with ⟨x, hg3⟩ | ⟨e, hg3⟩
              · simp [login, hc, hreg, hnet, Response.json, hg, hte, hg2, hta, hg3, Storage.set]
              · simp [login, hc, hreg, hnet, Response.json, hg, hte, hg2, hta, hg3]
            · simp [login, hc, hreg, hnet, Response.json, hg, hte, hg2, hta]
          · simp [login, hc, hreg, hnet, Response.json, hg, hte, hg2]
      · simp [login, hc, hreg, hnet, Response.json, hg]
    · simp [login, hc, hreg, hnet, Response.json]
    · simp [login, hc, hreg, hnet]
    · simp [login, hc, hreg, hnet]
  · have hc := getCredentials_missing env w hall
    simp [login, hc]

/-- The keys `refreshToken` can write or remove: every other key keeps its value. -/
theorem refreshToken_frame (env : Env) (w : World) (k : String) (hk : k ∉ logoutKeys) :
    (refreshToken env w).2.storage k = w.storage k := by
  have h1 : k ≠ "accessToken" := by
    intro h; subst h; exact hk (by decide)
  have h2 : k ≠ "tokenExpiry" := by
    intro h; subst h; exact hk (by decide)
  by_cases hall : truthy (w.storage "zohoClientId") = true
      ∧ truthy (w.storage "zohoClientSecret") = true
      ∧ truthy (w.storage "zohoRefreshToken") = true
  · obtain ⟨hId, hSec, hRt⟩ := hall
    have hc := getCredentials_complete env w hId hSec hRt
    have hu := refreshToken_tokenUrl w.storage
    have hreq : refreshTokenRequest (refreshTokenUrl w.storage) (credentialsOf w.storage)
        = refreshTokenRequestOf w.storage := rfl
    rcases hnet : env.net w.trace.length (refreshTokenRequestOf w.storage)
      with ⟨st, d | ⟨t, m⟩⟩ | msg | _
    · rcases getField_cases d "error" with ⟨er, hg⟩ | ⟨e, hg⟩
      · by_cases hte : truthy er = true
        · rw [refreshToken_error env w st d er hId hSec hRt hnet hg hte]
          simp [Storage.remove, hk]
        · have hte2 : truthy er = false := by simpa using hte
          rcases getField_cases d "access_token" with ⟨a, hg2⟩ | ⟨e, hg2⟩
          · obtain ⟨x, hg3⟩ := getField_returned_of_returned d "access_token" "expires_in" a hg2
            rw [refreshToken_success env w st d er a x hId hSec hRt hnet hg hte2 hg2 hg3]
            simp [Storage.set, h1, h2]
          · simp [refreshToken, hc, hu, hreq, hnet, Response.json, hg, hte, hg2]
      · simp [refreshToken, hc, hu, hreq, hnet, Response.json, hg]
    · simp [refreshToken, hc, hu, hreq, hnet, Response.json]
    · simp [refreshToken, hc, hu, hreq, hnet]
    · simp [refreshToken, hc, hu, hreq, hnet]
  · have hc := getCredentials_missing env w hall
    simp [refreshToken, hc]

/-- `getAccessToken` either refreshes or leaves the world as it was. -/
theorem getAccessToken_cases (env : Env) (w : World) :
    getAccessToken env w = refreshToken env w ∨ (getAccessToken env w).2 = w := by
  by_cases hA : truthy (w.storage "accessToken") = true
  · by_cases hE : truthy (w.storage "tokenExpiry") = true
        ∧ JNum.gt (some (env.clock w.trace.length))
          (JNum.sub (toNumber env (w.storage "tokenExpiry")) (some 300000)) = true
    · left
      simp [getAccessToken, hA, hE]
    · right
      simp [getAccessToken, hA, hE]
  · right
    simp [getAccessToken, hA]

theorem getAccessToken_frame (env : Env) (w : World) (k : String) (hk : k ∉ logoutKeys) :
    (getAccessToken env w).2.storage k = w.storage k := by
  rcases getAccessToken_cases env w with h | h
  · rw [h]
    exact refreshToken_frame env w k hk
  · rw [h]

theorem logout_frame (env : Env) (w : World) (k : String) (hk : k ∉ logoutKeys) :
    (logout env w).2.storage k = w.storage k := by
  rw [logout_eq]
  simp [Storage.remove, hk]

/-- The keys `refreshAccessToken` can write: every other key keeps its value. -/
theorem refreshAccessToken_frame (env : Env) (w : World) (k : String)
    (h1 : k ≠ "accessToken") (h2 : k ≠ "tokenExpiry") :
    (refreshAccessToken env w).2.storage k = w.storage k := by
  rcases refreshAccessToken_cases env w with h | h | h | ⟨a, x, _, h⟩ <;> rw [h] <;>
    simp [Storage.set, h1, h2]

/-- The keys `apiRequest` can write (through the refresh): every other key keeps its value. -/
theorem apiRequest_frame (endpoint : String) (options : Options) (env : Env) (k : String)
    (h1 : k ≠ "accessToken") (h2 : k ≠ "tokenExpiry") :
    ∀ (fuel : Nat) (w : World),
      (apiRequest fuel endpoint options env w).2.storage k = w.storage k := by
  intro fuel
  induction fuel with
  | zero => intro w; simp [apiRequest]
  | succ n ih =>
    intro w
    by_cases hstr : ∃ tok, w.storage "accessToken" = .str tok ∧ tok ≠ ""
    · obtain ⟨tok, hTok, hne⟩ := hstr
      by_cases h401 : ∃ body, env.net w.trace.length
          (apiFetchRequest endpoint options tok (w.storage "region")) = .responds ⟨401, body⟩
      · obtain ⟨body, hnet⟩ := h401
        rw [apiRequest_succ n endpoint options env w tok hTok hne, hnet]
        rcases refreshAccessToken_cases env
            (w.issue (apiFetchRequest endpoint options tok (w.storage "region")))
          with h | h | h | ⟨a, x, _, h⟩
        · rw [h]; simp [apiCatch_snd]
        · rw [h]; simp [apiCatch_snd]
        · rw [h]; simp
        · simp only [h, if_true]
          rw [ih]
          simp [Storage.set, h1, h2]
      · have hno : ∀ response, env.net w.trace.length
            (apiFetchRequest endpoint options tok (w.storage "region")) = .responds response →
            response.status ≠ 401 := by
          intro response hresp hst
          apply h401
          obtain ⟨st, body⟩ := response
          simp only at hst
          subst hst
          exact ⟨body, hresp⟩
        rw [(apiRequest_no_401 n endpoint options env w tok hTok hne hno).1]
        simp
    · rw [apiRequest_no_token (n + 1) endpoint options env w hstr]

/-- C23 as stated fails: `logout` removes the stored region. -/
theorem logout_removes_region :
    wBoundary.storage "region" = .str "in"
    ∧ (logout envAbc wBoundary).2.storage "region" = .undefined := by
  decide

/-- C23 as amended: whatever the provider and the relay answer, each of `login`,
`refreshToken`, `refreshAccessToken`, `getAccessToken`, `logout` and `apiRequest` leaves
`zohoClientId`, `zohoClientSecret` and `zohoRefreshToken` with the values (or the absence)
they had; `refreshAccessToken` and `apiRequest` also leave `region` as it was, and so does
`login` when the stored region is truthy. -/
theorem credentials_frame (env : Env) (w : World) (arg : JVal) (fuel : Nat)
    (endpoint : String) (options : Options) :
    (∀ k ∈ ["zohoClientId", "zohoClientSecret", "zohoRefreshToken"],
        (login arg env w).2.storage k = w.storage k
        ∧ (refreshToken env w).2.storage k = w.storage k
        ∧ (refreshAccessToken env w).2.storage k = w.storage k
        ∧ (getAccessToken env w).2.storage k = w.storage k
        ∧ (logout env w).2.storage k = w.storage k
        ∧ (apiRequest fuel endpoint options env w).2.storage k = w.storage k)
    ∧ (refreshAccessToken env w).2.storage "region" = w.storage "region"
    ∧ (apiRequest fuel endpoint options env w).2.storage "region" = w.storage "region"
    ∧ (truthy (w.storage "region") = true →
        (login arg env w).2.storage "region" = w.storage "region") := by
  refine ⟨?_, ?_, ?_, ?_⟩
  · intro k hk
    simp only [List.mem_cons, List.mem_singleton, List.not_mem_nil, or_false] at hk
    rcases hk with h | h | h <;> subst h <;>
      exact ⟨login_frame env w arg _ (by decide) (by decide) (by decide) (by decide),
        refreshToken_frame env w _ (by decide),
        refreshAccessToken_frame env w _ (by decide) (by decide),
        getAccessToken_frame env w _ (by decide),
        logout_frame env w _ (by decide),
        apiRequest_frame endpoint options env _ (by decide) (by decide) fuel w⟩
  · exact refreshAccessToken_frame env w _ (by decide) (by decide)
  · exact apiRequest_frame endpoint options env _ (by decide) (by decide) fuel w
  · exact login_region_kept env w arg

/-- C23 as amended, at a signed-in storage of the region `eu` and a successful `login`. -/
theorem credentials_frame_witness :
    truthy (wEuBothKeys.storage "region") = true
    ∧ (login (.str "in") envAbc wEuBothKeys).1 = .returned true
    ∧ (login (.str "in") envAbc wEuBothKeys).2.storage "region" = .str "eu"
    ∧ (login (.str "in") envAbc wEuBothKeys).2.storage "zohoRefreshToken" = .str "rt" :=
  ⟨by decide, by decide,
    ((credentials_frame envAbc wEuBothKeys (.str "in") 1 "/accounts" Options.empty).2.2.2
      (by decide)).trans (by decide),
    ((credentials_frame envAbc wEuBothKeys (.str "in") 1 "/accounts" Options.empty).1
      "zohoRefreshToken" (by decide)).1.trans (by decide)⟩

/-! ## The periodic check and its failures -/

/-- C25 as stated fails: an `ApiError` that carries the provider message
`Subscription expired` (a 403 answer to the account discovery) is caught and shows `!` on the
badge. -/
theorem checkForNewEmails_provider_message_sets_badge :
    (getAccounts 3 envSubscriptionExpired bgSignedIn.core).1 = .thrown ⟨"Subscription expired"⟩
    ∧ (checkForNewEmailsBody platformAscii 3 envSubscriptionExpired bgSignedIn).1
        = .thrown ⟨"Subscription expired"⟩
    ∧ (checkForNewEmails platformAscii 3 envSubscriptionExpired bgSignedIn).1 = .returned ()
    ∧ (checkForNewEmails platformAscii 3 envSubscriptionExpired bgSignedIn).2.core.badge = "!" := by
  decide

/-- C25 as amended: `checkForNewEmails` never rejects; when its `try` block fails with an
error `e` it fulfils, and it shows `!` on the badge exactly when the message of `e` contains
the text `expired` or the text `authenticated`, whatever raised `e`; when the block does not
fail, `checkForNewEmails` ends as the block does.  The messages `Not authenticated`,
`Authentication expired` and `Session expired, please login again` contain one of the two
texts, the relay-unavailable message contains neither. -/
theorem checkForNewEmails_catches (p : Platform) (fuel : Nat) (env : Env) (w : BgWorld) :
    (∀ e, (checkForNewEmails p fuel env w).1 ≠ .thrown e)
    ∧ (∀ e w1, checkForNewEmailsBody p fuel env w = (.thrown e, w1) →
        checkForNewEmails p fuel env w =
          (.returned (),
           if (jsIncludes e.message "expired" || jsIncludes e.message "authenticated") = true
           then { w1 with core := { w1.core with badge := "!" } } else w1))
    ∧ ((∀ e, (checkForNewEmailsBody p fuel env w).1 ≠ .thrown e) →
        checkForNewEmails p fuel env w = checkForNewEmailsBody p fuel env w)
    ∧ jsIncludes "Not authenticated" "authenticated" = true
    ∧ jsIncludes authenticationExpired "expired" = true
    ∧ jsIncludes sessionExpired "expired" = true
    ∧ (jsIncludes proxyNotRunning "expired" || jsIncludes proxyNotRunning "authenticated")
        = false := by
  have hthrown : ∀ e w1, checkForNewEmailsBody p fuel env w = (.thrown e, w1) →
      checkForNewEmails p fuel env w =
        (.returned (),
         if (jsIncludes e.message "expired" || jsIncludes e.message "authenticated") = true
         then { w1 with core := { w1.core with badge := "!" } } else w1) := by
    intro e w1 h
    by_cases hm : (jsIncludes e.message "expired" || jsIncludes e.message "authenticated") = true
    · simp only [checkForNewEmails, Bg.tryCatch, h, hm, if_true]
      rfl
    · simp only [checkForNewEmails, Bg.tryCatch, h, hm, if_false]
      rfl
  have hother : (∀ e, (checkForNewEmailsBody p fuel env w).1 ≠ .thrown e) →
      checkForNewEmails p fuel env w = checkForNewEmailsBody p fuel env w := by
    intro h
    rcases hb : checkForNewEmailsBody p fuel env w with ⟨o, w1⟩
    cases o with
    | thrown e => exact absurd (by rw [hb]) (h e)
    | returned v => simp only [checkForNewEmails, Bg.tryCatch, hb]
    | pending => simp only [checkForNewEmails, Bg.tryCatch, hb]
    | outOfFuel => simp only [checkForNewEmails, Bg.tryCatch, hb]
  refine ⟨?_, hthrown, hother, by decide, by decide, by decide, by decide⟩
  intro e
  by_cases hb : ∃ e1, (checkForNewEmailsBody p fuel env w).1 = .thrown e1
  · obtain ⟨e1, he1⟩ := hb
    have h := hthrown e1 (checkForNewEmailsBody p fuel env w).2 (Prod.ext he1 rfl)
    rw [h]
    simp
  · have hno : ∀ e1, (checkForNewEmailsBody p fuel env w).1 ≠ .thrown e1 := by
      intro e1 h1
      exact hb ⟨e1, h1⟩
    rw [hother hno]
    exact hno e

theorem checkForNewEmails_catches_witness :
    (checkForNewEmailsBody platformAscii 3 envAlways401 bgSignedIn).1
      = .thrown ⟨authenticationExpired⟩
    ∧ (checkForNewEmails platformAscii 3 envAlways401 bgSignedIn).1 = .returned ()
    ∧ (checkForNewEmails platformAscii 3 envAlways401 bgSignedIn).2.core.badge = "!" := by
  have h := (checkForNewEmails_catches platformAscii 3 envAlways401 bgSignedIn).2.1
    ⟨authenticationExpired⟩ (checkForNewEmailsBody platformAscii 3 envAlways401 bgSignedIn).2
    (Prod.ext (by decide) rfl)
  refine ⟨by decide, ?_, ?_⟩
  · rw [h]
  · rw [h]
    decide

/-! ## Two calls of `refreshToken` in flight -/

theorem refreshTokenPrepare_complete (env : Env) (w : World)
    (hId : truthy (w.storage "zohoClientId") = true)
    (hSec : truthy (w.storage "zohoClientSecret") = true)
    (hRt : truthy (w.storage "zohoRefreshToken") = true) :
    refreshTokenPrepare env w = (.returned (refreshTokenRequestOf w.storage), w) := by
  have hc := getCredentials_complete env w hId hSec hRt
  have hu := refreshToken_tokenUrl w.storage
  simp [refreshTokenPrepare, hc, hu, refreshTokenRequestOf]

theorem refreshTokenPrepare_missing (env : Env) (w : World)
    (h : ¬ (truthy (w.storage "zohoClientId") = true ∧ truthy (w.storage "zohoClientSecret") = true
      ∧ truthy (w.storage "zohoRefreshToken") = true)) :
    refreshTokenPrepare env w = (.thrown ⟨credentialsMissing⟩, w) := by
  have hc := getCredentials_missing env w h
  simp [refreshTokenPrepare, hc]

/-- The two parts are the function: `refreshToken` is the first part, the `fetch` of the
request, and the second part on its answer. -/
theorem refreshToken_split :
    refreshToken = (do
      let request ← refreshTokenPrepare
      let response ← awaitFetch request
      refreshTokenResume response) := by
  funext env w
  by_cases hall : truthy (w.storage "zohoClientId") = true
      ∧ truthy (w.storage "zohoClientSecret") = true
      ∧ truthy (w.storage "zohoRefreshToken") = true
  · obtain ⟨hId, hSec, hRt⟩ := hall
    have hc := getCredentials_complete env w hId hSec hRt
    have hu := refreshToken_tokenUrl w.storage
    have hp := refreshTokenPrepare_complete env w hId hSec hRt
    have hreq : refreshTokenRequest (refreshTokenUrl w.storage) (credentialsOf w.storage)
        = refreshTokenRequestOf w.storage := rfl
    rcases hnet : env.net w.trace.length (refreshTokenRequestOf w.storage)
      with r | msg | _
    · simp [refreshToken, refreshTokenResume, hc, hu, hreq, hp, hnet]
    · simp [refreshToken, hc, hu, hreq, hp, hnet]
    · simp [refreshToken, hc, hu, hreq, hp, hnet]
  · have hc := getCredentials_missing env w hall
    have hp := refreshTokenPrepare_missing env w hall
    simp [refreshToken, hc, hp]

/-- The second part of `refreshToken` issues no token exchange and leaves the credentials as
they are. -/
theorem refreshTokenResume_effect (response : Response) (env : Env) (w : World) :
    tokenExchanges (refreshTokenResume response env w).2.trace = tokenExchanges w.trace
    ∧ ∀ k, k ∉ logoutKeys →
        (refreshTokenResume response env w).2.storage k = w.storage k := by
  have hk12 : ∀ k, k ∉ logoutKeys → k ≠ "accessToken" ∧ k ≠ "tokenExpiry" := by
    intro k hk
    constructor
    · intro h; subst h; exact hk (by decide)
    · intro h; subst h; exact hk (by decide)
  obtain ⟨st, d | ⟨t, m⟩⟩ := response
  · rcases getField_cases d "error" with ⟨er, hg⟩ | ⟨e, hg⟩
    · by_cases hte : truthy er = true
      · by_cases hat : truthy (w.storage "accessToken") = true
        · refine ⟨?_, ?_⟩
          · simp [refreshTokenResume, Response.json, hg, hte, logout_eq, hat, tokenExchanges,
              List.filter_append, isTokenExchange_revokeRequestOf]
          · intro k hk
            simp [refreshTokenResume, Response.json, hg, hte, logout_eq, Storage.remove, hk]
        · refine ⟨?_, ?_⟩
          · simp [refreshTokenResume, Response.json, hg, hte, logout_eq, hat]
          · intro k hk
            simp [refreshTokenResume, Response.json, hg, hte, logout_eq, Storage.remove, hk]
      · rcases getField_cases d "access_token" with ⟨a, hg2⟩ | ⟨e, hg2⟩
        · rcases getField_cases d "expires_in" with ⟨x, hg3⟩ | ⟨e, hg3⟩
          · refine ⟨?_, ?_⟩
            · simp [refreshTokenResume, Response.json, hg, hte, hg2, hg3]
            · intro k hk
              simp [refreshTokenResume, Response.json, hg, hte, hg2, hg3, Storage.set,
                (hk12 k hk).1, (hk12 k hk).2]
          · simp [refreshTokenResume, Response.json, hg, hte, hg2, hg3]
        · simp [refreshTokenResume, Response.json, hg, hte, hg2]
    · simp [refreshTokenResume, Response.json, hg]
  · simp [refreshTokenResume, Response.json]

/-- One piece of a call over complete credentials: the credentials stay complete, and a token
exchange is added exactly when the call starts. -/
theorem advance_invariant (env : Env) (c : Call) (w : World)
    (hId : truthy (w.storage "zohoClientId") = true)
    (hSec : truthy (w.storage "zohoClientSecret") = true)
    (hRt : truthy (w.storage "zohoRefreshToken") = true) :
    (truthy ((c.advance env w).2.storage "zohoClientId") = true
      ∧ truthy ((c.advance env w).2.storage "zohoClientSecret") = true
      ∧ truthy ((c.advance env w).2.storage "zohoRefreshToken") = true)
    ∧ tokenExchanges (c.advance env w).2.trace + c.started
        = tokenExchanges w.trace + (c.advance env w).1.started := by
  cases c with
  | idle =>
    have hp := refreshTokenPrepare_complete env w hId hSec hRt
    simp [Call.advance, hp, Call.started, World.issue, hId, hSec, hRt, tokenExchanges,
      List.filter_append, isTokenExchange_refreshTokenRequestOf]
  | waiting position request =>
    rcases hnet : env.net position request with r | msg | _
    · have he := refreshTokenResume_effect r env w
      have h1 := he.2 "zohoClientId" (by decide)
      have h2 := he.2 "zohoClientSecret" (by decide)
      have h3 := he.2 "zohoRefreshToken" (by decide)
      simp [Call.advance, hnet, Call.started, h1, h2, h3, hId, hSec, hRt, he.1]
    · simp [Call.advance, hnet, Call.started, hId, hSec, hRt]
    · simp [Call.advance, hnet, Call.started, hId, hSec, hRt]
  | settled result =>
    simp [Call.advance, Call.started, hId, hSec, hRt]

theorem runSchedule_invariant (env : Env) :
    ∀ (schedule : List Turn) (pool : Pool),
      truthy (pool.world.storage "zohoClientId") = true →
      truthy (pool.world.storage "zohoClientSecret") = true →
      truthy (pool.world.storage "zohoRefreshToken") = true →
      tokenExchanges (runSchedule env schedule pool).world.trace
          + pool.first.started + pool.second.started
        = tokenExchanges pool.world.trace
          + (runSchedule env schedule pool).first.started
          + (runSchedule env schedule pool).second.started := by
  intro schedule
  induction schedule with
  | nil => intro pool _ _ _; simp [runSchedule]
  | cons t rest ih =>
    intro pool hId hSec hRt
    cases t with
    | first =>
      have hinv := advance_invariant env pool.first pool.world hId hSec hRt
      have h := ih (pool.turn env .first) (by simpa [Pool.turn] using hinv.1.1)
        (by simpa [Pool.turn] using hinv.1.2.1) (by simpa [Pool.turn] using hinv.1.2.2)
      have h2 := hinv.2
      simp only [runSchedule]
      simp only [Pool.turn] at h ⊢
      omega
    | second =>
      have hinv := advance_invariant env pool.second pool.world hId hSec hRt
      have h := ih (pool.turn env .second) (by simpa [Pool.turn] using hinv.1.1)
        (by simpa [Pool.turn] using hinv.1.2.1) (by simpa [Pool.turn] using hinv.1.2.2)
      have h2 := hinv.2
      simp only [runSchedule]
      simp only [Pool.turn] at h ⊢
      omega

/-- C24 as stated fails: the second call starts while the request of the first is in flight,
and both calls issue a token exchange. -/
theorem refreshToken_concurrent_two_exchanges :
    tokenExchanges wBoundary.trace = 0
    ∧ (runSchedule envHour [.first, .second] (Pool.fresh wBoundary)).first
        = .waiting 0 (refreshTokenRequestOf wBoundary.storage)
    ∧ (runSchedule envHour [.first, .second] (Pool.fresh wBoundary)).second
        = .waiting 1 (refreshTokenRequestOf wBoundary.storage)
    ∧ tokenExchanges
        (runSchedule envHour [.first, .second, .first, .second] (Pool.fresh wBoundary)).world.trace
        = 2
    ∧ (runSchedule envHour [.first, .second, .first, .second] (Pool.fresh wBoundary)).first
        = .settled (.returned (.str "fresh"))
    ∧ (runSchedule envHour [.first, .second, .first, .second] (Pool.fresh wBoundary)).second
        = .settled (.returned (.str "fresh")) := by
  decide

/-- C24 as amended: over complete credentials and with no refresh in flight, two interleaved
calls of `refreshToken` result, under every schedule and whatever the provider answers, in
one token exchange for each call that has started: two once both have started, the second call
issuing its own request whether or not the request of the first is in flight. -/
theorem refreshToken_concurrent_exchanges (env : Env) (w : World) (schedule : List Turn)
    (hId : truthy (w.storage "zohoClientId") = true)
    (hSec : truthy (w.storage "zohoClientSecret") = true)
    (hRt : truthy (w.storage "zohoRefreshToken") = true) :
    tokenExchanges (runSchedule env schedule (Pool.fresh w)).world.trace
      = tokenExchanges w.trace
        + (runSchedule env schedule (Pool.fresh w)).first.started
        + (runSchedule env schedule (Pool.fresh w)).second.started := by
  have h := runSchedule_invariant env schedule (Pool.fresh w) hId hSec hRt
  simpa [Pool.fresh, Call.started] using h

theorem refreshToken_concurrent_exchanges_witness :
    truthy (wBoundary.storage "zohoClientId") = true
    ∧ tokenExchanges
        (runSchedule envHour [.first, .second, .first, .second] (Pool.fresh wBoundary)).world.trace
      = tokenExchanges wBoundary.trace
        + (runSchedule envHour [.first, .second, .first, .second]
            (Pool.fresh wBoundary)).first.started
        + (runSchedule envHour [.first, .second, .first, .second]
            (Pool.fresh wBoundary)).second.started :=
  ⟨by decide, refreshToken_concurrent_exchanges envHour wBoundary
    [.first, .second, .first, .second] (by decide) (by decide) (by decide)⟩

end ZohoMail
